import Mathlib

/-!
# Job portal backend: radius policy, great-circle distance and geo query

A shallow embedding of the search controllers
(`controllers/jobController.js`, `controllers/userController.js`), of the
configuration constants (`utils/constants.js`), of the distance helper
(`utils/helpers.js`) and of the location service
(`services/locationService.js`): its coordinate validation, its geo query
and the filters of its two searches.

Conventions of the embedding.

* A query-string parameter is an `Option String`; `none` is JavaScript's
  `undefined` (a parameter repeated in the URL, which Express turns into an
  array, is outside the model).
* The result of `parseInt` is an `Option Int`; `none` is `NaN`.  Integers are
  mathematical integers (digit strings long enough to leave the exactly
  representable range of a double are outside the model).
* A controller is modelled up to the single call it makes to the location
  service: it returns either the `ApiError` it throws or the arguments of that
  call together with the fields of the response that do not depend on the
  database.
-/

namespace JobPortal

/-! ## JavaScript primitives used by the controllers -/

/-- White space skipped by `parseInt` (ECMAScript `StrWhiteSpaceChar`). -/
def isStrWhiteSpaceChar (c : Char) : Bool :=
  c.toNat ∈ [0x09, 0x0A, 0x0B, 0x0C, 0x0D, 0x20, 0xA0, 0x1680, 0x2028, 0x2029,
    0x202F, 0x205F, 0x3000, 0xFEFF] || (0x2000 ≤ c.toNat && c.toNat ≤ 0x200A)

/-- Value of a character read as a digit (`0-9`, `a-z`, `A-Z`). -/
def digitValue (c : Char) : Option Nat :=
  if '0' ≤ c ∧ c ≤ '9' then some (c.toNat - '0'.toNat)
  else if 'a' ≤ c ∧ c ≤ 'z' then some (c.toNat - 'a'.toNat + 10)
  else if 'A' ≤ c ∧ c ≤ 'Z' then some (c.toNat - 'A'.toNat + 10)
  else none

/-- Whether `c` is a digit of radix `R`. -/
def isRadixDigit (R : Nat) (c : Char) : Bool :=
  match digitValue c with
  | some d => decide (d < R)
  | none => false

/-- Mathematical value of a list of radix-`R` digits, most significant first. -/
def digitsValue (R : Nat) (ds : List Char) : Nat :=
  ds.foldl (fun acc c => acc * R + (digitValue c).getD 0) 0

/-- Steps 2 to 4 of `parseInt`, after white space was trimmed: the sign, the
rest of the string, and whether a `-` was read. -/
def stripSign : List Char → Bool × List Char
  | '-' :: cs => (true, cs)
  | '+' :: cs => (false, cs)
  | cs => (false, cs)

/-- Radix selection of `parseInt` called without a radix: a `0x` or `0X`
prefix selects radix 16 and is removed, anything else is read in radix 10. -/
def stripRadixPrefix : List Char → Nat × List Char
  | '0' :: 'x' :: cs => (16, cs)
  | '0' :: 'X' :: cs => (16, cs)
  | cs => (10, cs)

/-- ECMAScript `ToString` of a value that is a string or `undefined`. -/
def jsToString : Option String → String
  | some s => s
  | none => "undefined"

/-- Global `parseInt(string)` of JavaScript, called with one argument.
`none` is `NaN`. -/
def parseInt (input : Option String) : Option Int :=
  let s := (jsToString input).toList.dropWhile isStrWhiteSpaceChar
  let (neg, s) := stripSign s
  let (R, s) := stripRadixPrefix s
  let z := s.takeWhile (isRadixDigit R)
  if z.isEmpty then none
  else some (if neg then -(digitsValue R z : Int) else (digitsValue R z : Int))

/-- JavaScript `a || b` where `a` is a number or `NaN` and `b` a number:
`NaN` and `0` are falsy. -/
def jsOr (a : Option Int) (b : Int) : Int :=
  match a with
  | some n => if n ≠ 0 then n else b
  | none => b

/-- JavaScript truthiness of a value that is a string or `undefined`: only
`undefined` and the empty string are falsy. -/
def truthy : Option String → Bool
  | some s => s != ""
  | none => false

/-! ## utils/constants.js -/

/-- The two environment variables read by `SEARCH_RADIUS`. -/
structure Env where
  FREE_SEARCH_RADIUS_KM : Option String
  PREMIUM_SEARCH_RADIUS_KM : Option String

/-- Shape of the `SEARCH_RADIUS` constant. -/
structure SearchRadius where
  FREE : Int
  PREMIUM : Int
deriving DecidableEq, Repr

/-- Constant `SEARCH_RADIUS` of `utils/constants.js`. -/
def SEARCH_RADIUS (env : Env) : SearchRadius :=
  { FREE := jsOr (parseInt env.FREE_SEARCH_RADIUS_KM) 10
    PREMIUM := jsOr (parseInt env.PREMIUM_SEARCH_RADIUS_KM) 100 }

/-- An environment in which neither radius variable is set. -/
def defaultEnv : Env := ⟨none, none⟩

/-! ## Requests and errors -/

/-- Error `ApiError(message, statusCode)` of `utils/ApiError.js`. -/
structure ApiError where
  message : String
  statusCode : Nat
deriving DecidableEq, Repr

/-- The columns of `req.user` that the search controllers read. -/
structure User where
  id : Nat
  role : Option String
  subscription_status : Option String
deriving DecidableEq, Repr

/-- The query-string parameters read by the search controllers. -/
structure Query where
  latitude : Option String := none
  longitude : Option String := none
  radius : Option String := none
  keyword : Option String := none
  job_type : Option String := none
  salary_min : Option String := none
  skills : Option String := none
  availability : Option String := none
  verified_only : Option String := none
  page : Option String := none
  limit : Option String := none
deriving DecidableEq, Repr

/-- The parts of an Express request that the search controllers read.
`user = none` is `req.user` being `null`. -/
structure Request where
  user : Option User
  query : Query
deriving DecidableEq, Repr

/-- Arguments of `locationService.searchJobsNearby`.  The coordinates are kept
as the strings that `parseFloat` is applied to, `minSalary` likewise. -/
structure JobsNearbyCall where
  latitude : String
  longitude : String
  radiusKm : Int
  keyword : Option String
  jobType : Option String
  minSalary : Option String
deriving DecidableEq, Repr

/-- Arguments of `locationService.searchJobSeekersNearby`.  The coordinates
are kept as the strings that `parseFloat` is applied to; `skills` is the list
that `Number` is mapped over. -/
structure SeekersNearbyCall where
  latitude : String
  longitude : String
  radiusKm : Int
  skills : Option (List String)
  availability : Option String
  verifiedOnly : Bool
  keyword : Option String
deriving DecidableEq, Repr

/-- Arguments of `UserModel.search`, the search without a location. -/
structure UserSearchCall where
  skills : Option (List String)
  availability : Option String
  verified : Bool
  keyword : Option String
  page : Option Int
  limit : Option Int
deriving DecidableEq, Repr

/-- Which data source `searchCandidates` queries. -/
inductive CandidatesAction where
  | geo (call : SeekersNearbyCall)
  | regular (call : UserSearchCall)
deriving DecidableEq, Repr

/-- What `searchCandidates` does on success: the query it runs and the
`searchRadius` and `isPremium` fields of its response. -/
structure CandidatesResult where
  action : CandidatesAction
  searchRadius : Int
  isPremium : Bool
deriving DecidableEq, Repr

deriving instance DecidableEq for Except

/-! ## controllers/jobController.js -/

/-- Radius computation of `searchNearbyJobs` (lines 164 to 174). -/
def nearbyJobsRadius (SR : SearchRadius) (user : Option User) (radius : Option String) : Int :=
  let searchRadius := jsOr (parseInt radius) SR.FREE
  match user with
  | some u =>
    let maxRadius := if u.subscription_status = some "premium" then SR.PREMIUM else SR.FREE
    min searchRadius maxRadius
  | none => min searchRadius SR.FREE

/-- Controller `searchNearbyJobs`. -/
def searchNearbyJobs (SR : SearchRadius) (req : Request) : Except ApiError JobsNearbyCall :=
  let q := req.query
  if !truthy q.latitude || !truthy q.longitude then
    .error ⟨"Latitude and longitude are required", 400⟩
  else
    let searchRadius := nearbyJobsRadius SR req.user q.radius
    .ok { latitude := jsToString q.latitude
          longitude := jsToString q.longitude
          radiusKm := searchRadius
          keyword := q.keyword
          jobType := q.job_type
          minSalary := if truthy q.salary_min then q.salary_min else none }

/-! ## controllers/userController.js -/

/-- The expression `skills ? skills.split(',') : null`. -/
def splitSkills (skills : Option String) : Option (List String) :=
  match skills with
  | some s => if s != "" then some (s.splitOn ",") else none
  | none => none

/-- Parameter default of a destructuring such as `page = 1`: only `undefined`
takes the default. -/
def withDefault (v : Option String) (d : String) : Option String :=
  match v with
  | some s => some s
  | none => some d

/-- Controller `searchCandidates`.  With `req.user` null the read of
`req.user.role` throws a `TypeError`, which the error handler reports as 500. -/
def searchCandidates (SR : SearchRadius) (req : Request) : Except ApiError CandidatesResult :=
  match req.user with
  | none => .error ⟨"TypeError", 500⟩
  | some u =>
    if !(u.role = some "employer" || u.role = some "admin") then
      .error ⟨"Only employers can search candidates", 403⟩
    else
      let q := req.query
      let isPremium : Bool := u.subscription_status = some "premium"
      let maxRadius := if isPremium then SR.PREMIUM else SR.FREE
      let searchRadius := min (jsOr (parseInt q.radius) maxRadius) maxRadius
      if truthy q.latitude && truthy q.longitude then
        .ok { action := .geo
                { latitude := jsToString q.latitude
                  longitude := jsToString q.longitude
                  radiusKm := searchRadius
                  skills := splitSkills q.skills
                  availability := q.availability
                  verifiedOnly := q.verified_only == some "true"
                  keyword := q.keyword }
              searchRadius := searchRadius
              isPremium := isPremium }
      else
        .ok { action := .regular
                { skills := splitSkills q.skills
                  availability := q.availability
                  verified := q.verified_only == some "true"
                  keyword := q.keyword
                  page := parseInt (withDefault q.page "1")
                  limit := parseInt (withDefault q.limit "10") }
              searchRadius := searchRadius
              isPremium := isPremium }

/-- Controller `getNearbyCandidates`. -/
def getNearbyCandidates (SR : SearchRadius) (req : Request) : Except ApiError SeekersNearbyCall :=
  match req.user with
  | none => .error ⟨"TypeError", 500⟩
  | some u =>
    if u.role ≠ some "employer" then
      .error ⟨"Only employers can access this", 403⟩
    else
      let q := req.query
      if !truthy q.latitude || !truthy q.longitude then
        .error ⟨"Latitude and longitude are required", 400⟩
      else
        let isPremium : Bool := u.subscription_status = some "premium"
        let searchRadius := if isPremium then SR.PREMIUM else SR.FREE
        .ok { latitude := jsToString q.latitude
              longitude := jsToString q.longitude
              radiusKm := searchRadius
              skills := none
              availability := none
              verifiedOnly := false
              keyword := none }

/-! ## The radius policy as the specification words it -/

/-- Tier cap in the words of the specification: the premium radius for a
caller whose subscription status is `premium`, the free radius for every
other caller, an unauthenticated one included. -/
def capFor (SR : SearchRadius) (user : Option User) : Int :=
  match user with
  | some u => if u.subscription_status = some "premium" then SR.PREMIUM else SR.FREE
  | none => SR.FREE

/-! ## Numbers of the distance code

The distance helper and the geo query are written once, over any number type
`F` that has the four arithmetic operations and the functions they call, so
that the same text runs on IEEE doubles (`floatOps`) and is reasoned about
over the real numbers (`realOps`).  The theorems of this file are about the
real interpretation: rounding errors of floating-point arithmetic are outside
their scope. -/

/-- The functions of JavaScript's `Math` object and of MySQL that the distance
code calls. `acos` is MySQL's `ACOS`, which is `NULL` outside `[-1, 1]`. -/
structure NumericOps (F : Type) where
  PI : F
  sin : F → F
  cos : F → F
  sqrt : F → F
  asin : F → F
  atan2 : F → F → F
  round : F → F
  acos : F → Option F

section Distance

variable {F : Type} [Add F] [Sub F] [Mul F] [Div F] [One F] [NatCast F]

/-! ## utils/helpers.js -/

/-- Helper `toRad` of `utils/helpers.js`. -/
def toRad (M : NumericOps F) (deg : F) : F := deg * (M.PI / 180)

/-- The local constant `a` of `calculateHaversineDistance`. -/
def haversineA (M : NumericOps F) (lat1 lon1 lat2 lon2 : F) : F :=
  let dLat := toRad M (lat2 - lat1)
  let dLon := toRad M (lon2 - lon1)
  M.sin (dLat / 2) * M.sin (dLat / 2) +
    M.cos (toRad M lat1) * M.cos (toRad M lat2) *
    M.sin (dLon / 2) * M.sin (dLon / 2)

/-- The local constant `distance` of `calculateHaversineDistance`: the
distance before it is rounded. -/
def haversineUnrounded (M : NumericOps F) (lat1 lon1 lat2 lon2 : F) : F :=
  let R : F := 6371
  let a := haversineA M lat1 lon1 lat2 lon2
  let c := 2 * M.atan2 (M.sqrt a) (M.sqrt (1 - a))
  R * c

/-- Function `calculateHaversineDistance` of `utils/helpers.js`. -/
def calculateHaversineDistance (M : NumericOps F) (lat1 lon1 lat2 lon2 : F) : F :=
  let distance := haversineUnrounded M lat1 lon1 lat2 lon2
  M.round (distance * 100) / 100

/-! ## services/locationService.js -/

/-- MySQL's `RADIANS`. -/
def radians (M : NumericOps F) (x : F) : F := x * (M.PI / 180)

/-- The argument of `acos` in the query of `searchWithinRadius`, for the
centre `(lat0, lon0)` bound to the placeholders and a row with the given
`latitude` and `longitude`. -/
def acosArgument (M : NumericOps F) (lat0 lon0 latitude longitude : F) : F :=
  M.cos (radians M lat0) * M.cos (radians M latitude) *
      M.cos (radians M longitude - radians M lon0) +
    M.sin (radians M lat0) * M.sin (radians M latitude)

/-- The `distance` column of the query of `searchWithinRadius`, for the centre
`(lat0, lon0)` bound to the placeholders and a row with the given `latitude`
and `longitude`.  `none` is `NULL`. -/
def distanceColumn (M : NumericOps F) (lat0 lon0 latitude longitude : F) : Option F :=
  (M.acos (acosArgument M lat0 lon0 latitude longitude)).map (fun x => 6371 * x)

/-- The clause `HAVING distance <= ?`: a `NULL` distance does not pass. -/
def havingDistance [LE F] (distance : Option F) (radiusKm : F) : Prop :=
  ∃ d, distance = some d ∧ d ≤ radiusKm

/-- Method `calculateDistance` of the location service. -/
def calculateDistance (M : NumericOps F) (lat1 lon1 lat2 lon2 : F) : F :=
  calculateHaversineDistance M lat1 lon1 lat2 lon2

/-! ## The distance as the specification words it -/

/-- Haversine formula in the words of the specification:
`d = 2R asin(sqrt(sin²(Δlat/2) + cos(lat1) cos(lat2) sin²(Δlon/2)))` with
`R = 6371` and the angles in radians. -/
def specDistance (M : NumericOps F) (lat1 lon1 lat2 lon2 : F) : F :=
  let φ1 := lat1 * M.PI / 180
  let φ2 := lat2 * M.PI / 180
  let dφ := φ2 - φ1
  let dl := lon2 * M.PI / 180 - lon1 * M.PI / 180
  2 * 6371 * M.asin (M.sqrt (M.sin (dφ / 2) * M.sin (dφ / 2) +
    M.cos φ1 * M.cos φ2 * (M.sin (dl / 2) * M.sin (dl / 2))))

end Distance

/-! ## The two interpretations of the numbers -/

instance : NatCast Float := ⟨Float.ofNat⟩

instance : One Float := ⟨1.0⟩

/-- IEEE doubles with the functions of the C library, as a JavaScript engine
and MySQL run the code (`Math.round` is written as `floor(x + 0.5)`, which
is what it computes whenever `x + 0.5` is exact). -/
def floatOps : NumericOps Float where
  PI := 3.141592653589793
  sin := Float.sin
  cos := Float.cos
  sqrt := Float.sqrt
  asin := Float.asin
  atan2 := Float.atan2
  round := fun x => Float.floor (x + 0.5)
  acos := fun x => if -1.0 ≤ x ∧ x ≤ 1.0 then some (Float.acos x) else none

/-- Function `Math.atan2(y, x)` over the reals: the angle in `(-π, π]` of the point
`(x, y)`, and `0` at the origin. -/
noncomputable def realAtan2 (y x : ℝ) : ℝ :=
  if 0 < x then Real.arctan (y / x)
  else if x < 0 then
    if 0 ≤ y then Real.arctan (y / x) + Real.pi else Real.arctan (y / x) - Real.pi
  else if 0 < y then Real.pi / 2
  else if y < 0 then -(Real.pi / 2)
  else 0

/-- The real numbers with the exact functions.  `Math.round` rounds to the
nearest integer, a tie towards `+∞`.  `Math.sqrt` and `Math.asin` are `NaN`
outside their domain where `Real.sqrt` and `Real.arcsin` are clamped; the
distance code only applies them inside it (`haversineA_nonneg`,
`haversineA_le_one`). -/
noncomputable def realOps : NumericOps ℝ where
  PI := Real.pi
  sin := Real.sin
  cos := Real.cos
  sqrt := Real.sqrt
  asin := Real.arcsin
  atan2 := realAtan2
  round := fun x => (⌊x + 1 / 2⌋ : ℝ)
  acos := fun x => if -1 ≤ x ∧ x ≤ 1 then some (Real.arccos x) else none

/-! ## Coordinates: `parseFloat` and `validateCoordinates`

A JavaScript number is `NaN`, an infinity or a finite value; the finite
values read from a decimal string are kept as exact rationals (the rounding
of a long decimal to the nearest double is outside the model). -/

/-- A JavaScript number as `parseFloat` produces it. -/
inductive JsNumber where
  | nan
  | infinity (negative : Bool)
  | finite (q : ℚ)
deriving DecidableEq

/-- Whether `c` is one of the decimal digits `0` to `9`. -/
def isDecimalDigit (c : Char) : Bool := decide ('0' ≤ c ∧ c ≤ '9')

/-- The optional fraction of a decimal literal: its digits and what follows. -/
def takeFraction : List Char → List Char × List Char
  | '.' :: t => (t.takeWhile isDecimalDigit, t.dropWhile isDecimalDigit)
  | cs => ([], cs)

/-- The digits of an exponent part, when they are there. -/
def exponentDigits (t : List Char) : Int :=
  let (neg, t) := stripSign t
  let ds := t.takeWhile isDecimalDigit
  if neg then -(digitsValue 10 ds : Int) else (digitsValue 10 ds : Int)

/-- The optional exponent part of a decimal literal; an `e` that no digit
follows is not part of the literal. -/
def takeExponent : List Char → Int
  | 'e' :: t => exponentDigits t
  | 'E' :: t => exponentDigits t
  | _ => 0

/-- A decimal literal as it is read: the sign, the value of the digits before
and after the point taken together, the number of digits after the point and
the exponent. -/
structure DecimalLiteral where
  negative : Bool
  digits : Nat
  scale : Nat
  exponent : Int
deriving DecidableEq, Repr

/-- The number that a decimal literal denotes. -/
def DecimalLiteral.value (d : DecimalLiteral) : ℚ :=
  let magnitude : ℚ := (d.digits : ℚ) / 10 ^ d.scale * 10 ^ d.exponent
  if d.negative then -magnitude else magnitude

/-- What `parseFloat` finds at the start of a string. -/
inductive ScannedNumber where
  | nan
  | infinity (negative : Bool)
  | literal (d : DecimalLiteral)
deriving DecidableEq, Repr

/-- The scan of `parseFloat`: the longest prefix of the trimmed string that is
a `StrDecimalLiteral`, and `NaN` when there is none. -/
def scanFloat (input : Option String) : ScannedNumber :=
  let s := (jsToString input).toList.dropWhile isStrWhiteSpaceChar
  let (neg, s) := stripSign s
  if "Infinity".toList.isPrefixOf s then .infinity neg
  else
    let intDigits := s.takeWhile isDecimalDigit
    let (fracDigits, rest) := takeFraction (s.dropWhile isDecimalDigit)
    if intDigits.isEmpty && fracDigits.isEmpty then .nan
    else .literal
      { negative := neg
        digits := digitsValue 10 (intDigits ++ fracDigits)
        scale := fracDigits.length
        exponent := takeExponent rest }

/-- Global `parseFloat(string)` of JavaScript. -/
def parseFloat (input : Option String) : JsNumber :=
  match scanFloat input with
  | .nan => .nan
  | .infinity negative => .infinity negative
  | .literal d => .finite d.value

/-- JavaScript `x < b` for a number `x` and a finite `b`. -/
def JsNumber.lt (x : JsNumber) (b : ℚ) : Bool :=
  match x with
  | .nan => false
  | .infinity negative => negative
  | .finite q => decide (q < b)

/-- JavaScript `x > b` for a number `x` and a finite `b`. -/
def JsNumber.gt (x : JsNumber) (b : ℚ) : Bool :=
  match x with
  | .nan => false
  | .infinity negative => !negative
  | .finite q => decide (q > b)

/-- JavaScript `isNaN` on a number. -/
def JsNumber.isNaN : JsNumber → Bool
  | .nan => true
  | _ => false

/-- Result object of `validateCoordinates`. -/
inductive CoordinateCheck where
  | invalid (error : String)
  | valid (latitude longitude : JsNumber)
deriving DecidableEq

/-- Method `validateCoordinates` of the location service. -/
def validateCoordinates (latitude longitude : Option String) : CoordinateCheck :=
  let lat := parseFloat latitude
  let lon := parseFloat longitude
  if lat.isNaN || lat.lt (-90) || lat.gt 90 then .invalid "Invalid latitude"
  else if lon.isNaN || lon.lt (-180) || lon.gt 180 then .invalid "Invalid longitude"
  else .valid lat lon

/-- The words "a number in `[-b, b]`" of the specification: finite, not
`NaN`, bounds inclusive. -/
def JsNumber.inRange (x : JsNumber) (b : ℚ) : Prop :=
  ∃ q, x = .finite q ∧ -b ≤ q ∧ q ≤ b

/-! ## The tables and the geo query of services/locationService.js

The query of `searchWithinRadius` is modelled by what it selects.  A condition
appended to `additionalConditions` is a constructor whose meaning on a row is
given by `holds`; a row passes `WHERE` when every condition is `TRUE` on it (a
comparison with `NULL` is not).  `ORDER BY distance ASC` fixes the order of the
result up to the order of rows at equal distance, which SQL leaves to the
database, so the method is a relation between its arguments and the lists it
may return.  String comparison is equality (collations are outside the
model) and `LIKE` is the operator of the database.  The helper `query` of
`config/database.js` runs every statement through `pool.execute`, a prepared
statement in which each placeholder stands for one value: the array that
`searchJobSeekersNearby` pushes for the placeholder of `skill_id IN (?)` is
bound as one value, and `skill_id IN (?)` compares `skill_id` with that one
value. -/

/-- The columns of a row of `users` that the geo query reads.  `none` is
`NULL`. -/
structure UserRow (F : Type) where
  id : Nat
  role : Option String
  is_active : Option Bool
  is_banned : Option Bool
  availability : Option String
  exam_verified : Option Bool
  expected_salary : Option ℚ
  latitude : Option F
  longitude : Option F

/-- A row of `user_skills`. -/
structure UserSkill where
  user_id : Nat
  skill_id : Nat
deriving DecidableEq, Repr

/-- The columns of a row of `jobs` that the geo query reads. -/
structure JobRow (F : Type) where
  id : Nat
  status : Option String
  job_type : Option String
  salary : Option ℚ
  salary_max : Option ℚ
  title : Option String
  description : Option String
  location : Option String
  latitude : Option F
  longitude : Option F

/-- The tables read by the location service, the `LIKE` operator of the
database (`like text pattern`), and the one value that the driver binds to a
placeholder for an array of skill ids: `arrayValue ids` is the skill id that
compares equal to that value, `none` when no skill id does. -/
structure Database (F : Type) where
  users : List (UserRow F)
  user_skills : List UserSkill
  jobs : List (JobRow F)
  like : String → String → Bool
  arrayValue : List Nat → Option Nat

/-- The `filters` argument of `searchJobSeekersNearby`. -/
structure SeekerFilters where
  skills : Option (List Nat) := none
  availability : Option String := none
  verifiedOnly : Bool := false
  maxSalary : Option ℚ := none
deriving DecidableEq, Repr

/-- The `filters` argument of `searchJobsNearby`. -/
structure JobFilters where
  jobType : Option String := none
  minSalary : Option ℚ := none
  keyword : Option String := none
deriving DecidableEq, Repr

/-- The conditions that `searchJobSeekersNearby` appends to the query:
* `fixed`: `AND role = 'job_seeker' AND is_active = TRUE AND is_banned = FALSE`
* `skillIn ids`: `AND id IN (SELECT user_id FROM user_skills WHERE skill_id IN (?))`
* `availabilityIs a`: `AND availability = ?`
* `examVerified`: `AND exam_verified = TRUE`
* `salaryAtMost m`: `AND (expected_salary IS NULL OR expected_salary <= ?)` -/
inductive SeekerCondition where
  | fixed
  | skillIn (ids : List Nat)
  | availabilityIs (a : String)
  | examVerified
  | salaryAtMost (m : ℚ)
deriving DecidableEq, Repr

/-- The conditions that `searchJobsNearby` appends to the query:
* `active`: `AND status = 'active'`
* `jobTypeIs t`: `AND job_type = ?`
* `salaryAtLeast m`: `AND (salary >= ? OR salary_max >= ?)`
* `keywordLike k`: `AND (title LIKE ? OR description LIKE ? OR location LIKE ?)`,
  each placeholder bound to `%k%` -/
inductive JobCondition where
  | active
  | jobTypeIs (t : String)
  | salaryAtLeast (m : ℚ)
  | keywordLike (k : String)
deriving DecidableEq, Repr

/-- JavaScript truthiness of a number that is not `NaN`. -/
def truthyNumber (x : Option ℚ) : Bool :=
  match x with
  | some q => decide (q ≠ 0)
  | none => false

/-- The condition list that `searchJobSeekersNearby` builds from its filters. -/
def seekerConditions (filters : SeekerFilters) : List SeekerCondition :=
  let conditions := [SeekerCondition.fixed]
  let conditions :=
    match filters.skills with
    | some ids => if ids.length > 0 then conditions ++ [.skillIn ids] else conditions
    | none => conditions
  let conditions :=
    match filters.availability with
    | some a => if a != "" then conditions ++ [.availabilityIs a] else conditions
    | none => conditions
  let conditions :=
    if filters.verifiedOnly then conditions ++ [.examVerified] else conditions
  let conditions :=
    match filters.maxSalary with
    | some m => if truthyNumber (some m) then conditions ++ [.salaryAtMost m] else conditions
    | none => conditions
  conditions

/-- The condition list that `searchJobsNearby` builds from its filters. -/
def jobConditions (filters : JobFilters) : List JobCondition :=
  let conditions := [JobCondition.active]
  let conditions :=
    match filters.jobType with
    | some t => if t != "" then conditions ++ [.jobTypeIs t] else conditions
    | none => conditions
  let conditions :=
    match filters.minSalary with
    | some m => if truthyNumber (some m) then conditions ++ [.salaryAtLeast m] else conditions
    | none => conditions
  let conditions :=
    match filters.keyword with
    | some k => if k != "" then conditions ++ [.keywordLike k] else conditions
    | none => conditions
  conditions

/-- Whether a column that may be `NULL` satisfies a comparison. -/
def sqlTrue {α : Type} (column : Option α) (test : α → Bool) : Bool :=
  match column with
  | some v => test v
  | none => false

section GeoQuery

variable {F : Type}

/-- Whether a condition on `users` is `TRUE` on a row.  In `skillIn ids` the
placeholder of `skill_id IN (?)` holds the one value bound for the array
`ids`, so the sub-query selects the users with the skill `arrayValue ids`. -/
def SeekerCondition.holds (arrayValue : List Nat → Option Nat) (user_skills : List UserSkill)
    (row : UserRow F) : SeekerCondition → Bool
  | .fixed =>
    row.role == some "job_seeker" && row.is_active == some true && row.is_banned == some false
  | .skillIn ids =>
    match arrayValue ids with
    | some bound => user_skills.any (fun us => us.user_id == row.id && us.skill_id == bound)
    | none => false
  | .availabilityIs a => row.availability == some a
  | .examVerified => row.exam_verified == some true
  | .salaryAtMost m =>
    row.expected_salary.isNone || sqlTrue row.expected_salary (fun s => decide (s ≤ m))

/-- Whether a condition on `jobs` is `TRUE` on a row. -/
def JobCondition.holds (like : String → String → Bool) (row : JobRow F) :
    JobCondition → Bool
  | .active => row.status == some "active"
  | .jobTypeIs t => row.job_type == some t
  | .salaryAtLeast m =>
    sqlTrue row.salary (fun s => decide (s ≥ m)) ||
      sqlTrue row.salary_max (fun s => decide (s ≥ m))
  | .keywordLike k =>
    sqlTrue row.title (fun t => like t ("%" ++ k ++ "%")) ||
      sqlTrue row.description (fun t => like t ("%" ++ k ++ "%")) ||
      sqlTrue row.location (fun t => like t ("%" ++ k ++ "%"))

variable [Add F] [Sub F] [Mul F] [Div F] [One F] [NatCast F]
variable [LE F] [DecidableRel (fun a b : F => a ≤ b)]
variable {R : Type}

/-- The clauses `WHERE latitude IS NOT NULL AND longitude IS NOT NULL`,
the additional conditions and `HAVING distance <= ?` on one row of the table:
the row with its `distance` column when it is selected. -/
def selectRow (M : NumericOps F) (lat lon : R → Option F) (latitude longitude radiusKm : F)
    (additionalConditions : R → Bool) (row : R) : Option (R × F) :=
  match lat row, lon row with
  | some la, some lo =>
    if additionalConditions row then
      match distanceColumn M latitude longitude la lo with
      | some d => if d ≤ radiusKm then some (row, d) else none
      | none => none
    else none
  | _, _ => none

/-- The clause `ORDER BY distance ASC` as a relation between two result rows. -/
def distanceAscending (a b : R × F) : Prop := a.2 ≤ b.2

/-- Method `searchWithinRadius`: `results` is a list that the query may
return, the selected rows of the table in an order of ascending distance.
The table is given by its rows and its two coordinate columns. -/
def searchWithinRadius (M : NumericOps F) (table : List R) (lat lon : R → Option F)
    (latitude longitude radiusKm : F) (additionalConditions : R → Bool)
    (results : List (R × F)) : Prop :=
  results.Perm (table.filterMap (selectRow M lat lon latitude longitude radiusKm
      additionalConditions)) ∧
    results.Sorted distanceAscending

/-- Method `searchJobSeekersNearby`. -/
def searchJobSeekersNearby (M : NumericOps F) (db : Database F)
    (latitude longitude radiusKm : F) (filters : SeekerFilters)
    (results : List (UserRow F × F)) : Prop :=
  searchWithinRadius M db.users UserRow.latitude UserRow.longitude latitude longitude radiusKm
    (fun row => (seekerConditions filters).all
      (fun c => c.holds db.arrayValue db.user_skills row)) results

/-- Method `searchJobsNearby`. -/
def searchJobsNearby (M : NumericOps F) (db : Database F)
    (latitude longitude radiusKm : F) (filters : JobFilters)
    (results : List (JobRow F × F)) : Prop :=
  searchWithinRadius M db.jobs JobRow.latitude JobRow.longitude latitude longitude radiusKm
    (fun row => (jobConditions filters).all (fun c => c.holds db.like row)) results

end GeoQuery

/-! ## Match weights of utils/constants.js -/

/-- Shape of the `MATCH_WEIGHTS` constant. -/
structure MatchWeights where
  SKILL : ℚ
  LOCATION : ℚ
  SALARY : ℚ
  AVAILABILITY : ℚ
  EXPERIENCE : ℚ

/-- Constant `MATCH_WEIGHTS` of `utils/constants.js`, its decimal literals
read as exact rationals. -/
def MATCH_WEIGHTS : MatchWeights :=
  { SKILL := 0.40
    LOCATION := 0.25
    SALARY := 0.20
    AVAILABILITY := 0.10
    EXPERIENCE := 0.05 }

/-! ## Pagination helpers of utils/helpers.js

An argument of `paginate` is given as the string that `parseInt` reads, a
number by its decimal representation (`toString`); `none` is an argument
that is left out. -/

/-- Shape of the `PAGINATION` constant. -/
structure PaginationDefaults where
  DEFAULT_PAGE : Int
  DEFAULT_LIMIT : Int
  MAX_LIMIT : Int
deriving DecidableEq, Repr

/-- Constant `PAGINATION` of `utils/constants.js`. -/
def PAGINATION : PaginationDefaults :=
  { DEFAULT_PAGE := 1, DEFAULT_LIMIT := 10, MAX_LIMIT := 100 }

/-- Result object of `paginate`; `none` is `NaN`. -/
structure Pagination where
  page : Option Int
  limit : Option Int
  offset : Option Int
deriving DecidableEq, Repr

/-- JavaScript `Math.max(a, x)` for a number `a` and an `x` that may be `NaN`. -/
def mathMax (a : Int) (x : Option Int) : Option Int := x.map (fun v => max a v)

/-- JavaScript `Math.min(x, b)` for a number `b` and an `x` that may be `NaN`. -/
def mathMin (x : Option Int) (b : Int) : Option Int := x.map (fun v => min v b)

/-- Helper `paginate` of `utils/helpers.js`, with its parameter defaults
`page = 1`, `limit = 10`, `maxLimit = 100`. -/
def paginate (page limit : Option String) (maxLimit : Option Int) : Pagination :=
  let maxLimit := maxLimit.getD 100
  let pageNum := mathMax 1 (parseInt (withDefault page "1"))
  let limitNum := mathMin (mathMax 1 (parseInt (withDefault limit "10"))) maxLimit
  let offset :=
    match pageNum, limitNum with
    | some p, some l => some ((p - 1) * l)
    | _, _ => none
  { page := pageNum, limit := limitNum, offset := offset }

/-- Result object of `createPaginationMeta`. -/
structure PaginationMeta where
  total : Int
  page : Int
  limit : Int
  totalPages : Int
  hasNextPage : Bool
  hasPrevPage : Bool

/-- Helper `createPaginationMeta` of `utils/helpers.js`, for numbers that are
integers and a `limit` other than 0. -/
def createPaginationMeta (total page limit : Int) : PaginationMeta :=
  let totalPages : Int := ⌈(total : ℚ) / (limit : ℚ)⌉
  { total := total
    page := page
    limit := limit
    totalPages := totalPages
    hasNextPage := decide (page < totalPages)
    hasPrevPage := decide (page > 1) }

/-- The records `[offset, offset + limit)` of a list, what
`LIMIT limit OFFSET offset` selects from it. -/
def pageSlice {α : Type} (xs : List α) (offset limit : Int) : List α :=
  (xs.drop offset.toNat).take limit.toNat

/-- The slice of a list that a result of `paginate` designates. -/
def Pagination.slice {α : Type} (P : Pagination) (xs : List α) : List α :=
  match P.offset, P.limit with
  | some offset, some limit => pageSlice xs offset limit
  | _, _ => []

/-- The call `paginate(page, limit, maxLimit)` on three integers. -/
def paginateNumbers (page limit maxLimit : Int) : Pagination :=
  paginate (some (toString page)) (some (toString limit)) (some maxLimit)

/-! ## Objects, request bodies and the controllers that write

A JavaScript object is the list of its own properties, each key once;
reading a property that is not there gives `none`, which is `undefined`. -/

/-- A value of a JSON body or of a column. -/
inductive JsValue where
  | null
  | bool (b : Bool)
  | number (q : ℚ)
  | string (s : String)
  | numbers (xs : List ℚ)
deriving DecidableEq

/-- An object: its properties in insertion order. -/
abbrev JsObject := List (String × JsValue)

/-- Property access `o[key]`. -/
def getField (o : JsObject) (key : String) : Option JsValue := List.lookup key o

/-- The statement `delete o[key]`. -/
def deleteField (o : JsObject) (key : String) : JsObject := o.filter (fun kv => kv.1 != key)

/-- JavaScript truthiness of a value. -/
def JsValue.truthy : JsValue → Bool
  | .null => false
  | .bool b => b
  | .number q => decide (q ≠ 0)
  | .string s => s != ""
  | .numbers _ => true

/-- JavaScript `v || d` for a property `v` that may be `undefined`. -/
def orElse (v : Option JsValue) (d : JsValue) : JsValue :=
  match v with
  | some x => if x.truthy then x else d
  | none => d

/-- The loop `allowedFields.forEach(field => if (data[field] !== undefined)
updateData[field] = data[field])` of `updateProfile` and of `JobModel.update`. -/
def pickDefined (allowedFields : List String) (data : JsObject) : JsObject :=
  allowedFields.filterMap (fun field => (getField data field).map (fun v => (field, v)))

/-- The parts of a request that the writing controllers read: `req.user`,
`req.params.id` and `req.body`. -/
structure BodyRequest where
  user : Option User
  id : String := ""
  body : JsObject := []

/-- The statement `UPDATE table SET column = ?, ... WHERE id = ?` with the
values bound to it, as the helper `update` of `config/database.js` builds it. -/
structure SqlUpdate where
  table : String
  set : JsObject
  id : Nat
deriving DecidableEq

/-- The list `allowedFields` of `updateProfile`. -/
def profileAllowedFields : List String :=
  ["name", "area", "latitude", "longitude", "profile_image",
   "availability", "expected_salary", "bio",
   "company_name", "company_description", "industry_type",
   "company_size", "website", "contact_person_name"]

/-- Method `UserModel.update`: the `UPDATE` it runs, none when no value is
left to write. -/
def UserModel.update (id : Nat) (data : JsObject) : Option SqlUpdate :=
  let cleanData := data.filterMap (fun kv => (getField data kv.1).map (fun v => (kv.1, v)))
  if cleanData.length = 0 then none
  else some { table := "users", set := cleanData, id := id }

/-- Controller `updateProfile`: the arguments it passes to `UserModel.update`. -/
def updateProfile (req : BodyRequest) : Except ApiError (Nat × JsObject) :=
  match req.user with
  | none => .error ⟨"TypeError", 500⟩
  | some u => .ok (u.id, pickDefined profileAllowedFields req.body)

/-- Controller `getUserById`: the `data` of its response.  The argument
`getUserWithSkills` is the lookup of `UserModel`. -/
def getUserById (getUserWithSkills : String → Option JsObject) (req : BodyRequest) :
    Except ApiError JsObject :=
  match getUserWithSkills req.id with
  | none => .error ⟨"User not found", 404⟩
  | some user =>
    match req.user with
    | none => .error ⟨"TypeError", 500⟩
    | some u =>
      if getField user "id" != some (.number u.id) && u.role != some "admin" then
        .ok (deleteField user "mobile")
      else .ok user

/-- A row of `jobs` as `JobModel.findById` returns it. -/
structure JobRecord where
  id : Nat
  employer_id : Nat
  fields : JsObject
deriving DecidableEq

/-- A call of a writing method of `JobModel`. -/
inductive JobModelCall where
  | update (id : String) (data : JsObject)
  | delete (id : String)
deriving DecidableEq

/-- Controller `updateJob`: the call to `JobModel` it ends with. -/
def updateJob (findById : String → Option JobRecord) (req : BodyRequest) :
    Except ApiError JobModelCall :=
  match findById req.id with
  | none => .error ⟨"Job not found", 404⟩
  | some job =>
    match req.user with
    | none => .error ⟨"TypeError", 500⟩
    | some u =>
      if job.employer_id != u.id && u.role != some "admin" then
        .error ⟨"Not authorized to update this job", 403⟩
      else .ok (.update req.id req.body)

/-- Controller `deleteJob`: the call to `JobModel` it ends with. -/
def deleteJob (findById : String → Option JobRecord) (req : BodyRequest) :
    Except ApiError JobModelCall :=
  match findById req.id with
  | none => .error ⟨"Job not found", 404⟩
  | some job =>
    match req.user with
    | none => .error ⟨"TypeError", 500⟩
    | some u =>
      if job.employer_id != u.id && u.role != some "admin" then
        .error ⟨"Not authorized to delete this job", 403⟩
      else .ok (.delete req.id)

/-- Controller `changeJobStatus`: the call to `JobModel` it ends with.  The
object `{ status }` has the property when the body has it. -/
def changeJobStatus (findById : String → Option JobRecord) (req : BodyRequest) :
    Except ApiError JobModelCall :=
  let status := getField req.body "status"
  match findById req.id with
  | none => .error ⟨"Job not found", 404⟩
  | some job =>
    match req.user with
    | none => .error ⟨"TypeError", 500⟩
    | some u =>
      if job.employer_id != u.id && u.role != some "admin" then
        .error ⟨"Not authorized", 403⟩
      else .ok (.update req.id (status.toList.map (fun v => ("status", v))))

/-- The collaborators of `createJob`: `JobModel.create` and the two methods of
the matching service, each of which returns or throws. -/
structure JobServices (Matches : Type) where
  create : Nat → JsObject → Except ApiError JobRecord
  findMatchesForJob : Nat → Except String Matches
  storeMatchResults : Nat → Matches → Except String Unit

/-- The JSON response of `createJob`. -/
structure CreateJobResponse where
  status : Nat
  success : Bool
  message : String
  data : JobRecord
deriving DecidableEq

/-- The callback that `createJob` hands to `setImmediate`: what it writes to
the console. -/
def generateMatches {Matches : Type} (services : JobServices Matches) (jobId : Nat) :
    List String :=
  match services.findMatchesForJob jobId >>= services.storeMatchResults jobId with
  | .ok _ => []
  | .error error => ["Error generating matches: " ++ error]

/-- Controller `createJob`: its response together with the console output of
the background callback. -/
def createJob {Matches : Type} (services : JobServices Matches) (req : BodyRequest) :
    Except ApiError (CreateJobResponse × List String) :=
  match req.user with
  | none => .error ⟨"TypeError", 500⟩
  | some u =>
    if u.role != some "employer" then
      .error ⟨"Only employers can create job postings", 403⟩
    else
      match services.create u.id req.body with
      | .error e => .error e
      | .ok job =>
        let console := generateMatches services job.id
        .ok ({ status := 201, success := true, message := "Job posted successfully",
               data := job }, console)

/-- The row that `JobModel.create` binds to `INSERT INTO jobs`, column by
column, and the skill ids it inserts into `job_skills`.  A bound value of
`none` is `undefined`. -/
structure JobInsert where
  row : List (String × Option JsValue)
  skills : List ℚ
deriving DecidableEq

/-- Method `JobModel.create`: what it inserts. -/
def JobModel.create (employerId : Nat) (data : JsObject) : JobInsert :=
  { row :=
      [("employer_id", some (.number employerId)),
       ("title", getField data "title"),
       ("description", getField data "description"),
       ("salary", some (orElse (getField data "salary") .null)),
       ("salary_min", some (orElse (getField data "salary_min") .null)),
       ("salary_max", some (orElse (getField data "salary_max") .null)),
       ("job_type", some (orElse (getField data "job_type") (.string "full_time"))),
       ("location", getField data "location"),
       ("latitude", some (orElse (getField data "latitude") .null)),
       ("longitude", some (orElse (getField data "longitude") .null)),
       ("experience_required", some (orElse (getField data "experience_required") .null)),
       ("education_required", some (orElse (getField data "education_required") .null)),
       ("vacancies", some (orElse (getField data "vacancies") (.number 1))),
       ("is_remote", some (orElse (getField data "is_remote") (.bool false)))]
    skills :=
      match getField data "skills" with
      | some (.numbers xs) => xs
      | _ => [] }

/-- The list `allowedFields` of `JobModel.update`. -/
def jobAllowedFields : List String :=
  ["title", "description", "salary", "salary_min", "salary_max",
   "job_type", "location", "latitude", "longitude", "status",
   "experience_required", "education_required", "vacancies", "is_remote"]

/-! ## Mobile numbers: utils/helpers.js -/

/-- Helper `formatMobile`: the digits of the input, without a leading `91`
when more than ten digits are there, cut to the last ten. -/
def formatMobile (mobile : String) : String :=
  let cleaned := mobile.toList.filter isDecimalDigit
  let cleaned :=
    if "91".toList.isPrefixOf cleaned && decide (cleaned.length > 10) then cleaned.drop 2
    else cleaned
  String.mk (cleaned.drop (cleaned.length - 10))

/-- The test of the regular expression `/^[6-9]\d{9}$/` on a string. -/
def matchesMobilePattern (s : String) : Bool :=
  match s.toList with
  | c :: rest => decide ('6' ≤ c ∧ c ≤ '9') && rest.length == 9 && rest.all isDecimalDigit
  | [] => false

/-- Helper `isValidMobile`. -/
def isValidMobile (mobile : String) : Bool :=
  let cleaned := formatMobile mobile
  matchesMobilePattern cleaned

/-- The words "a 10-digit string whose first digit is 6 to 9". -/
def IsTenDigitMobile (m : String) : Prop :=
  m.toList.length = 10 ∧ (∀ c ∈ m.toList, isDecimalDigit c = true) ∧
    ∃ c rest, m.toList = c :: rest ∧ '6' ≤ c ∧ c ≤ '9'

/-- A character that is neither a space nor a dash. -/
def notSeparator (c : Char) : Bool := c != ' ' && c != '-'

/-! ## One-time passwords: services/otpService.js

The table `otp_logs` is a list of rows and a time is a number; `verifyOTP`
takes the table and the time of the call and returns its result together
with the table after the call.  Among rows with the same `created_at` the
query `ORDER BY created_at DESC LIMIT 1` is taken to return the first. -/

/-- The constants of `OTP_SETTINGS` that do not depend on the environment. -/
structure OtpSettings where
  LENGTH : Nat
  MAX_ATTEMPTS : Nat
  RESEND_COOLDOWN_SECONDS : Nat
deriving DecidableEq, Repr

/-- Constant `OTP_SETTINGS` of `utils/constants.js`. -/
def OTP_SETTINGS : OtpSettings :=
  { LENGTH := 6, MAX_ATTEMPTS := 3, RESEND_COOLDOWN_SECONDS := 60 }

/-- A row of `otp_logs`. -/
structure OtpRecord where
  id : Nat
  mobile : String
  otp : String
  purpose : String
  expires_at : Nat
  verified : Bool
  verified_at : Option Nat
  attempts : Nat
  created_at : Nat
deriving DecidableEq, Repr

/-- The clause `ORDER BY created_at DESC LIMIT 1`. -/
def latestRecord (rows : List OtpRecord) : Option OtpRecord :=
  rows.foldl
    (fun best r =>
      match best with
      | none => some r
      | some b => if b.created_at < r.created_at then some r else some b)
    none

/-- The query of `verifyOTP`: the latest row of the mobile number and purpose
that is not verified. -/
def selectOtp (table : List OtpRecord) (mobile purpose : String) : Option OtpRecord :=
  latestRecord (table.filter (fun r => r.mobile == mobile && r.purpose == purpose && !r.verified))

/-- The statement `UPDATE otp_logs SET attempts = attempts + 1 WHERE id = ?`. -/
def incrementAttempts (table : List OtpRecord) (id : Nat) : List OtpRecord :=
  table.map (fun r => if r.id = id then { r with attempts := r.attempts + 1 } else r)

/-- The statement
`UPDATE otp_logs SET verified = TRUE, verified_at = NOW() WHERE id = ?`. -/
def markVerified (table : List OtpRecord) (id now : Nat) : List OtpRecord :=
  table.map (fun r => if r.id = id then { r with verified := true, verified_at := some now } else r)

/-- The object that `verifyOTP` returns. -/
structure OtpVerified where
  success : Bool
  message : String
deriving DecidableEq, Repr

/-- Method `verifyOTP` of the OTP service, called at the time `now`: what it
returns or throws, and the table afterwards. -/
def verifyOTP (now : Nat) (table : List OtpRecord) (mobile otp : String)
    (purpose : String := "login") : Except ApiError OtpVerified × List OtpRecord :=
  let formattedMobile := formatMobile mobile
  match selectOtp table formattedMobile purpose with
  | none => (.error ⟨"No OTP found. Please request a new one.", 400⟩, table)
  | some otpRecord =>
    if otpRecord.expires_at < now then
      (.error ⟨"OTP has expired. Please request a new one.", 400⟩, table)
    else if otpRecord.attempts ≥ OTP_SETTINGS.MAX_ATTEMPTS then
      (.error ⟨"Maximum OTP attempts exceeded. Please request a new one.", 400⟩, table)
    else if otpRecord.otp ≠ otp then
      let remainingAttempts : Int := (OTP_SETTINGS.MAX_ATTEMPTS : Int) - otpRecord.attempts - 1
      (.error ⟨"Invalid OTP. " ++ toString remainingAttempts ++ " attempts remaining.", 400⟩,
        incrementAttempts table otpRecord.id)
    else
      (.ok ⟨true, "OTP verified successfully"⟩, markVerified table otpRecord.id now)

/-! ## Query text and bound values: services/locationService.js

The text of a query is a string in which each run of white space of the
source is written as one blank; the values bound to its placeholders are a
list.  Every `conditions +=` statement is a fragment of text, and the
`params.push` that follows it gives the values of the fragment. -/

/-- A value bound to a placeholder: a number of the caller, a number of a
filter, a string or an array of skill ids. -/
inductive SqlParam (F : Type) where
  | number (x : F)
  | decimal (q : ℚ)
  | text (s : String)
  | list (ids : List Nat)
deriving DecidableEq, Repr

/-- The text that `searchJobSeekersNearby` adds to `conditions` for a condition. -/
def SeekerCondition.sql : SeekerCondition → String
  | .fixed => "AND role = 'job_seeker' AND is_active = TRUE AND is_banned = FALSE"
  | .skillIn _ => " AND id IN ( SELECT user_id FROM user_skills WHERE skill_id IN (?) )"
  | .availabilityIs _ => " AND availability = ?"
  | .examVerified => " AND exam_verified = TRUE"
  | .salaryAtMost _ => " AND (expected_salary IS NULL OR expected_salary <= ?)"

/-- The values that `searchJobSeekersNearby` pushes on `params` for a condition. -/
def SeekerCondition.params {F : Type} : SeekerCondition → List (SqlParam F)
  | .fixed => []
  | .skillIn ids => [.list ids]
  | .availabilityIs a => [.text a]
  | .examVerified => []
  | .salaryAtMost m => [.decimal m]

/-- The text that `searchJobsNearby` adds to `conditions` for a condition. -/
def JobCondition.sql : JobCondition → String
  | .active => "AND status = 'active'"
  | .jobTypeIs _ => " AND job_type = ?"
  | .salaryAtLeast _ => " AND (salary >= ? OR salary_max >= ?)"
  | .keywordLike _ => " AND (title LIKE ? OR description LIKE ? OR location LIKE ?)"

/-- The values that `searchJobsNearby` pushes on `params` for a condition. -/
def JobCondition.params {F : Type} : JobCondition → List (SqlParam F)
  | .active => []
  | .jobTypeIs t => [.text t]
  | .salaryAtLeast m => [.decimal m, .decimal m]
  | .keywordLike k =>
    let keyword := "%" ++ k ++ "%"
    [.text keyword, .text keyword, .text keyword]

/-- The string that the statements `conditions += ...` build from their fragments. -/
def concatSql (fragments : List String) : String :=
  fragments.foldl (fun conditions fragment => conditions ++ fragment) ""

/-- The `conditions` string of `searchJobSeekersNearby`. -/
def seekerSql (filters : SeekerFilters) : String :=
  concatSql ((seekerConditions filters).map SeekerCondition.sql)

/-- The `params` array of `searchJobSeekersNearby`. -/
def seekerParams (F : Type) (filters : SeekerFilters) : List (SqlParam F) :=
  (seekerConditions filters).flatMap SeekerCondition.params

/-- The `conditions` string of `searchJobsNearby`. -/
def jobSql (filters : JobFilters) : String :=
  concatSql ((jobConditions filters).map JobCondition.sql)

/-- The `params` array of `searchJobsNearby`. -/
def jobParams (F : Type) (filters : JobFilters) : List (SqlParam F) :=
  (jobConditions filters).flatMap JobCondition.params

/-- The text of `searchWithinRadius` before `additionalConditions`. -/
def searchWithinRadiusHead (table : String) : String :=
  "SELECT *, (6371 * acos( cos(radians(?)) * cos(radians(latitude)) * " ++
    "cos(radians(longitude) - radians(?)) + sin(radians(?)) * sin(radians(latitude)) )) " ++
    "AS distance FROM " ++ table ++ " WHERE latitude IS NOT NULL AND longitude IS NOT NULL "

/-- The test on the distance in the text of `searchWithinRadius`. -/
def havingClause : String := "HAVING distance <= ?"

/-- The text of `searchWithinRadius` after the test on the distance. -/
def orderClause : String := " ORDER BY distance ASC"

/-- The string `sql` of `searchWithinRadius`. -/
def searchWithinRadiusSql (table additionalConditions : String) : String :=
  searchWithinRadiusHead table ++ additionalConditions ++ " " ++ havingClause ++ orderClause

/-- The array `[latitude, longitude, latitude, ...params, radiusKm]` that
`searchWithinRadius` binds to the placeholders. -/
def searchWithinRadiusBound {F : Type} (latitude longitude radiusKm : F)
    (params : List (SqlParam F)) : List (SqlParam F) :=
  [.number latitude, .number longitude, .number latitude] ++ params ++ [.number radiusKm]

/-- The number of placeholders `?` of a query text. -/
def countPlaceholders (sql : String) : Nat :=
  sql.toList.count '?'

/-! ## Sample requests -/

/-- A job seeker on the free tier. -/
def freeSeeker : User := ⟨1, some "job_seeker", some "free"⟩

/-- A job seeker on the premium tier. -/
def premiumSeeker : User := ⟨2, some "job_seeker", some "premium"⟩

/-- An employer on the premium tier. -/
def premiumEmployer : User := ⟨3, some "employer", some "premium"⟩

/-- A query at the coordinates of Bangalore with the given radius parameter. -/
def bangalore (radius : Option String) : Query :=
  { latitude := some "12.9716", longitude := some "77.5946", radius := radius }

/-- An employer on the free tier. -/
def freeEmployer : User := ⟨4, some "employer", some "free"⟩

/-- A query with the given coordinates and no other parameter. -/
def queryAt (latitude longitude : String) : Query :=
  { latitude := some latitude, longitude := some longitude }

/-! ## Sample tables -/

/-- A verified, immediately available job seeker at the point `(0, 0)` who
expects a salary of 50000. -/
def alice : UserRow ℝ :=
  { id := 1, role := some "job_seeker", is_active := some true, is_banned := some false
    availability := some "immediate", exam_verified := some true
    expected_salary := some 50000, latitude := some 0, longitude := some 0 }

/-- A second job seeker at the same point, not verified, with no expected
salary. -/
def bob : UserRow ℝ :=
  { id := 2, role := some "job_seeker", is_active := some true, is_banned := some false
    availability := some "within_week", exam_verified := some false
    expected_salary := none, latitude := some 0, longitude := some 0 }

/-- An active job at the point `(0, 0)`. -/
def activeJob : JobRow ℝ :=
  { id := 1, status := some "active", job_type := some "full_time", salary := some 30000
    salary_max := none, title := some "Electrician", description := none, location := none
    latitude := some 0, longitude := some 0 }

/-- A database in which `alice` holds the skill 1 and nobody else holds a
skill; its `LIKE` matches nothing, and the value bound for an array of skill
ids equals no skill id. -/
def sampleDb : Database ℝ :=
  { users := [alice, bob], user_skills := [⟨1, 1⟩], jobs := [activeJob]
    like := fun _ _ => false, arrayValue := fun _ => none }

/-- A database in which `alice` holds the skill 1 only and `bob` the skill 2
only, for a driver that binds arrays as `arrayValue` says. -/
def skillsDb (arrayValue : List Nat → Option Nat) : Database ℝ :=
  { users := [alice, bob], user_skills := [⟨1, 1⟩, ⟨2, 2⟩], jobs := []
    like := fun _ _ => false, arrayValue := arrayValue }

/-- A job seeker at the point `(0, 180)`, half the way around the equator from
the point `(0, 0)`. -/
def carol : UserRow ℝ :=
  { id := 3, role := some "job_seeker", is_active := some true, is_banned := some false
    availability := some "immediate", exam_verified := some true
    expected_salary := none, latitude := some 0, longitude := some 180 }

/-- A database whose table `users` holds `carol` before `alice`. -/
def farDb : Database ℝ :=
  { users := [carol, alice], user_skills := [], jobs := []
    like := fun _ _ => false, arrayValue := fun _ => none }

/-- Filters asking for verified seekers who are available immediately. -/
def verifiedImmediate : SeekerFilters :=
  { availability := some "immediate", verifiedOnly := true }

/-- Filters listing the skills 1 and 2. -/
def skillsOneOrTwo : SeekerFilters := { skills := some [1, 2] }

/-! ## Stricter filters -/

/-- Filters `strict` keep every filter that is in force in `loose` in force,
the same or tightened: a non-empty skill list of `loose` is answered by the
same list, an availability by the same availability, `verifiedOnly` by
`verifiedOnly`, and a non-zero salary ceiling by a non-zero ceiling that is
not higher.  Filters that `loose` does not have may be added freely. -/
def SeekerFilters.tightens (strict loose : SeekerFilters) : Prop :=
  (∀ ids, loose.skills = some ids → ids ≠ [] → strict.skills = some ids) ∧
  (∀ a, loose.availability = some a → a ≠ "" → strict.availability = some a) ∧
  (loose.verifiedOnly = true → strict.verifiedOnly = true) ∧
  (∀ m, loose.maxSalary = some m → m ≠ 0 →
    ∃ m', strict.maxSalary = some m' ∧ m' ≠ 0 ∧ m' ≤ m)

/-! ## Sample bodies and records -/

/-- A body for `createJob` with a location on the equator. -/
def equatorJob : JsObject :=
  [("title", .string "Electrician"), ("description", .string "Wiring of a new building"),
   ("location", .string "Pontianak"), ("latitude", .number 0), ("longitude", .number 109.33)]

/-- A body for `updateProfile` that also names columns outside the list. -/
def profileBody : JsObject :=
  [("name", .string "Asha"), ("role", .string "admin"), ("is_banned", .bool false),
   ("mobile", .string "9000000000")]

/-- A user record as `getUserWithSkills` returns it. -/
def ashaRecord : JsObject :=
  [("id", .number 7), ("name", .string "Asha"), ("mobile", .string "9876543210")]

/-- A lookup that knows the user 7 only. -/
def sampleUsers (id : String) : Option JsObject :=
  if id = "7" then some ashaRecord else none

/-- A job that belongs to the employer 3. -/
def sampleJob : JobRecord := { id := 11, employer_id := 3, fields := [] }

/-- A lookup that knows the job 11 only. -/
def sampleJobs (id : String) : Option JobRecord :=
  if id = "11" then some sampleJob else none

/-- Services whose matching step throws. -/
def failingMatching : JobServices Unit :=
  { create := fun _ _ => .ok sampleJob
    findMatchesForJob := fun _ => .error "matching service down"
    storeMatchResults := fun _ _ => .ok () }

/-- Services whose matching step succeeds. -/
def workingMatching : JobServices Unit :=
  { create := fun _ _ => .ok sampleJob
    findMatchesForJob := fun _ => .ok ()
    storeMatchResults := fun _ _ => .ok () }

/-- A table `otp_logs` with an old verified code and a fresh code for the
same number. -/
def otpLog : List OtpRecord :=
  [ { id := 1, mobile := "9876543210", otp := "111111", purpose := "login", expires_at := 100,
      verified := true, verified_at := some 10, attempts := 0, created_at := 5 },
    { id := 2, mobile := "9876543210", otp := "123456", purpose := "login", expires_at := 400,
      verified := false, verified_at := none, attempts := 0, created_at := 100 } ]

/-- The fresh row of `otpLog`. -/
def freshOtp : OtpRecord :=
  { id := 2, mobile := "9876543210", otp := "123456", purpose := "login", expires_at := 400,
    verified := false, verified_at := none, attempts := 0, created_at := 100 }

/-! ## Theorems: radius policy -/

theorem nearbyJobsRadius_le_capFor (SR : SearchRadius) (user : Option User)
    (radius : Option String) : nearbyJobsRadius SR user radius ≤ capFor SR user := by
  unfold nearbyJobsRadius capFor
  cases user with
  | none => exact min_le_right _ _
  | some u => exact min_le_right _ _

theorem jsOr_of_pos (r b : Int) (hr : 0 < r) : jsOr (some r) b = r := by
  have : r ≠ 0 := by omega
  simp [jsOr, this]

theorem searchNearbyJobs_ok (SR : SearchRadius) (req : Request)
    (hlat : truthy req.query.latitude = true) (hlon : truthy req.query.longitude = true) :
    ∃ c, searchNearbyJobs SR req = .ok c ∧
      c.radiusKm = nearbyJobsRadius SR req.user req.query.radius := by
  simp [searchNearbyJobs, hlat, hlon]

theorem searchNearbyJobs_radius (SR : SearchRadius) (req : Request) (c : JobsNearbyCall)
    (h : searchNearbyJobs SR req = .ok c) :
    c.radiusKm = nearbyJobsRadius SR req.user req.query.radius := by
  unfold searchNearbyJobs at h
  dsimp only at h
  split at h
  · cases h
  · cases h; rfl

theorem searchCandidates_radius (SR : SearchRadius) (req : Request) (res : CandidatesResult)
    (h : searchCandidates SR req = .ok res) :
    res.searchRadius =
        min (jsOr (parseInt req.query.radius) (capFor SR req.user)) (capFor SR req.user) ∧
      ∀ c, res.action = .geo c → c.radiusKm = res.searchRadius := by
  unfold searchCandidates at h
  cases hu : req.user with
  | none => simp [hu] at h
  | some u =>
    simp only [hu] at h
    split at h
    · cases h
    · split at h
      · cases h
        refine ⟨by simp [capFor], ?_⟩
        intro c hc
        cases hc
        rfl
      · cases h
        refine ⟨by simp [capFor], ?_⟩
        intro c hc
        cases hc

theorem searchCandidates_ok (SR : SearchRadius) (req : Request) (u : User)
    (hu : req.user = some u) (hrole : u.role = some "employer" ∨ u.role = some "admin") :
    ∃ res, searchCandidates SR req = .ok res := by
  unfold searchCandidates
  simp only [hu]
  have : (!(decide (u.role = some "employer") || decide (u.role = some "admin"))) = false := by
    rcases hrole with h | h <;> simp [h]
  rw [if_neg (by simp [this])]
  split <;> exact ⟨_, rfl⟩

theorem getNearbyCandidates_radius (SR : SearchRadius) (req : Request) (c : SeekersNearbyCall)
    (h : getNearbyCandidates SR req = .ok c) : c.radiusKm = capFor SR req.user := by
  unfold getNearbyCandidates at h
  cases hu : req.user with
  | none => simp [hu] at h
  | some u =>
    simp only [hu] at h
    split at h
    · cases h
    · split at h
      · cases h
      · cases h
        simp [capFor]

/-- C1. Tier cap invariant: whatever the environment, the caller (none, free,
premium) and the `radius` parameter (absent, non-numeric, zero, negative,
above the cap), the radius that `searchNearbyJobs`, `searchCandidates` and
`getNearbyCandidates` pass to the location service is at most the caller's
cap, the premium radius for a premium subscription and the free radius for
anybody else. -/
theorem tier_cap_invariant (env : Env) (req : Request) :
    (∀ c, searchNearbyJobs (SEARCH_RADIUS env) req = .ok c →
        c.radiusKm ≤ capFor (SEARCH_RADIUS env) req.user) ∧
    (∀ res c, searchCandidates (SEARCH_RADIUS env) req = .ok res → res.action = .geo c →
        c.radiusKm ≤ capFor (SEARCH_RADIUS env) req.user) ∧
    (∀ c, getNearbyCandidates (SEARCH_RADIUS env) req = .ok c →
        c.radiusKm ≤ capFor (SEARCH_RADIUS env) req.user) := by
  refine ⟨?_, ?_, ?_⟩
  · intro c h
    rw [searchNearbyJobs_radius _ _ _ h]
    exact nearbyJobsRadius_le_capFor _ _ _
  · intro res c h hc
    obtain ⟨h1, h2⟩ := searchCandidates_radius _ _ _ h
    rw [h2 c hc, h1]
    exact min_le_right _ _
  · intro c h
    rw [getNearbyCandidates_radius _ _ _ h]

/-- Witness of C1: an unauthenticated caller asking for 500 km around
Bangalore, whose search is run with a radius within the free cap of 10 km. -/
theorem tier_cap_invariant_witness :
    searchNearbyJobs (SEARCH_RADIUS defaultEnv) ⟨none, bangalore (some "500")⟩ =
        .ok ⟨"12.9716", "77.5946", 10, none, none, none⟩ ∧
      (10 : Int) ≤ capFor (SEARCH_RADIUS defaultEnv) none :=
  ⟨by decide,
    (tier_cap_invariant defaultEnv ⟨none, bangalore (some "500")⟩).1
      ⟨"12.9716", "77.5946", 10, none, none, none⟩ (by decide)⟩

/-- C2. For every tier, a `radius` parameter that parses to a positive integer
`r` makes `searchNearbyJobs` (given both coordinates) and `searchCandidates`
(given an employer or admin) search with exactly `min r cap`, the cap being
the one of the caller's tier. -/
theorem requested_radius_clamped (env : Env) (req : Request) (r : Int)
    (hr : parseInt req.query.radius = some r) (hpos : 0 < r) :
    (truthy req.query.latitude = true → truthy req.query.longitude = true →
      ∃ c, searchNearbyJobs (SEARCH_RADIUS env) req = .ok c ∧
        c.radiusKm = min r (capFor (SEARCH_RADIUS env) req.user)) ∧
    (∀ u, req.user = some u → u.role = some "employer" ∨ u.role = some "admin" →
      ∃ res, searchCandidates (SEARCH_RADIUS env) req = .ok res ∧
        res.searchRadius = min r (capFor (SEARCH_RADIUS env) req.user) ∧
        ∀ c, res.action = .geo c →
          c.radiusKm = min r (capFor (SEARCH_RADIUS env) req.user)) := by
  constructor
  · intro hlat hlon
    obtain ⟨c, hc, hrad⟩ := searchNearbyJobs_ok (SEARCH_RADIUS env) req hlat hlon
    refine ⟨c, hc, ?_⟩
    rw [hrad]
    unfold nearbyJobsRadius capFor
    rw [hr, jsOr_of_pos r _ hpos]
    cases req.user <;> rfl
  · intro u hu hrole
    obtain ⟨res, hres⟩ := searchCandidates_ok (SEARCH_RADIUS env) req u hu hrole
    obtain ⟨h1, h2⟩ := searchCandidates_radius _ _ _ hres
    rw [hr, jsOr_of_pos r _ hpos] at h1
    refine ⟨res, hres, h1, ?_⟩
    intro c hc
    rw [h2 c hc, h1]

/-- Witness of C2, the scenario of the specification: a free-tier seeker in
Bangalore who requests 500 km searches with 10 km under the default caps
(free 10, premium 100). -/
theorem requested_radius_clamped_witness :
    SEARCH_RADIUS defaultEnv = ⟨10, 100⟩ ∧
      ∃ c, searchNearbyJobs (SEARCH_RADIUS defaultEnv)
          ⟨some freeSeeker, bangalore (some "500")⟩ = .ok c ∧
        c.radiusKm = min 500 (capFor (SEARCH_RADIUS defaultEnv) (some freeSeeker)) ∧
        min 500 (capFor (SEARCH_RADIUS defaultEnv) (some freeSeeker)) = 10 :=
  ⟨by decide, by
    obtain ⟨c, hc, hrad⟩ :=
      (requested_radius_clamped defaultEnv ⟨some freeSeeker, bangalore (some "500")⟩ 500
        (by decide) (by decide)).1 (by decide) (by decide)
    exact ⟨c, hc, hrad, by decide⟩⟩

/-- C3 at its failing input.  A premium seeker who sends no `radius` to
`searchNearbyJobs` searches with the free radius 10, not with the premium cap
100 of the tier, while `searchCandidates` gives a premium employer who sends
no `radius` the cap 100. -/
theorem searchNearbyJobs_premium_without_radius :
    searchNearbyJobs (SEARCH_RADIUS defaultEnv) ⟨some premiumSeeker, bangalore none⟩ =
        .ok ⟨"12.9716", "77.5946", 10, none, none, none⟩ ∧
      capFor (SEARCH_RADIUS defaultEnv) (some premiumSeeker) = 100 ∧
      (searchCandidates (SEARCH_RADIUS defaultEnv)
          ⟨some premiumEmployer, bangalore none⟩).map (fun res => res.searchRadius) =
        .ok 100 := by
  decide

/-- C4 at its failing inputs.  `searchNearbyJobs` throws no error for a
negative, a zero or a non-numeric `radius`: `-5` is passed to the location
service as it is, `0` and `abc` are replaced by the free radius 10. -/
theorem searchNearbyJobs_accepts_invalid_radius :
    searchNearbyJobs (SEARCH_RADIUS defaultEnv) ⟨none, bangalore (some "-5")⟩ =
        .ok ⟨"12.9716", "77.5946", -5, none, none, none⟩ ∧
      searchNearbyJobs (SEARCH_RADIUS defaultEnv) ⟨none, bangalore (some "0")⟩ =
        .ok ⟨"12.9716", "77.5946", 10, none, none, none⟩ ∧
      searchNearbyJobs (SEARCH_RADIUS defaultEnv) ⟨none, bangalore (some "abc")⟩ =
        .ok ⟨"12.9716", "77.5946", 10, none, none, none⟩ := by
  decide

/-! ## Theorems: great-circle distance over the reals -/

theorem cos_mul_cos_bounds (p q : ℝ) :
    -(Real.sin ((q - p) / 2)) ^ 2 ≤ Real.cos p * Real.cos q ∧
      Real.cos p * Real.cos q ≤ Real.cos ((q - p) / 2) ^ 2 := by
  have hp : p = (q + p) / 2 - (q - p) / 2 := by ring
  have hq : q = (q + p) / 2 + (q - p) / 2 := by ring
  have hprod : Real.cos p * Real.cos q =
      (Real.cos ((q + p) / 2) * Real.cos ((q - p) / 2)) ^ 2 -
        (Real.sin ((q + p) / 2) * Real.sin ((q - p) / 2)) ^ 2 := by
    conv_lhs => rw [hp, hq]
    rw [Real.cos_sub, Real.cos_add]
    ring_nf
  have hu := Real.sin_sq_add_cos_sq ((q - p) / 2)
  have hv := Real.sin_sq_add_cos_sq ((q + p) / 2)
  rw [hprod]
  constructor <;>
    nlinarith [sq_nonneg (Real.sin ((q + p) / 2)), sq_nonneg (Real.cos ((q + p) / 2)),
      sq_nonneg (Real.sin ((q - p) / 2)), sq_nonneg (Real.cos ((q - p) / 2))]

/-- The constant `a` of the helper, written with the latitudes in radians. -/
theorem haversineA_real (lat1 lon1 lat2 lon2 : ℝ) :
    haversineA realOps lat1 lon1 lat2 lon2 =
      Real.sin ((toRad realOps lat2 - toRad realOps lat1) / 2) ^ 2 +
        Real.cos (toRad realOps lat1) * Real.cos (toRad realOps lat2) *
          Real.sin (toRad realOps (lon2 - lon1) / 2) ^ 2 := by
  have h : toRad realOps (lat2 - lat1) = toRad realOps lat2 - toRad realOps lat1 := by
    simp only [toRad]; ring
  simp only [haversineA, h]
  simp only [realOps]
  ring

theorem haversineA_nonneg (lat1 lon1 lat2 lon2 : ℝ) :
    0 ≤ haversineA realOps lat1 lon1 lat2 lon2 := by
  rw [haversineA_real]
  obtain ⟨h1, -⟩ := cos_mul_cos_bounds (toRad realOps lat1) (toRad realOps lat2)
  have hs := Real.sin_sq_le_one (toRad realOps (lon2 - lon1) / 2)
  nlinarith [sq_nonneg (Real.sin (toRad realOps (lon2 - lon1) / 2)),
    sq_nonneg (Real.sin ((toRad realOps lat2 - toRad realOps lat1) / 2))]

theorem haversineA_le_one (lat1 lon1 lat2 lon2 : ℝ) :
    haversineA realOps lat1 lon1 lat2 lon2 ≤ 1 := by
  rw [haversineA_real]
  obtain ⟨-, h2⟩ := cos_mul_cos_bounds (toRad realOps lat1) (toRad realOps lat2)
  have hs := Real.sin_sq_le_one (toRad realOps (lon2 - lon1) / 2)
  have hu := Real.sin_sq_add_cos_sq ((toRad realOps lat2 - toRad realOps lat1) / 2)
  nlinarith [sq_nonneg (Real.sin (toRad realOps (lon2 - lon1) / 2)),
    sq_nonneg (Real.cos ((toRad realOps lat2 - toRad realOps lat1) / 2))]

/-- On the quarter circle `atan2(√a, √(1 - a))` is `asin(√a)`. -/
theorem realAtan2_sqrt (a : ℝ) (h0 : 0 ≤ a) (h1 : a ≤ 1) :
    realAtan2 (Real.sqrt a) (Real.sqrt (1 - a)) = Real.arcsin (Real.sqrt a) := by
  rcases h1.lt_or_eq with hlt | rfl
  · have hpos : 0 < Real.sqrt (1 - a) := Real.sqrt_pos.mpr (by linarith)
    have hx : Real.sqrt a ∈ Set.Ioo (-(1 : ℝ)) 1 := by
      constructor
      · have := Real.sqrt_nonneg a
        linarith
      · rw [show (1 : ℝ) = Real.sqrt 1 by simp]
        exact Real.sqrt_lt_sqrt h0 hlt
    rw [realAtan2, if_pos hpos, Real.arcsin_eq_arctan hx, Real.sq_sqrt h0]
  · simp [realAtan2]

theorem haversineUnrounded_eq_arcsin (lat1 lon1 lat2 lon2 : ℝ) :
    haversineUnrounded realOps lat1 lon1 lat2 lon2 =
      6371 * (2 * Real.arcsin (Real.sqrt (haversineA realOps lat1 lon1 lat2 lon2))) := by
  have h := realAtan2_sqrt _ (haversineA_nonneg lat1 lon1 lat2 lon2)
    (haversineA_le_one lat1 lon1 lat2 lon2)
  simp only [haversineUnrounded]
  simp only [realOps] at h ⊢
  rw [h]

theorem haversineUnrounded_nonneg (lat1 lon1 lat2 lon2 : ℝ) :
    0 ≤ haversineUnrounded realOps lat1 lon1 lat2 lon2 := by
  rw [haversineUnrounded_eq_arcsin]
  have := Real.arcsin_nonneg.mpr (Real.sqrt_nonneg (haversineA realOps lat1 lon1 lat2 lon2))
  positivity

theorem haversineUnrounded_le (lat1 lon1 lat2 lon2 : ℝ) :
    haversineUnrounded realOps lat1 lon1 lat2 lon2 ≤ Real.pi * 6371 := by
  rw [haversineUnrounded_eq_arcsin]
  have := Real.arcsin_le_pi_div_two (Real.sqrt (haversineA realOps lat1 lon1 lat2 lon2))
  linarith

theorem haversineA_symm (lat1 lon1 lat2 lon2 : ℝ) :
    haversineA realOps lat1 lon1 lat2 lon2 = haversineA realOps lat2 lon2 lat1 lon1 := by
  rw [haversineA_real, haversineA_real]
  have h1 : (toRad realOps lat1 - toRad realOps lat2) / 2 =
      -((toRad realOps lat2 - toRad realOps lat1) / 2) := by ring
  have h2 : toRad realOps (lon1 - lon2) / 2 = -(toRad realOps (lon2 - lon1) / 2) := by
    simp only [toRad]; ring
  rw [h1, h2, Real.sin_neg, Real.sin_neg]
  ring

theorem calculateHaversineDistance_real (lat1 lon1 lat2 lon2 : ℝ) :
    calculateHaversineDistance realOps lat1 lon1 lat2 lon2 =
      (⌊100 * haversineUnrounded realOps lat1 lon1 lat2 lon2 + 1 / 2⌋ : ℝ) / 100 := by
  simp only [calculateHaversineDistance]
  simp only [realOps]
  rw [mul_comm]

theorem specDistance_real (lat1 lon1 lat2 lon2 : ℝ) :
    specDistance realOps lat1 lon1 lat2 lon2 =
      2 * 6371 * Real.arcsin (Real.sqrt (haversineA realOps lat1 lon1 lat2 lon2)) := by
  have h1 : (lat2 * Real.pi / 180 - lat1 * Real.pi / 180) / 2 =
      (lat2 - lat1) * (Real.pi / 180) / 2 := by ring
  have h2 : (lon2 * Real.pi / 180 - lon1 * Real.pi / 180) / 2 =
      (lon2 - lon1) * (Real.pi / 180) / 2 := by ring
  have h3 : lat1 * Real.pi / 180 = lat1 * (Real.pi / 180) := by ring
  have h4 : lat2 * Real.pi / 180 = lat2 * (Real.pi / 180) := by ring
  simp only [specDistance, haversineA, toRad]
  simp only [realOps]
  rw [h1, h2, h3, h4]
  congr 3
  ring

/-- The spherical law of cosines in terms of the haversine: the argument of
`acos` in the query is `1 - 2a`. -/
theorem acosArgument_real (lat0 lon0 lat lon : ℝ) :
    acosArgument realOps lat0 lon0 lat lon = 1 - 2 * haversineA realOps lat0 lon0 lat lon := by
  rw [haversineA_real]
  have hl : toRad realOps lon - toRad realOps lon0 =
      2 * (toRad realOps (lon - lon0) / 2) := by
    simp only [toRad]; ring
  have hd : Real.cos (toRad realOps lat - toRad realOps lat0) =
      1 - 2 * Real.sin ((toRad realOps lat - toRad realOps lat0) / 2) ^ 2 := by
    have := Real.cos_sq' ((toRad realOps lat - toRad realOps lat0) / 2)
    have h2 := Real.cos_two_mul ((toRad realOps lat - toRad realOps lat0) / 2)
    rw [show 2 * ((toRad realOps lat - toRad realOps lat0) / 2) =
      toRad realOps lat - toRad realOps lat0 by ring] at h2
    linarith
  have hc : Real.cos (2 * (toRad realOps (lon - lon0) / 2)) =
      1 - 2 * Real.sin (toRad realOps (lon - lon0) / 2) ^ 2 := by
    have := Real.cos_sq' (toRad realOps (lon - lon0) / 2)
    have h2 := Real.cos_two_mul (toRad realOps (lon - lon0) / 2)
    linarith
  rw [Real.cos_sub] at hd
  have hr : ∀ x, radians realOps x = toRad realOps x := fun _ => rfl
  simp only [acosArgument, hr, hl]
  simp only [realOps] at hd hc ⊢
  rw [hc]
  linarith

theorem arccos_one_sub_two_mul (a : ℝ) (h0 : 0 ≤ a) (h1 : a ≤ 1) :
    Real.arccos (1 - 2 * a) = 2 * Real.arcsin (Real.sqrt a) := by
  have hs0 : 0 ≤ Real.sqrt a := Real.sqrt_nonneg a
  have hs1 : Real.sqrt a ≤ 1 := by
    rw [show (1 : ℝ) = Real.sqrt 1 by simp]
    exact Real.sqrt_le_sqrt h1
  have hsin : Real.sin (Real.arcsin (Real.sqrt a)) = Real.sqrt a :=
    Real.sin_arcsin (by linarith) hs1
  have hcos : Real.cos (2 * Real.arcsin (Real.sqrt a)) = 1 - 2 * a := by
    have h2 := Real.cos_two_mul (Real.arcsin (Real.sqrt a))
    have h3 := Real.cos_sq' (Real.arcsin (Real.sqrt a))
    rw [hsin, Real.sq_sqrt h0] at h3
    linarith
  rw [← hcos]
  apply Real.arccos_cos
  · have := Real.arcsin_nonneg.mpr hs0
    linarith
  · have := Real.arcsin_le_pi_div_two (Real.sqrt a)
    linarith

theorem distanceColumn_real (lat0 lon0 lat lon : ℝ) :
    distanceColumn realOps lat0 lon0 lat lon =
      some (haversineUnrounded realOps lat0 lon0 lat lon) := by
  have h0 := haversineA_nonneg lat0 lon0 lat lon
  have h1 := haversineA_le_one lat0 lon0 lat lon
  have harg := acosArgument_real lat0 lon0 lat lon
  have hin : -1 ≤ acosArgument realOps lat0 lon0 lat lon ∧
      acosArgument realOps lat0 lon0 lat lon ≤ 1 := by
    rw [harg]; constructor <;> linarith
  rw [haversineUnrounded_eq_arcsin, ← arccos_one_sub_two_mul _ h0 h1, ← harg]
  simp only [distanceColumn]
  have : realOps.acos (acosArgument realOps lat0 lon0 lat lon) =
      some (Real.arccos (acosArgument realOps lat0 lon0 lat lon)) := by
    show (if _ then _ else _) = _
    rw [if_pos hin]
  rw [this]
  rfl

/-- C5. For all real coordinates in degrees the constant `a` of
`calculateHaversineDistance` is the haversine term
`sin²(Δlat/2) + cos(lat1) cos(lat2) sin²(Δlon/2)` of the angles in radians, it
lies in `[0, 1]`, and the unrounded distance `6371 * 2 * atan2(√a, √(1 - a))`
equals `2 * 6371 * asin(√a)`, the formula of the specification. -/
theorem haversine_refines_spec (lat1 lon1 lat2 lon2 : ℝ) :
    haversineA realOps lat1 lon1 lat2 lon2 =
        Real.sin ((lat2 * (Real.pi / 180) - lat1 * (Real.pi / 180)) / 2) ^ 2 +
          Real.cos (lat1 * (Real.pi / 180)) * Real.cos (lat2 * (Real.pi / 180)) *
            Real.sin ((lon2 - lon1) * (Real.pi / 180) / 2) ^ 2 ∧
      0 ≤ haversineA realOps lat1 lon1 lat2 lon2 ∧
      haversineA realOps lat1 lon1 lat2 lon2 ≤ 1 ∧
      haversineUnrounded realOps lat1 lon1 lat2 lon2 =
        6371 * (2 * realAtan2 (Real.sqrt (haversineA realOps lat1 lon1 lat2 lon2))
          (Real.sqrt (1 - haversineA realOps lat1 lon1 lat2 lon2))) ∧
      haversineUnrounded realOps lat1 lon1 lat2 lon2 =
        2 * 6371 * Real.arcsin (Real.sqrt (haversineA realOps lat1 lon1 lat2 lon2)) ∧
      haversineUnrounded realOps lat1 lon1 lat2 lon2 =
        specDistance realOps lat1 lon1 lat2 lon2 := by
  refine ⟨haversineA_real lat1 lon1 lat2 lon2, haversineA_nonneg _ _ _ _,
    haversineA_le_one _ _ _ _, rfl, ?_, ?_⟩
  · rw [haversineUnrounded_eq_arcsin]; ring
  · rw [specDistance_real, haversineUnrounded_eq_arcsin]; ring

/-- C6. The distance of a point to itself is exactly 0, for every coordinate
pair and so for every valid one (latitude in `[-90, 90]`, longitude in
`[-180, 180]`). -/
theorem distance_self (lat lon : ℝ) :
    calculateHaversineDistance realOps lat lon lat lon = 0 := by
  have ha : haversineA realOps lat lon lat lon = 0 := by
    rw [haversineA_real]
    simp [toRad]
  have hd : haversineUnrounded realOps lat lon lat lon = 0 := by
    rw [haversineUnrounded_eq_arcsin, ha]
    simp
  rw [calculateHaversineDistance_real, hd]
  norm_num

/-- C7. Symmetry: swapping the two points changes neither the unrounded
distance nor the rounded value that `calculateHaversineDistance` returns. -/
theorem distance_symm (lat1 lon1 lat2 lon2 : ℝ) :
    calculateHaversineDistance realOps lat1 lon1 lat2 lon2 =
        calculateHaversineDistance realOps lat2 lon2 lat1 lon1 ∧
      haversineUnrounded realOps lat1 lon1 lat2 lon2 =
        haversineUnrounded realOps lat2 lon2 lat1 lon1 := by
  have h : haversineUnrounded realOps lat1 lon1 lat2 lon2 =
      haversineUnrounded realOps lat2 lon2 lat1 lon1 := by
    rw [haversineUnrounded_eq_arcsin, haversineUnrounded_eq_arcsin, haversineA_symm]
  exact ⟨by rw [calculateHaversineDistance_real, calculateHaversineDistance_real, h], h⟩

/-- C8. For all coordinate pairs the unrounded distance lies between 0 and half
the circumference `π * 6371`, and the value returned by
`calculateHaversineDistance` lies between 0 and 20015.09, which is that bound
rounded to two decimals. -/
theorem distance_bounds (lat1 lon1 lat2 lon2 : ℝ) :
    0 ≤ haversineUnrounded realOps lat1 lon1 lat2 lon2 ∧
      haversineUnrounded realOps lat1 lon1 lat2 lon2 ≤ Real.pi * 6371 ∧
      0 ≤ calculateHaversineDistance realOps lat1 lon1 lat2 lon2 ∧
      calculateHaversineDistance realOps lat1 lon1 lat2 lon2 ≤ 20015.09 := by
  have h0 := haversineUnrounded_nonneg lat1 lon1 lat2 lon2
  have h1 := haversineUnrounded_le lat1 lon1 lat2 lon2
  refine ⟨h0, h1, ?_, ?_⟩
  · rw [calculateHaversineDistance_real]
    have : (0 : ℤ) ≤ ⌊100 * haversineUnrounded realOps lat1 lon1 lat2 lon2 + 1 / 2⌋ :=
      Int.floor_nonneg.mpr (by linarith)
    have : (0 : ℝ) ≤ ⌊100 * haversineUnrounded realOps lat1 lon1 lat2 lon2 + 1 / 2⌋ := by
      exact_mod_cast this
    positivity
  · rw [calculateHaversineDistance_real]
    have hpi := Real.pi_lt_d6
    have hlt : ⌊100 * haversineUnrounded realOps lat1 lon1 lat2 lon2 + 1 / 2⌋ < 2001510 := by
      rw [Int.floor_lt]
      push_cast
      nlinarith
    have hle : ⌊100 * haversineUnrounded realOps lat1 lon1 lat2 lon2 + 1 / 2⌋ ≤ 2001509 := by
      omega
    have : (⌊100 * haversineUnrounded realOps lat1 lon1 lat2 lon2 + 1 / 2⌋ : ℝ) ≤ 2001509 := by
      exact_mod_cast hle
    norm_num
    linarith

/-- C9. The value returned by `calculateHaversineDistance` is the unrounded
distance `d` rounded to two decimals: it is `⌊100 d + 1/2⌋ / 100`, an integer
multiple of 0.01, at most 0.005 away from `d`. -/
theorem distance_rounding (lat1 lon1 lat2 lon2 : ℝ) :
    calculateHaversineDistance realOps lat1 lon1 lat2 lon2 =
        (⌊100 * haversineUnrounded realOps lat1 lon1 lat2 lon2 + 1 / 2⌋ : ℝ) / 100 ∧
      (∃ k : ℤ, calculateHaversineDistance realOps lat1 lon1 lat2 lon2 = (k : ℝ) * 0.01) ∧
      |calculateHaversineDistance realOps lat1 lon1 lat2 lon2 -
          haversineUnrounded realOps lat1 lon1 lat2 lon2| ≤ 0.005 := by
  have h := calculateHaversineDistance_real lat1 lon1 lat2 lon2
  refine ⟨h, ⟨⌊100 * haversineUnrounded realOps lat1 lon1 lat2 lon2 + 1 / 2⌋, ?_⟩, ?_⟩
  · rw [h]; norm_num; ring
  · rw [h, abs_le]
    have h1 := Int.floor_le (100 * haversineUnrounded realOps lat1 lon1 lat2 lon2 + 1 / 2)
    have h2 := Int.lt_floor_add_one
      (100 * haversineUnrounded realOps lat1 lon1 lat2 lon2 + 1 / 2)
    constructor <;> norm_num <;> linarith

/-- C10. The `distance` column of the query of `searchWithinRadius` is the
haversine distance: for all coordinates the argument of `acos` lies in
`[-1, 1]`, the column is not `NULL` and equals the unrounded distance of
`calculateHaversineDistance` for the same two points, so that a row passes
`HAVING distance <= radiusKm` exactly when that distance is at most
`radiusKm`. -/
theorem distanceColumn_eq_haversine (lat0 lon0 lat lon : ℝ) :
    -1 ≤ acosArgument realOps lat0 lon0 lat lon ∧
      acosArgument realOps lat0 lon0 lat lon ≤ 1 ∧
      distanceColumn realOps lat0 lon0 lat lon =
        some (haversineUnrounded realOps lat0 lon0 lat lon) ∧
      ∀ radiusKm : ℝ, havingDistance (distanceColumn realOps lat0 lon0 lat lon) radiusKm ↔
        haversineUnrounded realOps lat0 lon0 lat lon ≤ radiusKm := by
  have h0 := haversineA_nonneg lat0 lon0 lat lon
  have h1 := haversineA_le_one lat0 lon0 lat lon
  have harg := acosArgument_real lat0 lon0 lat lon
  refine ⟨by rw [harg]; linarith, by rw [harg]; linarith, distanceColumn_real _ _ _ _, ?_⟩
  intro radiusKm
  rw [distanceColumn_real]
  simp [havingDistance]

/-! ## Theorems: coordinate validation -/

theorem JsNumber.in_range_iff (x : JsNumber) (b : ℚ) :
    x.inRange b ↔ (x.isNaN || x.lt (-b) || x.gt b) = false := by
  cases x with
  | nan => simp [JsNumber.inRange, JsNumber.isNaN]
  | infinity negative =>
    cases negative <;> simp [JsNumber.inRange, JsNumber.isNaN, JsNumber.lt, JsNumber.gt]
  | finite q => simp [JsNumber.inRange, JsNumber.isNaN, JsNumber.lt, JsNumber.gt]

theorem parseFloat_200 : parseFloat (some "200") = .finite 200 := by
  have h : scanFloat (some "200") = .literal ⟨false, 200, 0, 0⟩ := by decide
  simp [parseFloat, h, DecimalLiteral.value]

theorem parseFloat_bangalore_longitude : parseFloat (some "77.5946") = .finite 77.5946 := by
  have h : scanFloat (some "77.5946") = .literal ⟨false, 775946, 4, 0⟩ := by decide
  simp [parseFloat, h, DecimalLiteral.value]
  norm_num

theorem parseFloat_bangalore_latitude : parseFloat (some "12.9716") = .finite 12.9716 := by
  have h : scanFloat (some "12.9716") = .literal ⟨false, 129716, 4, 0⟩ := by decide
  simp [parseFloat, h, DecimalLiteral.value]
  norm_num

theorem validateCoordinates_out_of_range :
    validateCoordinates (some "200") (some "77.5946") = .invalid "Invalid latitude" := by
  simp [validateCoordinates, parseFloat_200, JsNumber.isNaN, JsNumber.lt, JsNumber.gt]
  norm_num

/-- C11. `validateCoordinates` answers valid, with the two parsed numbers,
exactly when the parsed latitude is a number in `[-90, 90]` and the parsed
longitude a number in `[-180, 180]`, bounds included; the error is
`Invalid latitude` whenever the latitude is bad, whatever the longitude, and
`Invalid longitude` exactly when the latitude is good and the longitude
bad. -/
theorem validateCoordinates_iff (latitude longitude : Option String) :
    (validateCoordinates latitude longitude =
        .valid (parseFloat latitude) (parseFloat longitude) ↔
      (parseFloat latitude).inRange 90 ∧ (parseFloat longitude).inRange 180) ∧
    (∀ lat lon, validateCoordinates latitude longitude = .valid lat lon →
      lat = parseFloat latitude ∧ lon = parseFloat longitude) ∧
    (¬ (parseFloat latitude).inRange 90 →
      validateCoordinates latitude longitude = .invalid "Invalid latitude") ∧
    (validateCoordinates latitude longitude = .invalid "Invalid longitude" ↔
      (parseFloat latitude).inRange 90 ∧ ¬ (parseFloat longitude).inRange 180) ∧
    (∀ error, validateCoordinates latitude longitude = .invalid error →
      error = "Invalid latitude" ∨ error = "Invalid longitude") := by
  rw [JsNumber.in_range_iff, JsNumber.in_range_iff]
  unfold validateCoordinates
  dsimp only
  cases h1 : ((parseFloat latitude).isNaN || (parseFloat latitude).lt (-90) ||
      (parseFloat latitude).gt 90) <;>
    cases h2 : ((parseFloat longitude).isNaN || (parseFloat longitude).lt (-180) ||
      (parseFloat longitude).gt 180) <;>
    simp

/-- Witness of C11: the coordinates of Bangalore are valid and come back
parsed, and a latitude of 200 is answered with `Invalid latitude`. -/
theorem validateCoordinates_iff_witness :
    validateCoordinates (some "12.9716") (some "77.5946") =
        .valid (.finite 12.9716) (.finite 77.5946) ∧
      validateCoordinates (some "200") (some "77.5946") = .invalid "Invalid latitude" := by
  have hlat : (parseFloat (some "12.9716")).inRange 90 := by
    rw [parseFloat_bangalore_latitude]
    exact ⟨_, rfl, by norm_num, by norm_num⟩
  have hlon : (parseFloat (some "77.5946")).inRange 180 := by
    rw [parseFloat_bangalore_longitude]
    exact ⟨_, rfl, by norm_num, by norm_num⟩
  have hbad : ¬ (parseFloat (some "200")).inRange 90 := by
    rw [parseFloat_200]
    rintro ⟨q, hq, -, h⟩
    cases hq
    norm_num at h
  refine ⟨?_, (validateCoordinates_iff (some "200") (some "77.5946")).2.2.1 hbad⟩
  have h := (validateCoordinates_iff (some "12.9716") (some "77.5946")).1.mpr ⟨hlat, hlon⟩
  rw [parseFloat_bangalore_latitude, parseFloat_bangalore_longitude] at h
  exact h

/-- C12 at its failing inputs.  `searchNearbyJobs` hands a latitude that
parses to 200 to the location service, and `getNearbyCandidates` does the
same for an employer, although `validateCoordinates` answers
`Invalid latitude` for these coordinates. -/
theorem geo_search_accepts_out_of_range_latitude :
    searchNearbyJobs (SEARCH_RADIUS defaultEnv) ⟨none, queryAt "200" "77.5946"⟩ =
        .ok ⟨"200", "77.5946", 10, none, none, none⟩ ∧
      getNearbyCandidates (SEARCH_RADIUS defaultEnv)
          ⟨some freeEmployer, queryAt "200" "77.5946"⟩ =
        .ok ⟨"200", "77.5946", 10, none, none, false, none⟩ ∧
      parseFloat (some "200") = .finite 200 ∧
      validateCoordinates (some "200") (some "77.5946") = .invalid "Invalid latitude" :=
  ⟨by decide, by decide, parseFloat_200, validateCoordinates_out_of_range⟩

/-! ## Theorems: the geo query -/

theorem mem_seekerConditions (filters : SeekerFilters) (c : SeekerCondition) :
    c ∈ seekerConditions filters ↔
      c = .fixed ∨
      (∃ ids, filters.skills = some ids ∧ ids ≠ [] ∧ c = .skillIn ids) ∨
      (∃ a, filters.availability = some a ∧ a ≠ "" ∧ c = .availabilityIs a) ∨
      (filters.verifiedOnly = true ∧ c = .examVerified) ∨
      (∃ m, filters.maxSalary = some m ∧ m ≠ 0 ∧ c = .salaryAtMost m) := by
  obtain ⟨skills, availability, verifiedOnly, maxSalary⟩ := filters
  unfold seekerConditions
  dsimp only
  rcases skills with _ | ids <;> rcases availability with _ | a <;>
    rcases maxSalary with _ | m <;> cases verifiedOnly <;>
    simp only [truthyNumber, List.length_pos, bne_iff_ne, ne_eq, decide_eq_true_eq,
      decide_not, Bool.not_eq_true', decide_eq_false_iff_not, ite_not] <;>
    split_ifs <;> simp_all

theorem mem_jobConditions (filters : JobFilters) (c : JobCondition) :
    c ∈ jobConditions filters ↔
      c = .active ∨
      (∃ t, filters.jobType = some t ∧ t ≠ "" ∧ c = .jobTypeIs t) ∨
      (∃ m, filters.minSalary = some m ∧ m ≠ 0 ∧ c = .salaryAtLeast m) ∨
      (∃ k, filters.keyword = some k ∧ k ≠ "" ∧ c = .keywordLike k) := by
  obtain ⟨jobType, minSalary, keyword⟩ := filters
  unfold jobConditions
  dsimp only
  rcases jobType with _ | t <;> rcases minSalary with _ | m <;> rcases keyword with _ | k <;>
    simp only [truthyNumber, bne_iff_ne, ne_eq, decide_eq_true_eq,
      decide_not, Bool.not_eq_true', decide_eq_false_iff_not, ite_not] <;>
    (try split_ifs) <;> simp_all

theorem seeker_passes_iff {F : Type} (filters : SeekerFilters)
    (arrayValue : List Nat → Option Nat) (user_skills : List UserSkill) (row : UserRow F) :
    (seekerConditions filters).all (fun c => c.holds arrayValue user_skills row) = true ↔
      (row.role = some "job_seeker" ∧ row.is_active = some true ∧
        row.is_banned = some false) ∧
      (∀ ids, filters.skills = some ids → ids ≠ [] →
        ∃ s, arrayValue ids = some s ∧ UserSkill.mk row.id s ∈ user_skills) ∧
      (∀ a, filters.availability = some a → a ≠ "" → row.availability = some a) ∧
      (filters.verifiedOnly = true → row.exam_verified = some true) ∧
      (∀ m, filters.maxSalary = some m → m ≠ 0 →
        row.expected_salary = none ∨ ∃ s, row.expected_salary = some s ∧ s ≤ m) := by
  have hskill : ∀ ids : List Nat,
      (SeekerCondition.skillIn ids).holds arrayValue user_skills row = true ↔
        ∃ s, arrayValue ids = some s ∧ UserSkill.mk row.id s ∈ user_skills := by
    intro ids
    cases hv : arrayValue ids with
    | none => simp [SeekerCondition.holds, hv]
    | some bound =>
      simp only [SeekerCondition.holds, hv, List.any_eq_true, Bool.and_eq_true, beq_iff_eq,
        Option.some.injEq]
      constructor
      · rintro ⟨⟨u, s⟩, hmem, hu, hs⟩
        dsimp only at hu hs
        subst hu
        subst hs
        exact ⟨s, rfl, hmem⟩
      · rintro ⟨s, hs, hmem⟩
        subst hs
        exact ⟨⟨row.id, bound⟩, hmem, rfl, rfl⟩
  have hsal : ∀ m : ℚ,
      (row.expected_salary.isNone ||
          sqlTrue row.expected_salary (fun s => decide (s ≤ m))) = true ↔
        (row.expected_salary = none ∨ ∃ s, row.expected_salary = some s ∧ s ≤ m) := by
    intro m
    cases row.expected_salary <;> simp [sqlTrue]
  rw [List.all_eq_true]
  constructor
  · intro h
    refine ⟨?_, ?_, ?_, ?_, ?_⟩
    · have := h .fixed ((mem_seekerConditions filters _).mpr (Or.inl rfl))
      simpa [SeekerCondition.holds, and_assoc] using this
    · intro ids h1 h2
      have := h (.skillIn ids)
        ((mem_seekerConditions filters _).mpr (Or.inr (Or.inl ⟨ids, h1, h2, rfl⟩)))
      exact (hskill ids).mp this
    · intro a h1 h2
      have := h (.availabilityIs a)
        ((mem_seekerConditions filters _).mpr (Or.inr (Or.inr (Or.inl ⟨a, h1, h2, rfl⟩))))
      simpa [SeekerCondition.holds] using this
    · intro h1
      have := h .examVerified
        ((mem_seekerConditions filters _).mpr (Or.inr (Or.inr (Or.inr (Or.inl ⟨h1, rfl⟩)))))
      simpa [SeekerCondition.holds] using this
    · intro m h1 h2
      have := h (.salaryAtMost m)
        ((mem_seekerConditions filters _).mpr
          (Or.inr (Or.inr (Or.inr (Or.inr ⟨m, h1, h2, rfl⟩)))))
      exact (hsal m).mp this
  · rintro ⟨hfix, hsk, hav, hver, hmax⟩ c hc
    rcases (mem_seekerConditions filters c).mp hc with
      rfl | ⟨ids, h1, h2, rfl⟩ | ⟨a, h1, h2, rfl⟩ | ⟨h1, rfl⟩ | ⟨m, h1, h2, rfl⟩
    · simpa [SeekerCondition.holds, and_assoc] using hfix
    · exact (hskill ids).mpr (hsk ids h1 h2)
    · simpa [SeekerCondition.holds] using hav a h1 h2
    · simpa [SeekerCondition.holds] using hver h1
    · exact (hsal m).mpr (hmax m h1 h2)

section GeoQueryTheorems

variable {F : Type} [Add F] [Sub F] [Mul F] [Div F] [NatCast F]
variable [Preorder F] [DecidableRel (fun a b : F => a ≤ b)]
variable {R : Type}

theorem selectRow_eq_some_iff (M : NumericOps F) (lat lon : R → Option F)
    (latitude longitude radiusKm : F) (conds : R → Bool) (row r : R) (d : F) :
    selectRow M lat lon latitude longitude radiusKm conds row = some (r, d) ↔
      r = row ∧ conds row = true ∧ ∃ la lo, lat row = some la ∧ lon row = some lo ∧
        distanceColumn M latitude longitude la lo = some d ∧ d ≤ radiusKm := by
  unfold selectRow
  cases hla : lat row with
  | none => simp
  | some la =>
    cases hlo : lon row with
    | none => simp
    | some lo =>
      dsimp only
      cases hc : conds row with
      | false => simp
      | true =>
        rw [if_pos rfl]
        cases hd : distanceColumn M latitude longitude la lo with
        | none => simp [hd]
        | some x =>
          dsimp only
          by_cases hx : x ≤ radiusKm
          · rw [if_pos hx]
            constructor
            · intro h
              cases h
              exact ⟨rfl, rfl, la, lo, rfl, rfl, hd, hx⟩
            · rintro ⟨rfl, -, la', lo', h1, h2, h3, -⟩
              cases h1; cases h2
              rw [hd] at h3
              cases h3
              rfl
          · rw [if_neg hx]
            constructor
            · intro h; cases h
            · rintro ⟨-, -, la', lo', h1, h2, h3, h4⟩
              cases h1; cases h2
              rw [hd] at h3
              cases h3
              exact absurd h4 hx

theorem mem_searchWithinRadius (M : NumericOps F) (table : List R) (lat lon : R → Option F)
    (latitude longitude radiusKm : F) (conds : R → Bool) (results : List (R × F))
    (h : searchWithinRadius M table lat lon latitude longitude radiusKm conds results)
    (r : R) (d : F) :
    (r, d) ∈ results ↔ r ∈ table ∧ conds r = true ∧ ∃ la lo, lat r = some la ∧
      lon r = some lo ∧ distanceColumn M latitude longitude la lo = some d ∧ d ≤ radiusKm := by
  rw [h.1.mem_iff, List.mem_filterMap]
  constructor
  · rintro ⟨row, hrow, hsel⟩
    obtain ⟨rfl, hrest⟩ := (selectRow_eq_some_iff M lat lon _ _ _ conds row r d).mp hsel
    exact ⟨hrow, hrest⟩
  · rintro ⟨hr, hrest⟩
    exact ⟨r, hr, (selectRow_eq_some_iff M lat lon _ _ _ conds r r d).mpr ⟨rfl, hrest⟩⟩

theorem mem_searchJobSeekersNearby (M : NumericOps F) (db : Database F)
    (latitude longitude radiusKm : F) (filters : SeekerFilters)
    (results : List (UserRow F × F))
    (h : searchJobSeekersNearby M db latitude longitude radiusKm filters results)
    (r : UserRow F) (d : F) :
    (r, d) ∈ results ↔ r ∈ db.users ∧
      (seekerConditions filters).all
        (fun c => c.holds db.arrayValue db.user_skills r) = true ∧
      ∃ la lo, r.latitude = some la ∧ r.longitude = some lo ∧
        distanceColumn M latitude longitude la lo = some d ∧ d ≤ radiusKm :=
  mem_searchWithinRadius M db.users UserRow.latitude UserRow.longitude latitude longitude
    radiusKm _ results h r d

end GeoQueryTheorems

/-! ### Evaluation of the query around the point `(0, 0)` -/

theorem distanceColumn_same_point (lat lon : ℝ) :
    distanceColumn realOps lat lon lat lon = some 0 := by
  have ha : haversineA realOps lat lon lat lon = 0 := by
    rw [haversineA_real]
    simp [toRad]
  rw [distanceColumn_real, haversineUnrounded_eq_arcsin, ha]
  simp

theorem selectRow_origin {R : Type} (lat lon : R → Option ℝ) (conds : R → Bool) (row : R)
    (hlat : lat row = some 0) (hlon : lon row = some 0) :
    selectRow realOps lat lon 0 0 10 conds row = if conds row then some (row, 0) else none := by
  unfold selectRow
  rw [hlat, hlon]
  dsimp only
  rw [distanceColumn_same_point]
  dsimp only
  rw [if_pos (by norm_num : (0 : ℝ) ≤ 10)]

theorem sample_verifiedImmediate :
    searchJobSeekersNearby realOps sampleDb 0 0 10 verifiedImmediate [(alice, 0)] := by
  have h1 : (seekerConditions verifiedImmediate).all
      (fun c => c.holds sampleDb.arrayValue sampleDb.user_skills alice) = true := by decide
  have h2 : (seekerConditions verifiedImmediate).all
      (fun c => c.holds sampleDb.arrayValue sampleDb.user_skills bob) = false := by decide
  unfold searchJobSeekersNearby searchWithinRadius
  refine ⟨?_, by simp [List.Sorted]⟩
  rw [show sampleDb.users = [alice, bob] from rfl]
  simp only [List.filterMap_cons, List.filterMap_nil,
    selectRow_origin UserRow.latitude UserRow.longitude _ alice rfl rfl,
    selectRow_origin UserRow.latitude UserRow.longitude _ bob rfl rfl, h1, h2]
  simp

theorem sample_jobs :
    searchJobsNearby realOps sampleDb 0 0 10 {} [(activeJob, 0)] := by
  have h1 : (jobConditions {}).all (fun c => c.holds sampleDb.like activeJob) = true := by
    decide
  unfold searchJobsNearby searchWithinRadius
  refine ⟨?_, by simp [List.Sorted]⟩
  rw [show sampleDb.jobs = [activeJob] from rfl]
  simp only [List.filterMap_cons, List.filterMap_nil,
    selectRow_origin JobRow.latitude JobRow.longitude _ activeJob rfl rfl, h1]
  simp

/-! ### The claims about the geo query -/

section GeoQueryClaims

variable {F : Type} [Add F] [Sub F] [Mul F] [Div F] [NatCast F]
variable [Preorder F] [DecidableRel (fun a b : F => a ≤ b)]
variable {R : Type}

/-- C13. Every record that `searchJobSeekersNearby` returns has role
`job_seeker`, is active and is not banned, whatever the filters; when
`filters.availability` is given (a non-empty string) the record has that
availability, and when `filters.verifiedOnly` is true it is exam verified. -/
theorem seeker_hard_filters (M : NumericOps F) (db : Database F)
    (latitude longitude radiusKm : F) (filters : SeekerFilters)
    (results : List (UserRow F × F))
    (h : searchJobSeekersNearby M db latitude longitude radiusKm filters results)
    (r : UserRow F) (d : F) (hr : (r, d) ∈ results) :
    r.role = some "job_seeker" ∧ r.is_active = some true ∧ r.is_banned = some false ∧
      (∀ a, filters.availability = some a → a ≠ "" → r.availability = some a) ∧
      (filters.verifiedOnly = true → r.exam_verified = some true) := by
  obtain ⟨-, hpass, -⟩ := (mem_searchJobSeekersNearby M db _ _ _ filters results h r d).mp hr
  obtain ⟨⟨h1, h2, h3⟩, -, hav, hver, -⟩ := (seeker_passes_iff filters _ _ r).mp hpass
  exact ⟨h1, h2, h3, hav, hver⟩

/-- C16. Every record that `searchWithinRadius` returns has a latitude and a
longitude that are not `NULL`, and its `distance` column is the computed
distance, not `NULL` and at most `radiusKm`; a record that lacks a coordinate
is not returned. -/
theorem searchWithinRadius_sound (M : NumericOps F) (table : List R)
    (lat lon : R → Option F) (latitude longitude radiusKm : F) (conds : R → Bool)
    (results : List (R × F))
    (h : searchWithinRadius M table lat lon latitude longitude radiusKm conds results) :
    (∀ r d, (r, d) ∈ results → ∃ la lo, lat r = some la ∧ lon r = some lo ∧
      distanceColumn M latitude longitude la lo = some d ∧ d ≤ radiusKm ∧
      havingDistance (distanceColumn M latitude longitude la lo) radiusKm) ∧
    (∀ r, lat r = none ∨ lon r = none → ∀ d, (r, d) ∉ results) := by
  have hmem := mem_searchWithinRadius M table lat lon _ _ _ conds results h
  constructor
  · intro r d hr
    obtain ⟨-, -, la, lo, h1, h2, h3, h4⟩ := (hmem r d).mp hr
    exact ⟨la, lo, h1, h2, h3, h4, d, h3, h4⟩
  · intro r hnull d hr
    obtain ⟨-, -, la, lo, h1, h2, -, -⟩ := (hmem r d).mp hr
    rcases hnull with h0 | h0
    · rw [h0] at h1; cases h1
    · rw [h0] at h2; cases h2

/-- C18. Every job that `searchJobsNearby` returns has status `active`,
whatever the filters: a draft, paused, closed or expired job is not
returned. -/
theorem jobs_only_active (M : NumericOps F) (db : Database F)
    (latitude longitude radiusKm : F) (filters : JobFilters)
    (results : List (JobRow F × F))
    (h : searchJobsNearby M db latitude longitude radiusKm filters results)
    (r : JobRow F) (d : F) (hr : (r, d) ∈ results) :
    r.status = some "active" ∧ r.status ≠ some "draft" ∧ r.status ≠ some "paused" ∧
      r.status ≠ some "closed" ∧ r.status ≠ some "expired" := by
  obtain ⟨-, hpass, -⟩ :=
    (mem_searchWithinRadius M db.jobs JobRow.latitude JobRow.longitude _ _ _ _ results h r d).mp hr
  have hact := (List.all_eq_true.mp hpass) .active
    ((mem_jobConditions filters _).mpr (Or.inl rfl))
  have hstatus : r.status = some "active" := by
    simpa [JobCondition.holds] using hact
  rw [hstatus]
  exact ⟨rfl, by decide, by decide, by decide, by decide⟩

end GeoQueryClaims

/-- Witness of C13: around `(0, 0)` the filters verified and immediate
return `alice`, who is an active, unbanned, verified job seeker available
immediately. -/
theorem seeker_hard_filters_witness :
    searchJobSeekersNearby realOps sampleDb 0 0 10 verifiedImmediate [(alice, 0)] ∧
      alice.role = some "job_seeker" ∧ alice.is_active = some true ∧
      alice.is_banned = some false ∧ alice.availability = some "immediate" ∧
      alice.exam_verified = some true := by
  obtain ⟨h1, h2, h3, h4, h5⟩ :=
    seeker_hard_filters realOps sampleDb 0 0 10 verifiedImmediate [(alice, 0)]
      sample_verifiedImmediate alice 0 (List.mem_singleton.mpr rfl)
  exact ⟨sample_verifiedImmediate, h1, h2, h3, h4 "immediate" rfl (by decide), h5 rfl⟩

theorem sample_no_filters :
    searchJobSeekersNearby realOps sampleDb 0 0 10 {} [(alice, 0), (bob, 0)] := by
  have h1 : (seekerConditions {}).all
      (fun c => c.holds sampleDb.arrayValue sampleDb.user_skills alice) = true := by decide
  have h2 : (seekerConditions {}).all
      (fun c => c.holds sampleDb.arrayValue sampleDb.user_skills bob) = true := by decide
  unfold searchJobSeekersNearby searchWithinRadius
  refine ⟨?_, by simp [List.Sorted, distanceAscending]⟩
  rw [show sampleDb.users = [alice, bob] from rfl]
  simp only [List.filterMap_cons, List.filterMap_nil,
    selectRow_origin UserRow.latitude UserRow.longitude _ alice rfl rfl,
    selectRow_origin UserRow.latitude UserRow.longitude _ bob rfl rfl, h1, h2]
  simp

/-- Witness of C16: the record returned around `(0, 0)` has both coordinates
and the distance 0, which is within the radius 10. -/
theorem searchWithinRadius_sound_witness :
    ∃ la lo, alice.latitude = some la ∧ alice.longitude = some lo ∧
      distanceColumn realOps 0 0 la lo = some 0 ∧ (0 : ℝ) ≤ 10 ∧
      havingDistance (distanceColumn realOps 0 0 la lo) 10 :=
  (searchWithinRadius_sound realOps sampleDb.users UserRow.latitude UserRow.longitude 0 0 10 _
    [(alice, 0)] sample_verifiedImmediate).1 alice 0 (List.mem_singleton.mpr rfl)

/-- Witness of C18: the job returned around `(0, 0)` is active. -/
theorem jobs_only_active_witness :
    searchJobsNearby realOps sampleDb 0 0 10 {} [(activeJob, 0)] ∧
      activeJob.status = some "active" :=
  ⟨sample_jobs,
    (jobs_only_active realOps sampleDb 0 0 10 {} [(activeJob, 0)] sample_jobs activeJob 0
      (List.mem_singleton.mpr rfl)).1⟩

/-- C15 at its failing input.  With `filters.maxSalary` equal to 0 no salary
condition is appended, and `alice`, who expects 50000, is returned. -/
theorem maxSalary_zero_applies_no_ceiling :
    seekerConditions { maxSalary := some 0 } = [.fixed] ∧
      searchJobSeekersNearby realOps sampleDb 0 0 10 { maxSalary := some 0 }
        [(alice, 0), (bob, 0)] ∧
      alice.expected_salary = some 50000 ∧ ¬ ((50000 : ℚ) ≤ 0) := by
  have hc : seekerConditions { maxSalary := some 0 } = [.fixed] := by
    simp [seekerConditions, truthyNumber]
  have hs : searchJobSeekersNearby realOps sampleDb 0 0 10 { maxSalary := some 0 }
      [(alice, 0), (bob, 0)] := by
    have h := sample_no_filters
    unfold searchJobSeekersNearby at h ⊢
    rw [hc]
    exact h
  exact ⟨hc, hs, rfl, by norm_num⟩

/-! ### Monotonicity -/

section Monotonic

variable {F : Type} [Add F] [Sub F] [Mul F] [Div F] [NatCast F]
variable [Preorder F] [DecidableRel (fun a b : F => a ≤ b)]

/-- C17 as amended.  When `strict` keeps every filter that is in force in
`loose` in force (added filters, the same non-empty list of skills, a
non-zero salary ceiling that is not higher) and the radius is not larger,
every record returned under `strict` is returned under `loose`. -/
theorem qualification_monotonic (M : NumericOps F) (db : Database F)
    (latitude longitude radius radius' : F) (loose strict : SeekerFilters)
    (results results' : List (UserRow F × F))
    (hf : strict.tightens loose) (hr : radius' ≤ radius)
    (h : searchJobSeekersNearby M db latitude longitude radius loose results)
    (h' : searchJobSeekersNearby M db latitude longitude radius' strict results') :
    ∀ x ∈ results', x ∈ results := by
  rintro ⟨r, d⟩ hx
  rw [mem_searchJobSeekersNearby M db _ _ _ _ _ h', seeker_passes_iff] at hx
  rw [mem_searchJobSeekersNearby M db _ _ _ _ _ h, seeker_passes_iff]
  obtain ⟨hmem, ⟨hfix, hsk, hav, hver, hmax⟩, la, lo, h1, h2, h3, h4⟩ := hx
  obtain ⟨fsk, fav, fver, fmax⟩ := hf
  refine ⟨hmem, ⟨hfix, ?_, ?_, ?_, ?_⟩, la, lo, h1, h2, h3, le_trans h4 hr⟩
  · intro ids hids hne
    exact hsk ids (fsk ids hids hne) hne
  · intro a ha hne
    exact hav a (fav a ha hne) hne
  · intro hv
    exact hver (fver hv)
  · intro m hm hne
    obtain ⟨m', e1, e2, e3⟩ := fmax m hm hne
    rcases hmax m' e1 e2 with hnone | ⟨sal, hsal, hle⟩
    · exact Or.inl hnone
    · exact Or.inr ⟨sal, hsal, le_trans hle e3⟩

end Monotonic

theorem sample_skill_seven :
    searchJobSeekersNearby realOps sampleDb 0 0 10 { skills := some [7] } [] := by
  have h1 : (seekerConditions { skills := some [7] }).all
      (fun c => c.holds sampleDb.arrayValue sampleDb.user_skills alice) = false := by decide
  have h2 : (seekerConditions { skills := some [7] }).all
      (fun c => c.holds sampleDb.arrayValue sampleDb.user_skills bob) = false := by decide
  unfold searchJobSeekersNearby searchWithinRadius
  refine ⟨?_, by simp [List.Sorted]⟩
  rw [show sampleDb.users = [alice, bob] from rfl]
  simp only [List.filterMap_cons, List.filterMap_nil,
    selectRow_origin UserRow.latitude UserRow.longitude _ alice rfl rfl,
    selectRow_origin UserRow.latitude UserRow.longitude _ bob rfl rfl, h1, h2]
  simp

/-- Counterexample to C17.  The empty list is a sub-list of `[7]`, yet with
the skill list tightened from `[7]` to the empty list the query returns
`alice` and `bob`, neither of whom it returns for `[7]`. -/
theorem monotonic_fails_for_empty_skill_list :
    List.Sublist ([] : List Nat) [7] ∧
      searchJobSeekersNearby realOps sampleDb 0 0 10 { skills := some [7] } [] ∧
      searchJobSeekersNearby realOps sampleDb 0 0 10 { skills := some [] }
        [(alice, 0), (bob, 0)] ∧
      ¬ (∀ x ∈ [(alice, (0 : ℝ)), (bob, 0)], x ∈ ([] : List (UserRow ℝ × ℝ))) := by
  refine ⟨List.nil_sublist _, sample_skill_seven, ?_,
    fun h => List.not_mem_nil _ (h (alice, 0) (List.mem_cons_self _ _))⟩
  have h := sample_no_filters
  have hc : seekerConditions { skills := some [] } = seekerConditions {} := by
    simp [seekerConditions]
  unfold searchJobSeekersNearby at h ⊢
  rw [hc]
  exact h

/-- Witness of C17 as amended: adding the availability and the verified
filter shrinks the result around `(0, 0)` from `alice` and `bob` to `alice`. -/
theorem qualification_monotonic_witness :
    verifiedImmediate.tightens {} ∧
      ∀ x ∈ [(alice, (0 : ℝ))], x ∈ [(alice, (0 : ℝ)), (bob, 0)] := by
  have ht : verifiedImmediate.tightens {} := by
    refine ⟨?_, ?_, ?_, ?_⟩
    · intro ids h; cases h
    · intro a h; cases h
    · intro h; cases h
    · intro m h; cases h
  exact ⟨ht, qualification_monotonic realOps sampleDb 0 0 10 10 {} verifiedImmediate
    [(alice, 0), (bob, 0)] [(alice, 0)] ht le_rfl sample_no_filters sample_verifiedImmediate⟩

/-! ### Order of the results -/

theorem strictly_ascending_of_nodup {F R : Type} [PartialOrder F] (l : List (R × F))
    (hs : l.Sorted distanceAscending) (hn : (l.map Prod.snd).Nodup) :
    l.Sorted (fun a b => a.2 < b.2) := by
  have hne : l.Pairwise (fun a b => a.2 ≠ b.2) := List.pairwise_map.mp hn
  exact List.Pairwise.imp₂ (fun a b hle hab => lt_of_le_of_ne hle hab) hs hne

section ResultOrder

variable {F : Type} [Add F] [Sub F] [Mul F] [Div F] [NatCast F]
variable {R : Type}

/-- The query returns a result for every table: sorting the selected rows by
distance gives one. -/
theorem searchWithinRadius_total [LinearOrder F] [DecidableRel (fun a b : F => a ≤ b)]
    (M : NumericOps F) (table : List R) (lat lon : R → Option F)
    (latitude longitude radiusKm : F) (conds : R → Bool) :
    ∃ results, searchWithinRadius M table lat lon latitude longitude radiusKm conds results := by
  haveI : DecidableRel (distanceAscending : R × F → R × F → Prop) :=
    fun a b => inferInstanceAs (Decidable (a.2 ≤ b.2))
  haveI : IsTotal (R × F) distanceAscending := ⟨fun a b => le_total a.2 b.2⟩
  haveI : IsTrans (R × F) distanceAscending := ⟨fun a b c h1 h2 => le_trans h1 h2⟩
  exact ⟨_, List.perm_insertionSort distanceAscending _,
    List.sorted_insertionSort distanceAscending _⟩

/-- C19 as amended.  A result of the geo query is sorted by distance
ascending, and nothing else: when the distances of the returned records are
pairwise different the returned sequence is the only possible one. -/
theorem geo_results_order [PartialOrder F] [DecidableRel (fun a b : F => a ≤ b)]
    (M : NumericOps F) (table : List R) (lat lon : R → Option F)
    (latitude longitude radiusKm : F) (conds : R → Bool) (results results' : List (R × F))
    (h : searchWithinRadius M table lat lon latitude longitude radiusKm conds results)
    (h' : searchWithinRadius M table lat lon latitude longitude radiusKm conds results') :
    results.Pairwise (fun a b => a.2 ≤ b.2) ∧
      ((results.map Prod.snd).Nodup → results' = results) := by
  refine ⟨h.2, fun hnd => ?_⟩
  have hperm : results'.Perm results := h'.1.trans h.1.symm
  have hnd' : (results'.map Prod.snd).Nodup := (hperm.map Prod.snd).nodup_iff.mpr hnd
  haveI : IsAntisymm (R × F) (fun a b => a.2 < b.2) :=
    ⟨fun a b h1 h2 => absurd h2 (lt_asymm h1)⟩
  exact List.eq_of_perm_of_sorted hperm (strictly_ascending_of_nodup results' h'.2 hnd')
    (strictly_ascending_of_nodup results h.2 hnd)

end ResultOrder

theorem alice_ne_bob : alice ≠ bob := by
  intro h
  have := congrArg UserRow.id h
  simp [alice, bob] at this

/-- Counterexample to C19.  `alice` (id 1) and `bob` (id 2) are at the same
distance, and the query may return them in either order: the order by
distance has no tie-break on the id. -/
theorem equal_distance_order_not_determined :
    searchJobSeekersNearby realOps sampleDb 0 0 10 {} [(alice, 0), (bob, 0)] ∧
      searchJobSeekersNearby realOps sampleDb 0 0 10 {} [(bob, 0), (alice, 0)] ∧
      alice.id < bob.id ∧
      [(alice, (0 : ℝ)), (bob, 0)] ≠ [(bob, 0), (alice, 0)] := by
  have h := sample_no_filters
  refine ⟨h, ?_, by decide, ?_⟩
  · unfold searchJobSeekersNearby searchWithinRadius at h ⊢
    exact ⟨(List.Perm.swap _ _ _).trans h.1, by simp [List.Sorted, distanceAscending]⟩
  · intro heq
    have h1 : (alice, (0 : ℝ)) = (bob, 0) := (List.cons.inj heq).1
    exact alice_ne_bob (congrArg Prod.fst h1)

theorem distanceColumn_antipode :
    distanceColumn realOps 0 0 0 180 = some (6371 * Real.pi) := by
  have ha : haversineA realOps 0 0 0 180 = 1 := by
    rw [haversineA_real]
    have h : toRad realOps (180 - 0) / 2 = Real.pi / 2 := by
      simp only [toRad, realOps]
      ring
    rw [h]
    simp [toRad]
  rw [distanceColumn_real, haversineUnrounded_eq_arcsin, ha, Real.sqrt_one, Real.arcsin_one]
  congr 1
  ring

theorem selectRow_within {R : Type} (lat lon : R → Option ℝ) (conds : R → Bool) (row : R)
    (la lo d radiusKm : ℝ) (hlat : lat row = some la) (hlon : lon row = some lo)
    (hd : distanceColumn realOps 0 0 la lo = some d) (hr : d ≤ radiusKm) :
    selectRow realOps lat lon 0 0 radiusKm conds row =
      if conds row then some (row, d) else none := by
  unfold selectRow
  rw [hlat, hlon]
  dsimp only
  rw [hd]
  dsimp only
  rw [if_pos hr]

theorem antipode_within : (6371 : ℝ) * Real.pi ≤ 30000 := by
  have := Real.pi_le_four
  linarith

theorem sample_far :
    searchJobSeekersNearby realOps farDb 0 0 30000 {} [(alice, 0), (carol, 6371 * Real.pi)] := by
  have h1 : (seekerConditions {}).all
      (fun c => c.holds farDb.arrayValue farDb.user_skills alice) = true := by decide
  have h2 : (seekerConditions {}).all
      (fun c => c.holds farDb.arrayValue farDb.user_skills carol) = true := by decide
  have hpos : (0 : ℝ) ≤ 6371 * Real.pi := by positivity
  unfold searchJobSeekersNearby searchWithinRadius
  refine ⟨?_, by simp [List.Sorted, distanceAscending, hpos]⟩
  rw [show farDb.users = [carol, alice] from rfl]
  simp only [List.filterMap_cons, List.filterMap_nil,
    selectRow_within UserRow.latitude UserRow.longitude _ alice 0 0 0 30000 rfl rfl
      (distanceColumn_same_point 0 0) (by norm_num),
    selectRow_within UserRow.latitude UserRow.longitude _ carol 0 180 (6371 * Real.pi) 30000
      rfl rfl distanceColumn_antipode antipode_within, h1, h2]
  exact List.Perm.swap _ _ _

theorem alice_ne_carol : alice ≠ carol := by
  intro h
  have := congrArg UserRow.id h
  simp [alice, carol] at this

/-- Witness of C19 as amended: around `(0, 0)` the query returns `alice` at
the distance 0 before `carol` at the distance `6371 π`, although the table
holds `carol` first; the two distances differ, so this is the only possible
result and the other order is not one. -/
theorem geo_results_order_witness :
    searchJobSeekersNearby realOps farDb 0 0 30000 {} [(alice, 0), (carol, 6371 * Real.pi)] ∧
      farDb.users = [carol, alice] ∧ (0 : ℝ) < 6371 * Real.pi ∧
      [(alice, (0 : ℝ)), (carol, 6371 * Real.pi)].Pairwise (fun a b => a.2 ≤ b.2) ∧
      ¬ searchJobSeekersNearby realOps farDb 0 0 30000 {}
        [(carol, 6371 * Real.pi), (alice, 0)] := by
  have hpos : (0 : ℝ) < 6371 * Real.pi := by positivity
  have hnd : ([(alice, (0 : ℝ)), (carol, 6371 * Real.pi)].map Prod.snd).Nodup := by
    simp [ne_of_lt hpos]
  refine ⟨sample_far, rfl, hpos,
    (geo_results_order realOps farDb.users UserRow.latitude UserRow.longitude 0 0 30000 _
      [(alice, 0), (carol, 6371 * Real.pi)] [(alice, 0), (carol, 6371 * Real.pi)]
      sample_far sample_far).1, fun h' => ?_⟩
  have heq := (geo_results_order realOps farDb.users UserRow.latitude UserRow.longitude 0 0
    30000 _ [(alice, 0), (carol, 6371 * Real.pi)] [(carol, 6371 * Real.pi), (alice, 0)]
    sample_far h').2 hnd
  have h1 : (carol, 6371 * Real.pi) = (alice, (0 : ℝ)) := (List.cons.inj heq).1
  exact alice_ne_carol (congrArg Prod.fst h1).symm

/-! ## Theorems: match weights -/

/-- C20. `MATCH_WEIGHTS` is skill 0.40, location 0.25, salary 0.20,
availability 0.10 and experience 0.05; as exact rationals the five weights sum
to 1, and so the weighted sum of five subscores that lie in `[0, 1]` lies in
`[0, 1]`. -/
theorem match_weights_sum :
    MATCH_WEIGHTS.SKILL = 0.40 ∧ MATCH_WEIGHTS.LOCATION = 0.25 ∧
      MATCH_WEIGHTS.SALARY = 0.20 ∧ MATCH_WEIGHTS.AVAILABILITY = 0.10 ∧
      MATCH_WEIGHTS.EXPERIENCE = 0.05 ∧
      MATCH_WEIGHTS.SKILL + MATCH_WEIGHTS.LOCATION + MATCH_WEIGHTS.SALARY +
        MATCH_WEIGHTS.AVAILABILITY + MATCH_WEIGHTS.EXPERIENCE = 1 ∧
      ∀ skill location salary availability experience : ℚ,
        0 ≤ skill ∧ skill ≤ 1 → 0 ≤ location ∧ location ≤ 1 → 0 ≤ salary ∧ salary ≤ 1 →
        0 ≤ availability ∧ availability ≤ 1 → 0 ≤ experience ∧ experience ≤ 1 →
        0 ≤ MATCH_WEIGHTS.SKILL * skill + MATCH_WEIGHTS.LOCATION * location +
            MATCH_WEIGHTS.SALARY * salary + MATCH_WEIGHTS.AVAILABILITY * availability +
            MATCH_WEIGHTS.EXPERIENCE * experience ∧
          MATCH_WEIGHTS.SKILL * skill + MATCH_WEIGHTS.LOCATION * location +
            MATCH_WEIGHTS.SALARY * salary + MATCH_WEIGHTS.AVAILABILITY * availability +
            MATCH_WEIGHTS.EXPERIENCE * experience ≤ 1 := by
  refine ⟨rfl, rfl, rfl, rfl, rfl, by norm_num [MATCH_WEIGHTS], ?_⟩
  rintro s1 s2 s3 s4 s5 ⟨a1, b1⟩ ⟨a2, b2⟩ ⟨a3, b3⟩ ⟨a4, b4⟩ ⟨a5, b5⟩
  simp only [MATCH_WEIGHTS]
  constructor <;> norm_num <;> linarith

/-- Witness of C20: the subscores 1/2, 1, 0, 1 and 1 give a weighted sum
between 0 and 1. -/
theorem match_weights_sum_witness :
    0 ≤ MATCH_WEIGHTS.SKILL * (1 / 2) + MATCH_WEIGHTS.LOCATION * 1 +
          MATCH_WEIGHTS.SALARY * 0 + MATCH_WEIGHTS.AVAILABILITY * 1 +
          MATCH_WEIGHTS.EXPERIENCE * 1 ∧
      MATCH_WEIGHTS.SKILL * (1 / 2) + MATCH_WEIGHTS.LOCATION * 1 +
          MATCH_WEIGHTS.SALARY * 0 + MATCH_WEIGHTS.AVAILABILITY * 1 +
          MATCH_WEIGHTS.EXPERIENCE * 1 ≤ 1 :=
  match_weights_sum.2.2.2.2.2.2 (1 / 2) 1 0 1 1 (by norm_num) (by norm_num) (by norm_num)
    (by norm_num) (by norm_num)

/-! ## Theorems: pagination -/

theorem digitChar_facts (k : Nat) (hk : k < 10) :
    digitValue (Nat.digitChar k) = some k ∧ isStrWhiteSpaceChar (Nat.digitChar k) = false ∧
      Nat.digitChar k ≠ '-' ∧ Nat.digitChar k ≠ '+' ∧ Nat.digitChar k ≠ 'x' ∧
      Nat.digitChar k ≠ 'X' := by
  interval_cases k <;> decide

theorem digitsValue_append_singleton (R : Nat) (xs : List Char) (c : Char) :
    digitsValue R (xs ++ [c]) = digitsValue R xs * R + (digitValue c).getD 0 := by
  simp [digitsValue, List.foldl_append]

theorem toDigitsCore_spec (fuel n : Nat) (ds : List Char) (h : n < fuel) :
    ∃ xs, Nat.toDigitsCore 10 fuel n ds = xs ++ ds ∧ xs ≠ [] ∧
      (∀ c ∈ xs, ∃ k, k < 10 ∧ c = Nat.digitChar k) ∧ digitsValue 10 xs = n := by
  induction fuel generalizing n ds with
  | zero => omega
  | succ fuel ih =>
    unfold Nat.toDigitsCore
    dsimp only
    by_cases h0 : n / 10 = 0
    · rw [if_pos h0]
      refine ⟨[Nat.digitChar (n % 10)], rfl, by simp, ?_, ?_⟩
      · intro c hc
        rw [List.mem_singleton] at hc
        exact ⟨n % 10, Nat.mod_lt _ (by norm_num), hc⟩
      · have := (digitChar_facts (n % 10) (Nat.mod_lt _ (by norm_num))).1
        simp only [digitsValue, List.foldl_cons, List.foldl_nil, this, Option.getD_some]
        omega
    · rw [if_neg h0]
      obtain ⟨xs, hxs, hne, hall, hval⟩ := ih (n / 10) (Nat.digitChar (n % 10) :: ds) (by omega)
      refine ⟨xs ++ [Nat.digitChar (n % 10)], by rw [hxs]; simp, by simp, ?_, ?_⟩
      · intro c hc
        rw [List.mem_append, List.mem_singleton] at hc
        rcases hc with hc | hc
        · exact hall c hc
        · exact ⟨n % 10, Nat.mod_lt _ (by norm_num), hc⟩
      · rw [digitsValue_append_singleton, hval,
          (digitChar_facts (n % 10) (Nat.mod_lt _ (by norm_num))).1]
        simp only [Option.getD_some]
        omega

theorem parseInt_digits (xs : List Char) (hne : xs ≠ [])
    (hall : ∀ c ∈ xs, ∃ k, k < 10 ∧ c = Nat.digitChar k) (neg : Bool) :
    parseInt (some (String.mk (if neg then '-' :: xs else xs))) =
      some (if neg then -(digitsValue 10 xs : Int) else (digitsValue 10 xs : Int)) := by
  obtain ⟨c, cs, rfl⟩ := List.exists_cons_of_ne_nil hne
  obtain ⟨k, hk, rfl⟩ := hall c (List.mem_cons_self _ _)
  obtain ⟨f1, f2, f3, f4, f5, f6⟩ := digitChar_facts k hk
  have hdigit : ∀ c ∈ Nat.digitChar k :: cs, isRadixDigit 10 c = true := by
    intro c hc
    obtain ⟨j, hj, rfl⟩ := hall c hc
    simp [isRadixDigit, (digitChar_facts j hj).1, hj]
  have htake : (Nat.digitChar k :: cs).takeWhile (isRadixDigit 10) = Nat.digitChar k :: cs :=
    List.takeWhile_eq_self_iff.mpr hdigit
  have hsign : stripSign (Nat.digitChar k :: cs) = (false, Nat.digitChar k :: cs) := by
    unfold stripSign
    split
    · rename_i h; exact absurd (List.cons.inj h).1 f3
    · rename_i h; exact absurd (List.cons.inj h).1 f4
    · rfl
  have hradix : stripRadixPrefix (Nat.digitChar k :: cs) = (10, Nat.digitChar k :: cs) := by
    unfold stripRadixPrefix
    split
    · rename_i t h
      obtain ⟨-, h2⟩ := List.cons.inj h
      obtain ⟨j, hj, hx⟩ := hall 'x' (by rw [h2]; simp)
      exact absurd hx.symm (digitChar_facts j hj).2.2.2.2.1
    · rename_i t h
      obtain ⟨-, h2⟩ := List.cons.inj h
      obtain ⟨j, hj, hx⟩ := hall 'X' (by rw [h2]; simp)
      exact absurd hx.symm (digitChar_facts j hj).2.2.2.2.2
    · rfl
  cases neg
  · simp only [parseInt, jsToString, Bool.false_eq_true, if_false]
    simp [List.dropWhile, f2, hsign, hradix, htake]
  · simp only [parseInt, jsToString, if_true]
    have hw : isStrWhiteSpaceChar '-' = false := by decide
    simp [List.dropWhile, hw, stripSign, hradix, htake]

theorem parseInt_toString (n : Int) : parseInt (some (toString n)) = some n := by
  cases n with
  | ofNat m =>
    obtain ⟨xs, hxs, hne, hall, hval⟩ := toDigitsCore_spec (m + 1) m [] (by omega)
    have hs : toString (Int.ofNat m) = String.mk xs := by
      show Nat.repr m = _
      simp [Nat.repr, Nat.toDigits, hxs, List.asString]
    rw [hs]
    have := parseInt_digits xs hne hall false
    simp only [Bool.false_eq_true, if_false] at this
    rw [this, hval]
    rfl
  | negSucc m =>
    obtain ⟨xs, hxs, hne, hall, hval⟩ := toDigitsCore_spec (m + 1 + 1) (m + 1) [] (by omega)
    have hs : toString (Int.negSucc m) = String.mk ('-' :: xs) := by
      show "-" ++ Nat.repr (m + 1) = _
      simp [Nat.repr, Nat.toDigits, hxs, List.asString]
      rfl
    rw [hs]
    have := parseInt_digits xs hne hall true
    simp only [if_true] at this
    rw [this, hval]
    rfl

theorem paginate_toString (page limit maxLimit : Int) :
    paginate (some (toString page)) (some (toString limit)) (some maxLimit) =
      { page := some (max 1 page)
        limit := some (min (max 1 limit) maxLimit)
        offset := some ((max 1 page - 1) * min (max 1 limit) maxLimit) } := by
  simp [paginate, withDefault, parseInt_toString, mathMax, mathMin]

theorem bind_chunks {α : Type} (xs : List α) (k m : Nat) :
    (List.range m).flatMap (fun i => (xs.drop (i * k)).take k) = xs.take (m * k) := by
  induction m with
  | zero => simp
  | succ m ih =>
    rw [List.range_succ, List.flatMap_append, ih, Nat.succ_mul, List.take_add]
    simp

theorem totalPages_eq (total page limit : Int) :
    (createPaginationMeta total page limit).totalPages = ⌈(total : ℚ) / (limit : ℚ)⌉ := rfl

theorem le_totalPages_iff (total limit p : Int) (hl : 1 ≤ limit) :
    p ≤ ⌈(total : ℚ) / (limit : ℚ)⌉ ↔ (p - 1) * limit < total := by
  have hpos : (0 : ℚ) < limit := by exact_mod_cast (by omega : (0 : Int) < limit)
  rw [← Int.sub_one_lt_iff, Int.lt_ceil, lt_div_iff₀ hpos]
  constructor
  · intro h; exact_mod_cast h
  · intro h; exact_mod_cast h



theorem totalPages_lt_iff (total limit p : Int) (hl : 1 ≤ limit) :
    ⌈(total : ℚ) / (limit : ℚ)⌉ < p ↔ total ≤ (p - 1) * limit := by
  rw [← not_le, le_totalPages_iff total limit p hl, not_lt]

theorem slice_paginateNumbers {α : Type} (xs : List α) (p limit maxLimit : Int) (hp : 1 ≤ p) :
    (paginateNumbers p limit maxLimit).slice xs =
      (xs.drop ((p - 1) * min (max 1 limit) maxLimit).toNat).take
        (min (max 1 limit) maxLimit).toNat := by
  simp only [paginateNumbers, paginate_toString, Pagination.slice, pageSlice, max_eq_right hp]

/-- C22. Pagination partitions a list.  With `L` the limit that `paginate`
returns (the requested limit when it lies between 1 and the cap) and
`totalPages = ceil(total / L)` from `createPaginationMeta`, page `p` is the
slice `[(p - 1) L, p L)`; the slices of the pages 1 to `totalPages` are not
empty, follow one another without overlap, and put together give the whole
list; a page beyond `totalPages` has an offset of at least `total` and an
empty slice; `hasNextPage` is `page < totalPages` and `hasPrevPage` is
`page > 1`. -/
theorem pagination_partitions {α : Type} (xs : List α) (limit maxLimit L : Int)
    (hm : 1 ≤ maxLimit) (hL : (paginateNumbers 1 limit maxLimit).limit = some L) :
    (1 ≤ limit → limit ≤ maxLimit → L = limit) ∧
    (∀ p, (paginateNumbers p limit maxLimit).limit = some L) ∧
    (∀ p, (createPaginationMeta xs.length p L).totalPages = ⌈(xs.length : ℚ) / (L : ℚ)⌉) ∧
    (∀ p, 1 ≤ p → (paginateNumbers p limit maxLimit).offset = some ((p - 1) * L) ∧
      (paginateNumbers p limit maxLimit).slice xs =
        (xs.drop ((p - 1) * L).toNat).take L.toNat) ∧
    (∀ p, 1 ≤ p → p ≤ (createPaginationMeta xs.length p L).totalPages →
      (paginateNumbers p limit maxLimit).slice xs ≠ []) ∧
    (∀ p q : Int, 1 ≤ p → p < q → (p - 1) * L + L ≤ (q - 1) * L) ∧
    (List.range (createPaginationMeta xs.length 1 L).totalPages.toNat).flatMap
        (fun i => (paginateNumbers ((i : Int) + 1) limit maxLimit).slice xs) = xs ∧
    (∀ p, (createPaginationMeta xs.length p L).totalPages < p →
      (paginateNumbers p limit maxLimit).offset = some ((p - 1) * L) ∧
      (xs.length : Int) ≤ (p - 1) * L ∧ (paginateNumbers p limit maxLimit).slice xs = []) ∧
    (∀ p, (createPaginationMeta xs.length p L).hasNextPage = true ↔
      p < (createPaginationMeta xs.length p L).totalPages) ∧
    (∀ p, (createPaginationMeta xs.length p L).hasPrevPage = true ↔ 1 < p) := by
  have hLe : L = min (max 1 limit) maxLimit := by
    simp only [paginateNumbers, paginate_toString, Option.some.injEq] at hL
    exact hL.symm
  have hL1 : 1 ≤ L := by rw [hLe]; exact le_min (le_max_left _ _) hm
  have hoff : ∀ p, 1 ≤ p → (paginateNumbers p limit maxLimit).offset = some ((p - 1) * L) := by
    intro p hp
    simp only [paginateNumbers, paginate_toString, max_eq_right hp, hLe]
  have hslice : ∀ p, 1 ≤ p → (paginateNumbers p limit maxLimit).slice xs =
      (xs.drop ((p - 1) * L).toNat).take L.toNat := by
    intro p hp
    rw [slice_paginateNumbers xs p limit maxLimit hp, hLe]
  have hT0 : (0 : Int) ≤ ⌈(xs.length : ℚ) / (L : ℚ)⌉ := by
    apply Int.ceil_nonneg
    have : (0 : ℚ) < L := by exact_mod_cast (by omega : (0 : Int) < L)
    positivity
  refine ⟨?_, ?_, fun p => rfl, fun p hp => ⟨hoff p hp, hslice p hp⟩, ?_, ?_, ?_, ?_, ?_, ?_⟩
  · intro h1 h2
    rw [hLe, max_eq_right h1, min_eq_left h2]
  · intro p
    simp only [paginateNumbers, paginate_toString, hLe]
  · intro p hp hpT
    rw [totalPages_eq, le_totalPages_iff _ _ _ hL1] at hpT
    rw [hslice p hp]
    have h0 : (0 : Int) ≤ (p - 1) * L := by
      have : (0 : Int) ≤ p - 1 := by omega
      positivity
    have hlt : ((p - 1) * L).toNat < xs.length := by omega
    have hk : 0 < L.toNat := by omega
    intro hnil
    have hlen := congrArg List.length hnil
    simp only [List.length_take, List.length_drop, List.length_nil] at hlen
    omega
  · intro p q hp hpq
    have : (p - 1) * L + L = p * L := by ring
    rw [this]
    have : p ≤ q - 1 := by omega
    exact Int.mul_le_mul_of_nonneg_right this (by omega)
  · have hconv : ∀ i : Nat, (paginateNumbers ((i : Int) + 1) limit maxLimit).slice xs =
        (xs.drop (i * L.toNat)).take L.toNat := by
      intro i
      rw [hslice _ (by omega)]
      congr 2
      have : ((i : Int) + 1 - 1) * L = ((i * L.toNat : Nat) : Int) := by
        push_cast
        rw [Int.toNat_of_nonneg (by omega)]
        ring
      rw [this, Int.toNat_natCast]
    simp only [hconv]
    rw [bind_chunks, totalPages_eq]
    apply List.take_of_length_le
    have hceil : ((xs.length : Int) : ℚ) / (L : ℚ) ≤ ⌈((xs.length : Int) : ℚ) / (L : ℚ)⌉ :=
      Int.le_ceil _
    have hpos : (0 : ℚ) < L := by exact_mod_cast (by omega : (0 : Int) < L)
    rw [div_le_iff₀ hpos] at hceil
    have hint : (xs.length : Int) ≤ ⌈((xs.length : Int) : ℚ) / (L : ℚ)⌉ * L := by
      exact_mod_cast hceil
    have h1 : ((⌈((xs.length : Int) : ℚ) / (L : ℚ)⌉.toNat * L.toNat : Nat) : Int) =
        ⌈((xs.length : Int) : ℚ) / (L : ℚ)⌉ * L := by
      push_cast
      rw [Int.toNat_of_nonneg hT0, Int.toNat_of_nonneg (by omega)]
    omega
  · intro p hpT
    rw [totalPages_eq, totalPages_lt_iff _ _ _ hL1] at hpT
    have hp : 1 ≤ p := by
      by_contra hneg
      have : (p - 1) * L ≤ -1 * L := Int.mul_le_mul_of_nonneg_right (by omega) (by omega)
      have hlen : (0 : Int) ≤ xs.length := Int.natCast_nonneg _
      omega
    refine ⟨hoff p hp, hpT, ?_⟩
    rw [hslice p hp]
    have : xs.length ≤ ((p - 1) * L).toNat := by omega
    rw [List.drop_of_length_le this, List.take_nil]
  · intro p
    simp [createPaginationMeta]
  · intro p
    simp [createPaginationMeta]

/-- C21. For integers `page` and `limit` and a `maxLimit` of at least 1,
`paginate` returns the page `max(1, page)`, the limit
`min(max(1, limit), maxLimit)`, which lies between 1 and `maxLimit`, and the
offset `(page' - 1) * limit'`, which is not negative; without arguments it
returns page 1, limit 10 and offset 0, and the cap that applies when
`maxLimit` is left out is 100. -/
theorem paginate_spec (page limit maxLimit : Int) (hm : 1 ≤ maxLimit) :
    paginate (some (toString page)) (some (toString limit)) (some maxLimit) =
        { page := some (max 1 page)
          limit := some (min (max 1 limit) maxLimit)
          offset := some ((max 1 page - 1) * min (max 1 limit) maxLimit) } ∧
      1 ≤ min (max 1 limit) maxLimit ∧ min (max 1 limit) maxLimit ≤ maxLimit ∧
      0 ≤ (max 1 page - 1) * min (max 1 limit) maxLimit ∧
      paginate none none none = { page := some 1, limit := some 10, offset := some 0 } ∧
      (paginate (some (toString page)) (some (toString limit)) none).limit =
        some (min (max 1 limit) 100) ∧
      PAGINATION = { DEFAULT_PAGE := 1, DEFAULT_LIMIT := 10, MAX_LIMIT := 100 } := by
  have h1 : (1 : Int) ≤ min (max 1 limit) maxLimit := le_min (le_max_left _ _) hm
  refine ⟨?_, h1, min_le_right _ _, ?_, by decide, ?_, rfl⟩
  · simp [paginate, withDefault, parseInt_toString, mathMax, mathMin]
  · have : (0 : Int) ≤ max 1 page - 1 := by
      have := le_max_left (1 : Int) page
      omega
    positivity
  · simp [paginate, withDefault, parseInt_toString, mathMax, mathMin]

/-- Witness of C21: page 0 and limit 500 under the cap 100 give page 1,
limit 100 and offset 0. -/
theorem paginate_spec_witness :
    paginate (some (toString (0 : Int))) (some (toString (500 : Int))) (some 100) =
      { page := some 1, limit := some 100, offset := some 0 } :=
  (paginate_spec 0 500 100 (by decide)).1

/-- Witness of C22: five records with limit 2 fall into three pages that
put together give the five records. -/
theorem pagination_partitions_witness :
    (List.range (createPaginationMeta ([1, 2, 3, 4, 5] : List Nat).length 1 2).totalPages.toNat).flatMap
        (fun i => (paginateNumbers ((i : Int) + 1) 2 100).slice [1, 2, 3, 4, 5]) =
      [1, 2, 3, 4, 5] :=
  (pagination_partitions [1, 2, 3, 4, 5] 2 100 2 (by decide)
    (by simp [paginateNumbers, paginate_toString])).2.2.2.2.2.2.1

/-! ## Theorems: the controllers that write -/

theorem mem_pickDefined (allowed : List String) (data : JsObject) (k : String) (v : JsValue) :
    (k, v) ∈ pickDefined allowed data ↔ k ∈ allowed ∧ getField data k = some v := by
  simp only [pickDefined, List.mem_filterMap, Option.map_eq_some', Prod.mk.injEq]
  constructor
  · rintro ⟨f, hf, w, hw, rfl, rfl⟩
    exact ⟨hf, hw⟩
  · rintro ⟨hk, hv⟩
    exact ⟨k, hk, v, hv, rfl, rfl⟩

theorem pickDefined_congr (allowed : List String) (data data' : JsObject)
    (h : ∀ k ∈ allowed, getField data' k = getField data k) :
    pickDefined allowed data' = pickDefined allowed data := by
  unfold pickDefined
  apply List.filterMap_congr
  intro k hk
  rw [h k hk]

theorem getField_deleteField_self (o : JsObject) (key : String) :
    getField (deleteField o key) key = none := by
  induction o with
  | nil => rfl
  | cons kv o ih =>
    obtain ⟨k, v⟩ := kv
    unfold deleteField getField at *
    by_cases hk : k = key
    · simpa [List.filter_cons, hk] using ih
    · have hne : (key == k) = false := by simpa using fun h => hk h.symm
      simp only [List.filter_cons, bne_iff_ne, ne_eq, hk, not_false_eq_true, decide_True,
        if_true, List.lookup_cons, hne]
      simpa using ih

theorem getField_deleteField_other (o : JsObject) (key k : String) (hk : k ≠ key) :
    getField (deleteField o key) k = getField o k := by
  induction o with
  | nil => rfl
  | cons kv o ih =>
    obtain ⟨k', v⟩ := kv
    unfold deleteField getField at *
    by_cases h : k' = key
    · have hne : (k == key) = false := by simpa using hk
      simpa [List.filter_cons, h, List.lookup_cons, hne] using ih
    · by_cases hkk : k = k'
      · simp [List.filter_cons, h, List.lookup_cons, hkk]
      · have hne : (k == k') = false := by simpa using hkk
        simpa [List.filter_cons, h, List.lookup_cons, hne] using ih

/-- C23. Background match generation does not fail job creation.  When the
caller is an employer and `JobModel.create` returns the job, `createJob`
answers 201 with that job whatever the matching service does: the response
is the same for any two behaviours of `findMatchesForJob` and
`storeMatchResults`, and an error of either is written to the console and
not thrown. -/
theorem createJob_ignores_matching {Matches Matches' : Type} (services : JobServices Matches)
    (services' : JobServices Matches') (req : BodyRequest) (u : User) (job : JobRecord)
    (hu : req.user = some u) (hrole : u.role = some "employer")
    (hcreate : services.create u.id req.body = .ok job)
    (hcreate' : services'.create u.id req.body = .ok job) :
    (∃ console, createJob services req =
      .ok ({ status := 201, success := true, message := "Job posted successfully",
             data := job }, console)) ∧
    (createJob services req).map Prod.fst = (createJob services' req).map Prod.fst ∧
    (∀ error, services.findMatchesForJob job.id = .error error →
      createJob services req =
        .ok ({ status := 201, success := true, message := "Job posted successfully",
               data := job }, ["Error generating matches: " ++ error])) ∧
    (∀ found error, services.findMatchesForJob job.id = .ok found →
      services.storeMatchResults job.id found = .error error →
      createJob services req =
        .ok ({ status := 201, success := true, message := "Job posted successfully",
               data := job }, ["Error generating matches: " ++ error])) := by
  have hr : (u.role != some "employer") = false := by simp [hrole]
  have h1 : ∀ {M : Type} (sv : JobServices M), sv.create u.id req.body = .ok job →
      createJob sv req =
        .ok ({ status := 201, success := true, message := "Job posted successfully",
               data := job }, generateMatches sv job.id) := by
    intro M sv hsv
    simp only [createJob, hu, hr, hsv, Bool.false_eq_true, if_false]
  refine ⟨⟨_, h1 services hcreate⟩, ?_, ?_, ?_⟩
  · rw [h1 services hcreate, h1 services' hcreate']
    rfl
  · intro error herr
    rw [h1 services hcreate]
    simp [generateMatches, herr, bind, Except.bind]
  · intro found error hfind hstore
    rw [h1 services hcreate]
    simp [generateMatches, hfind, hstore, bind, Except.bind]

/-- Witness of C23: with a matching service that throws and with one that
works, the employer 3 gets the same 201 response. -/
theorem createJob_ignores_matching_witness :
    (createJob failingMatching ⟨some premiumEmployer, "", equatorJob⟩).map Prod.fst =
      (createJob workingMatching ⟨some premiumEmployer, "", equatorJob⟩).map Prod.fst :=
  (createJob_ignores_matching failingMatching workingMatching
    ⟨some premiumEmployer, "", equatorJob⟩ premiumEmployer sampleJob rfl rfl rfl rfl).2.1

/-- C24 at its failing input.  For a body with latitude 0 and longitude
109.33 `JobModel.create` binds `NULL` to the latitude column, although the
body supplies the latitude, while it binds the longitude as supplied;
`JobModel.update` keeps the same latitude. -/
theorem create_drops_zero_latitude :
    getField equatorJob "latitude" = some (.number 0) ∧
      (JobModel.create 3 equatorJob).row.lookup "latitude" = some (some .null) ∧
      (JobModel.create 3 equatorJob).row.lookup "longitude" = some (some (.number 109.33)) ∧
      getField (pickDefined jobAllowedFields equatorJob) "latitude" = some (.number 0) := by
  refine ⟨by decide, ?_, ?_, by decide⟩
  · have h : orElse (getField equatorJob "latitude") .null = .null := by
      have : getField equatorJob "latitude" = some (.number 0) := by decide
      simp [this, orElse, JsValue.truthy]
    simp [JobModel.create, h, List.lookup]
  · have h : orElse (getField equatorJob "longitude") .null = .number 109.33 := by
      have : getField equatorJob "longitude" = some (.number 109.33) := rfl
      rw [this]
      simp only [orElse, JsValue.truthy]
      rw [if_pos]
      simp
      norm_num
    simp [JobModel.create, h, List.lookup]

theorem owner_or_admin_iff (job : JobRecord) (u : User) :
    (job.employer_id != u.id && u.role != some "admin") = false ↔
      job.employer_id = u.id ∨ u.role = some "admin" := by
  by_cases h1 : job.employer_id = u.id <;> by_cases h2 : u.role = some "admin" <;>
    simp [h1, h2]

/-- C27. `updateJob`, `deleteJob` and `changeJobStatus` reach `JobModel.update`
or `JobModel.delete` exactly when the job exists and the caller owns it or is
an admin; a missing job is answered 404 before anything else, and an
existing job with any other caller 403, both without a call to `JobModel`. -/
theorem job_writes_need_owner_or_admin (findById : String → Option JobRecord)
    (req : BodyRequest) :
    (∀ call, (updateJob findById req = .ok call ∨ deleteJob findById req = .ok call ∨
        changeJobStatus findById req = .ok call) →
      ∃ job u, findById req.id = some job ∧ req.user = some u ∧
        (job.employer_id = u.id ∨ u.role = some "admin")) ∧
    (∀ job u, findById req.id = some job → req.user = some u →
      (job.employer_id = u.id ∨ u.role = some "admin") →
      updateJob findById req = .ok (.update req.id req.body) ∧
      deleteJob findById req = .ok (.delete req.id) ∧
      changeJobStatus findById req =
        .ok (.update req.id ((getField req.body "status").toList.map
          (fun v => ("status", v))))) ∧
    (findById req.id = none →
      updateJob findById req = .error ⟨"Job not found", 404⟩ ∧
      deleteJob findById req = .error ⟨"Job not found", 404⟩ ∧
      changeJobStatus findById req = .error ⟨"Job not found", 404⟩) ∧
    (∀ job u, findById req.id = some job → req.user = some u →
      ¬ (job.employer_id = u.id ∨ u.role = some "admin") →
      updateJob findById req = .error ⟨"Not authorized to update this job", 403⟩ ∧
      deleteJob findById req = .error ⟨"Not authorized to delete this job", 403⟩ ∧
      changeJobStatus findById req = .error ⟨"Not authorized", 403⟩) := by
  refine ⟨?_, ?_, ?_, ?_⟩
  · intro call hcall
    cases hjob : findById req.id with
    | none => simp [updateJob, deleteJob, changeJobStatus, hjob] at hcall
    | some job =>
      cases hu : req.user with
      | none => simp [updateJob, deleteJob, changeJobStatus, hjob, hu] at hcall
      | some u =>
        refine ⟨job, u, rfl, rfl, ?_⟩
        rw [← owner_or_admin_iff]
        cases hb : (job.employer_id != u.id && u.role != some "admin") with
        | false => rfl
        | true => simp [updateJob, deleteJob, changeJobStatus, hjob, hu, hb] at hcall
  · intro job u hjob hu hok
    have hb := (owner_or_admin_iff job u).mpr hok
    simp [updateJob, deleteJob, changeJobStatus, hjob, hu, hb]
  · intro hjob
    simp [updateJob, deleteJob, changeJobStatus, hjob]
  · intro job u hjob hu hno
    have hb : (job.employer_id != u.id && u.role != some "admin") = true := by
      cases h : (job.employer_id != u.id && u.role != some "admin") with
      | true => rfl
      | false => exact absurd ((owner_or_admin_iff job u).mp h) hno
    simp [updateJob, deleteJob, changeJobStatus, hjob, hu, hb]

/-- Witness of C27: the employer 3 may delete the job 11, which is theirs,
and the employer 4 is answered 403. -/
theorem job_writes_need_owner_or_admin_witness :
    deleteJob sampleJobs ⟨some premiumEmployer, "11", []⟩ = .ok (.delete "11") ∧
      deleteJob sampleJobs ⟨some freeEmployer, "11", []⟩ =
        .error ⟨"Not authorized to delete this job", 403⟩ :=
  ⟨((job_writes_need_owner_or_admin sampleJobs ⟨some premiumEmployer, "11", []⟩).2.1
      sampleJob premiumEmployer rfl rfl (Or.inl rfl)).2.1,
    ((job_writes_need_owner_or_admin sampleJobs ⟨some freeEmployer, "11", []⟩).2.2.2
      sampleJob freeEmployer rfl rfl (by decide)).2.1⟩

/-- C28. Whatever the body, the columns that `updateProfile` passes to
`UserModel.update`, and that `UserModel.update` writes, are in the list
`allowedFields`, each with the value of the body; none of them is `role`,
`subscription_status`, `subscription_expiry`, `is_active`, `is_banned`,
`exam_verified`, `badge_verified` or `mobile`; and two bodies that agree on
the allowed fields give the same update. -/
theorem updateProfile_whitelist (req : BodyRequest) (u : User) (hu : req.user = some u) :
    updateProfile req = .ok (u.id, pickDefined profileAllowedFields req.body) ∧
    (∀ k v, (k, v) ∈ pickDefined profileAllowedFields req.body →
      k ∈ profileAllowedFields ∧ getField req.body k = some v) ∧
    (∀ statement, UserModel.update u.id (pickDefined profileAllowedFields req.body) =
        some statement →
      statement.table = "users" ∧ statement.id = u.id ∧
      ∀ k v, (k, v) ∈ statement.set → k ∈ profileAllowedFields) ∧
    (∀ k, k ∈ ["role", "subscription_status", "subscription_expiry", "is_active",
        "is_banned", "exam_verified", "badge_verified", "mobile"] →
      ∀ v, (k, v) ∉ pickDefined profileAllowedFields req.body) ∧
    (∀ req' : BodyRequest, req'.user = some u →
      (∀ k ∈ profileAllowedFields, getField req'.body k = getField req.body k) →
      updateProfile req' = updateProfile req) := by
  refine ⟨by simp [updateProfile, hu], ?_, ?_, ?_, ?_⟩
  · intro k v h
    exact (mem_pickDefined _ _ k v).mp h
  · intro statement hs
    unfold UserModel.update at hs
    dsimp only at hs
    split at hs
    · cases hs
    · cases hs
      refine ⟨rfl, rfl, ?_⟩
      intro k v hkv
      simp only [List.mem_filterMap, Option.map_eq_some', Prod.mk.injEq] at hkv
      obtain ⟨⟨k', v'⟩, hmem, w, -, rfl, rfl⟩ := hkv
      exact ((mem_pickDefined _ _ k' v').mp hmem).1
  · intro k hk v hmem
    have hallowed := ((mem_pickDefined _ _ k v).mp hmem).1
    have hnot : ∀ k ∈ ["role", "subscription_status", "subscription_expiry", "is_active",
        "is_banned", "exam_verified", "badge_verified", "mobile"],
        k ∉ profileAllowedFields := by decide
    exact hnot k hk hallowed
  · intro req' hu' hagree
    simp only [updateProfile, hu, hu']
    rw [pickDefined_congr _ _ _ hagree]

/-- Witness of C28: a body that names `role`, `is_banned` and `mobile` next
to `name` updates the name only. -/
theorem updateProfile_whitelist_witness :
    updateProfile ⟨some freeSeeker, "", profileBody⟩ = .ok (1, [("name", .string "Asha")]) :=
  (updateProfile_whitelist ⟨some freeSeeker, "", profileBody⟩ freeSeeker rfl).1

/-- C30. When the looked-up user is not the requester and the requester is not
an admin, the data that `getUserById` returns is the record without its
`mobile` field, every other field as it was; for the user themself or an
admin it is the whole record, the mobile number included. -/
theorem getUserById_hides_mobile (getUserWithSkills : String → Option JsObject)
    (req : BodyRequest) (u : User) (user : JsObject) (hu : req.user = some u)
    (hfound : getUserWithSkills req.id = some user) :
    (u.role ≠ some "admin" → getField user "id" ≠ some (.number u.id) →
      ∃ data, getUserById getUserWithSkills req = .ok data ∧
        getField data "mobile" = none ∧
        (∀ k, k ≠ "mobile" → getField data k = getField user k) ∧
        ∀ k v, (k, v) ∈ data ↔ (k, v) ∈ user ∧ k ≠ "mobile") ∧
    (u.role = some "admin" ∨ getField user "id" = some (.number u.id) →
      getUserById getUserWithSkills req = .ok user) := by
  constructor
  · intro hrole hid
    refine ⟨deleteField user "mobile", ?_, getField_deleteField_self _ _,
      fun k hk => getField_deleteField_other _ _ k hk, ?_⟩
    · simp [getUserById, hfound, hu, hrole, hid]
    · intro k v
      simp [deleteField, List.mem_filter]
  · intro h
    rcases h with h | h
    · simp [getUserById, hfound, hu, h]
    · simp [getUserById, hfound, hu, h]

/-- Witness of C30: the seeker 1 who looks up the user 7 gets the record
without the mobile number. -/
theorem getUserById_hides_mobile_witness :
    getUserById sampleUsers ⟨some freeSeeker, "7", []⟩ =
      .ok [("id", .number 7), ("name", .string "Asha")] := by
  obtain ⟨data, hdata, -, -, -⟩ :=
    (getUserById_hides_mobile sampleUsers ⟨some freeSeeker, "7", []⟩ freeSeeker ashaRecord
      rfl rfl).1 (by decide) (by
        intro h
        have h2 : getField ashaRecord "id" = some (.number 7) := rfl
        rw [h2] at h
        simp [freeSeeker] at h)
  rw [hdata]
  have : getUserById sampleUsers ⟨some freeSeeker, "7", []⟩ =
      .ok (deleteField ashaRecord "mobile") := by
    have hid : getField ashaRecord "id" ≠ some (.number ((freeSeeker.id : Nat) : ℚ)) := by
      have h2 : getField ashaRecord "id" = some (.number 7) := rfl
      rw [h2]
      simp [freeSeeker]
    have hfound : sampleUsers "7" = some ashaRecord := rfl
    have hrole : freeSeeker.role ≠ some "admin" := by decide
    simp [getUserById, hfound, hid, hrole]
  rw [this] at hdata
  cases hdata
  rfl

/-! ## Theorems: mobile numbers -/

theorem formatMobile_toList (mobile : String) :
    (formatMobile mobile).toList =
      (if "91".toList.isPrefixOf (mobile.toList.filter isDecimalDigit) &&
          decide ((mobile.toList.filter isDecimalDigit).length > 10) then
        (mobile.toList.filter isDecimalDigit).drop 2
      else mobile.toList.filter isDecimalDigit).drop
        ((if "91".toList.isPrefixOf (mobile.toList.filter isDecimalDigit) &&
            decide ((mobile.toList.filter isDecimalDigit).length > 10) then
          (mobile.toList.filter isDecimalDigit).drop 2
        else mobile.toList.filter isDecimalDigit).length - 10) := rfl

theorem formatMobile_digits (mobile : String) :
    ∀ c ∈ (formatMobile mobile).toList, isDecimalDigit c = true := by
  intro c hc
  rw [formatMobile_toList] at hc
  have h1 := List.mem_of_mem_drop hc
  split at h1
  · exact (List.mem_filter.mp (List.mem_of_mem_drop h1)).2
  · exact (List.mem_filter.mp h1).2

theorem formatMobile_length (mobile : String) : (formatMobile mobile).length ≤ 10 := by
  show (formatMobile mobile).toList.length ≤ 10
  rw [formatMobile_toList, List.length_drop]
  omega

/-- What `formatMobile` does to a string of at most ten digits: nothing. -/
theorem formatMobile_of_digits (s : String) (hd : ∀ c ∈ s.toList, isDecimalDigit c = true)
    (hl : s.toList.length ≤ 10) : formatMobile s = s := by
  have hf : s.toList.filter isDecimalDigit = s.toList := List.filter_eq_self.mpr hd
  have hnot : ("91".toList.isPrefixOf s.toList && decide (s.toList.length > 10)) = false := by
    have : decide (s.toList.length > 10) = false := by simpa using hl
    rw [this, Bool.and_false]
  have h0 : s.toList.length - 10 = 0 := by omega
  apply String.ext
  show (formatMobile s).toList = s.toList
  rw [formatMobile_toList, hf, hnot, if_neg (by simp), h0, List.drop_zero]

/-- What `formatMobile` returns when the digits of the input are a ten-digit
number, alone or after the prefix `91`. -/
theorem formatMobile_of_filter (x m : String) (hlen : m.toList.length = 10)
    (hx : x.toList.filter isDecimalDigit = m.toList ∨
      x.toList.filter isDecimalDigit = '9' :: '1' :: m.toList) :
    formatMobile x = m := by
  apply String.ext
  show (formatMobile x).toList = m.toList
  rw [formatMobile_toList]
  rcases hx with h | h
  · rw [h]
    have hnot : ("91".toList.isPrefixOf m.toList && decide (m.toList.length > 10)) = false := by
      have : decide (m.toList.length > 10) = false := by rw [hlen]; rfl
      rw [this, Bool.and_false]
    rw [hnot, if_neg (by simp), hlen]
    rfl
  · rw [h]
    have hyes : ("91".toList.isPrefixOf ('9' :: '1' :: m.toList) &&
        decide (('9' :: '1' :: m.toList).length > 10)) = true := by
      have h1 : "91".toList.isPrefixOf ('9' :: '1' :: m.toList) = true := by
        simp [List.isPrefixOf]
      have h2 : decide (('9' :: '1' :: m.toList).length > 10) = true := by
        simp only [List.length_cons, hlen]
        rfl
      rw [h1, h2]
      rfl
    rw [hyes, if_pos rfl]
    simp only [List.drop_succ_cons, List.drop_zero, hlen]
    rfl

theorem matchesMobilePattern_iff (s : String) :
    matchesMobilePattern s = true ↔ IsTenDigitMobile s := by
  unfold matchesMobilePattern IsTenDigitMobile
  cases hs : s.toList with
  | nil => simp
  | cons c rest =>
    simp only [Bool.and_eq_true, decide_eq_true_eq, beq_iff_eq, List.all_eq_true]
    constructor
    · rintro ⟨⟨⟨h6, h9⟩, hlen⟩, hall⟩
      refine ⟨by simp [hlen], ?_, c, rest, rfl, h6, h9⟩
      intro x hx
      rcases List.mem_cons.mp hx with rfl | hx
      · have h0 : '0' ≤ x := le_trans (by decide) h6
        simp [isDecimalDigit, h0, h9]
      · exact hall x hx
    · rintro ⟨hlen, hall, c', rest', heq, h6, h9⟩
      obtain ⟨rfl, rfl⟩ := List.cons.inj heq
      refine ⟨⟨⟨h6, h9⟩, ?_⟩, fun x hx => hall x (List.mem_cons_of_mem _ hx)⟩
      simpa using hlen

theorem digits_of_separated (x y : String)
    (h : x.toList.filter notSeparator = y.toList) :
    x.toList.filter isDecimalDigit = y.toList.filter isDecimalDigit := by
  rw [← h, List.filter_filter]
  apply List.filter_congr
  intro c _
  by_cases hc : isDecimalDigit c = true
  · have hsep : notSeparator c = true := by
      simp only [isDecimalDigit, decide_eq_true_eq] at hc
      have h1 : c ≠ ' ' := by
        rintro rfl
        exact absurd hc.1 (by decide)
      have h2 : c ≠ '-' := by
        rintro rfl
        exact absurd hc.1 (by decide)
      simp [notSeparator, h1, h2]
    simp [hc, hsep]
  · simp [hc]

/-- C29. `formatMobile` returns at most ten characters, all decimal digits,
and is idempotent; for a 10-digit number `m` that starts with 6 to 9 it
returns `m` for `m`, for `91` before `m` and for `+91` before `m`, also when
spaces or dashes are inserted, and `isValidMobile` accepts each of these
inputs; `isValidMobile` accepts `x` exactly when `formatMobile x` is ten
digits of which the first is 6 to 9. -/
theorem formatMobile_normalises :
    (∀ x, (∀ c ∈ (formatMobile x).toList, isDecimalDigit c = true) ∧
      (formatMobile x).length ≤ 10) ∧
    (∀ x, formatMobile (formatMobile x) = formatMobile x) ∧
    (∀ m, IsTenDigitMobile m →
      formatMobile m = m ∧ formatMobile ("91" ++ m) = m ∧ formatMobile ("+91" ++ m) = m ∧
      isValidMobile m = true ∧ isValidMobile ("91" ++ m) = true ∧
      isValidMobile ("+91" ++ m) = true ∧
      ∀ x y, y = m ∨ y = "91" ++ m ∨ y = "+91" ++ m →
        x.toList.filter notSeparator = y.toList →
        formatMobile x = m ∧ isValidMobile x = true) ∧
    (∀ x, isValidMobile x = true ↔ IsTenDigitMobile (formatMobile x)) := by
  have hvalid : ∀ x, isValidMobile x = true ↔ IsTenDigitMobile (formatMobile x) :=
    fun x => matchesMobilePattern_iff (formatMobile x)
  have hkey : ∀ m, IsTenDigitMobile m → ∀ y, y = m ∨ y = "91" ++ m ∨ y = "+91" ++ m →
      y.toList.filter isDecimalDigit = m.toList ∨
        y.toList.filter isDecimalDigit = '9' :: '1' :: m.toList := by
    intro m hm y hy
    have hf : m.toList.filter isDecimalDigit = m.toList := List.filter_eq_self.mpr hm.2.1
    rcases hy with rfl | rfl | rfl
    · exact Or.inl hf
    · right
      show ("91".data ++ m.data).filter isDecimalDigit = _
      rw [List.filter_append]
      show _ ++ m.toList.filter isDecimalDigit = _
      rw [hf]
      rfl
    · right
      show ("+91".data ++ m.data).filter isDecimalDigit = _
      rw [List.filter_append]
      show _ ++ m.toList.filter isDecimalDigit = _
      rw [hf]
      rfl
  have hfmt : ∀ m, IsTenDigitMobile m → ∀ x y, y = m ∨ y = "91" ++ m ∨ y = "+91" ++ m →
      x.toList.filter isDecimalDigit = y.toList.filter isDecimalDigit →
      formatMobile x = m ∧ isValidMobile x = true := by
    intro m hm x y hy hxy
    have h := formatMobile_of_filter x m hm.1 (by rw [hxy]; exact hkey m hm y hy)
    exact ⟨h, (hvalid x).mpr (by rw [h]; exact hm)⟩
  refine ⟨fun x => ⟨formatMobile_digits x, formatMobile_length x⟩, ?_, ?_, hvalid⟩
  · intro x
    exact formatMobile_of_digits _ (formatMobile_digits x) (formatMobile_length x)
  · intro m hm
    refine ⟨(hfmt m hm m m (Or.inl rfl) rfl).1, (hfmt m hm _ _ (Or.inr (Or.inl rfl)) rfl).1,
      (hfmt m hm _ _ (Or.inr (Or.inr rfl)) rfl).1, (hfmt m hm m m (Or.inl rfl) rfl).2,
      (hfmt m hm _ _ (Or.inr (Or.inl rfl)) rfl).2,
      (hfmt m hm _ _ (Or.inr (Or.inr rfl)) rfl).2, ?_⟩
    intro x y hy hxy
    exact hfmt m hm x y hy (digits_of_separated x y hxy)

/-- Witness of C29: the number `+91 98765-43210` is formatted to
`9876543210` and is a valid mobile number. -/
theorem formatMobile_normalises_witness :
    formatMobile "+91 98765-43210" = "9876543210" ∧
      isValidMobile "+91 98765-43210" = true :=
  (formatMobile_normalises.2.2.1 "9876543210"
      ⟨by decide, by decide, '9', "876543210".toList, by decide, by decide, by decide⟩).2.2.2.2.2.2
    "+91 98765-43210" ("+91" ++ "9876543210") (Or.inr (Or.inr rfl)) (by decide)

/-! ## Theorems: verifying a one-time password -/

theorem latestRecord_foldl_map (f : OtpRecord → OtpRecord)
    (hf : ∀ r, (f r).created_at = r.created_at) (rows : List OtpRecord) :
    ∀ best : Option OtpRecord,
      (rows.map f).foldl
          (fun best r =>
            match best with
            | none => some r
            | some b => if b.created_at < r.created_at then some r else some b)
          (best.map f) =
        (rows.foldl
          (fun best r =>
            match best with
            | none => some r
            | some b => if b.created_at < r.created_at then some r else some b)
          best).map f := by
  induction rows with
  | nil => intro best; rfl
  | cons r rows ih =>
    intro best
    simp only [List.map_cons, List.foldl_cons]
    rw [← ih]
    congr 1
    cases best with
    | none => rfl
    | some b =>
      simp only [Option.map_some', hf]
      split_ifs <;> rfl

theorem latestRecord_map (f : OtpRecord → OtpRecord)
    (hf : ∀ r, (f r).created_at = r.created_at) (rows : List OtpRecord) :
    latestRecord (rows.map f) = (latestRecord rows).map f :=
  latestRecord_foldl_map f hf rows none

theorem selectOtp_map (f : OtpRecord → OtpRecord)
    (hc : ∀ r, (f r).created_at = r.created_at) (hm : ∀ r, (f r).mobile = r.mobile)
    (hp : ∀ r, (f r).purpose = r.purpose) (hv : ∀ r, (f r).verified = r.verified)
    (table : List OtpRecord) (mobile purpose : String) :
    selectOtp (table.map f) mobile purpose = (selectOtp table mobile purpose).map f := by
  unfold selectOtp
  rw [List.filter_map, latestRecord_map f hc]
  congr 2
  apply List.filter_congr
  intro r _
  simp [hm, hp, hv]

theorem selectOtp_incrementAttempts (table : List OtpRecord) (mobile purpose : String)
    (r : OtpRecord) (h : selectOtp table mobile purpose = some r) :
    selectOtp (incrementAttempts table r.id) mobile purpose =
      some { r with attempts := r.attempts + 1 } := by
  unfold incrementAttempts
  rw [selectOtp_map _ _ _ _ _ table, h]
  · simp
  all_goals intro x; split_ifs <;> rfl



theorem verifyOTP_of_select (now : Nat) (table : List OtpRecord) (mobile otp purpose : String)
    (r : OtpRecord) (h : selectOtp table (formatMobile mobile) purpose = some r) :
    verifyOTP now table mobile otp purpose =
      if r.expires_at < now then
        (.error ⟨"OTP has expired. Please request a new one.", 400⟩, table)
      else if r.attempts ≥ OTP_SETTINGS.MAX_ATTEMPTS then
        (.error ⟨"Maximum OTP attempts exceeded. Please request a new one.", 400⟩, table)
      else if r.otp ≠ otp then
        (.error ⟨"Invalid OTP. " ++ toString ((OTP_SETTINGS.MAX_ATTEMPTS : Int) - r.attempts - 1) ++
            " attempts remaining.", 400⟩,
          incrementAttempts table r.id)
      else
        (.ok ⟨true, "OTP verified successfully"⟩, markVerified table r.id now) := by
  unfold verifyOTP
  simp only [h]

theorem verifyOTP_wrong_step (now : Nat) (table : List OtpRecord) (mobile otp purpose : String)
    (r : OtpRecord) (h : selectOtp table (formatMobile mobile) purpose = some r)
    (hw : r.otp ≠ otp) :
    ∃ r' : OtpRecord,
      selectOtp (verifyOTP now table mobile otp purpose).2 (formatMobile mobile) purpose = some r' ∧
        r'.otp = r.otp ∧ r'.expires_at = r.expires_at ∧ r.attempts ≤ r'.attempts ∧
        (r.expires_at < now ∨ 3 ≤ r'.attempts ∨ r'.attempts = r.attempts + 1) := by
  rw [verifyOTP_of_select now table mobile otp purpose r h]
  by_cases he : r.expires_at < now
  · rw [if_pos he]
    exact ⟨r, h, rfl, rfl, le_refl _, Or.inl he⟩
  · rw [if_neg he]
    by_cases ha : r.attempts ≥ OTP_SETTINGS.MAX_ATTEMPTS
    · rw [if_pos ha]
      exact ⟨r, h, rfl, rfl, le_refl _, Or.inr (Or.inl ha)⟩
    · rw [if_neg ha, if_pos hw]
      exact ⟨_, selectOtp_incrementAttempts table _ purpose r h, rfl, rfl, Nat.le_succ _,
        Or.inr (Or.inr rfl)⟩

theorem verifyOTP_rejects_spent (now : Nat) (table : List OtpRecord)
    (mobile otp purpose : String) (r : OtpRecord)
    (h : selectOtp table (formatMobile mobile) purpose = some r)
    (hr : r.expires_at < now ∨ 3 ≤ r.attempts) :
    ∃ e, verifyOTP now table mobile otp purpose = (.error e, table) := by
  rw [verifyOTP_of_select now table mobile otp purpose r h]
  by_cases he : r.expires_at < now
  · rw [if_pos he]; exact ⟨_, rfl⟩
  · have ha : r.attempts ≥ OTP_SETTINGS.MAX_ATTEMPTS := hr.resolve_left he
    rw [if_neg he, if_pos ha]; exact ⟨_, rfl⟩

theorem verifyOTP_three_wrong (t1 t2 t3 t4 : Nat) (table : List OtpRecord)
    (mobile purpose w1 w2 w3 : String) (r : OtpRecord)
    (h : selectOtp table (formatMobile mobile) purpose = some r)
    (h1 : w1 ≠ r.otp) (h2 : w2 ≠ r.otp) (h3 : w3 ≠ r.otp)
    (h12 : t1 ≤ t2) (h23 : t2 ≤ t3) (h34 : t3 ≤ t4) :
    ∃ e, (verifyOTP t4
        (verifyOTP t3 (verifyOTP t2 (verifyOTP t1 table mobile w1 purpose).2 mobile w2 purpose).2
          mobile w3 purpose).2 mobile r.otp purpose).1 = .error e := by
  obtain ⟨r1, s1, o1, e1, a1, c1⟩ := verifyOTP_wrong_step t1 table mobile w1 purpose r h (Ne.symm h1)
  obtain ⟨r2, s2, o2, e2, a2, c2⟩ :=
    verifyOTP_wrong_step t2 _ mobile w2 purpose r1 s1 (by rw [o1]; exact Ne.symm h2)
  obtain ⟨r3, s3, o3, e3, a3, c3⟩ :=
    verifyOTP_wrong_step t3 _ mobile w3 purpose r2 s2 (by rw [o2, o1]; exact Ne.symm h3)
  obtain ⟨e, he⟩ := verifyOTP_rejects_spent t4 _ mobile r.otp purpose r3 s3 (by omega)
  exact ⟨e, by rw [he]⟩



theorem latestRecord_foldl_spec (rows : List OtpRecord) :
    ∀ (best : Option OtpRecord) (r : OtpRecord),
      rows.foldl
          (fun best r =>
            match best with
            | none => some r
            | some b => if b.created_at < r.created_at then some r else some b)
          best = some r →
        (r ∈ rows ∨ best = some r) ∧ (∀ x ∈ rows, x.created_at ≤ r.created_at) ∧
          ∀ b, best = some b → b.created_at ≤ r.created_at := by
  induction rows with
  | nil =>
    intro best r h
    simp only [List.foldl_nil] at h
    refine ⟨Or.inr h, by simp, ?_⟩
    intro b hb
    rw [h] at hb
    cases hb
    exact le_refl _
  | cons x rows ih =>
    intro best r h
    simp only [List.foldl_cons] at h
    obtain ⟨hmem, hall, hbest⟩ := ih _ r h
    cases best with
    | none =>
      have hx := hbest x rfl
      refine ⟨Or.inl ?_, ?_, by simp⟩
      · rcases hmem with hm | hm
        · exact List.mem_cons_of_mem _ hm
        · cases hm; exact List.mem_cons_self _ _
      · intro y hy
        rcases List.mem_cons.mp hy with rfl | hy
        · exact hx
        · exact hall y hy
    | some b =>
      by_cases hlt : b.created_at < x.created_at
      · simp only [hlt, if_true] at hmem hbest
        have hx := hbest x rfl
        refine ⟨Or.inl ?_, ?_, ?_⟩
        · rcases hmem with hm | hm
          · exact List.mem_cons_of_mem _ hm
          · cases hm; exact List.mem_cons_self _ _
        · intro y hy
          rcases List.mem_cons.mp hy with rfl | hy
          · exact hx
          · exact hall y hy
        · intro b' hb'
          cases hb'
          omega
      · simp only [hlt, if_false] at hmem hbest
        have hb := hbest b rfl
        refine ⟨?_, ?_, ?_⟩
        · rcases hmem with hm | hm
          · exact Or.inl (List.mem_cons_of_mem _ hm)
          · exact Or.inr hm
        · intro y hy
          rcases List.mem_cons.mp hy with rfl | hy
          · omega
          · exact hall y hy
        · intro b' hb'
          cases hb'
          exact hb

theorem latestRecord_foldl_some (rows : List OtpRecord) :
    ∀ b : OtpRecord,
      rows.foldl
          (fun best r =>
            match best with
            | none => some r
            | some b => if b.created_at < r.created_at then some r else some b)
          (some b) ≠ none := by
  induction rows with
  | nil => intro b h; cases h
  | cons x rows ih =>
    intro b
    simp only [List.foldl_cons]
    split_ifs
    · exact ih x
    · exact ih b

theorem selectOtp_some (table : List OtpRecord) (mobile purpose : String) (r : OtpRecord)
    (h : selectOtp table mobile purpose = some r) :
    r ∈ table ∧ r.mobile = mobile ∧ r.purpose = purpose ∧ r.verified = false ∧
      ∀ x ∈ table, x.mobile = mobile → x.purpose = purpose → x.verified = false →
        x.created_at ≤ r.created_at := by
  obtain ⟨hmem, hall, -⟩ := latestRecord_foldl_spec _ none r h
  have hmem := hmem.resolve_right (by simp)
  rw [List.mem_filter] at hmem
  obtain ⟨hin, hp⟩ := hmem
  simp only [Bool.and_eq_true, beq_iff_eq, Bool.not_eq_true'] at hp
  refine ⟨hin, hp.1.1, hp.1.2, hp.2, ?_⟩
  intro x hx hm hpu hv
  apply hall
  rw [List.mem_filter]
  exact ⟨hx, by simp [hm, hpu, hv]⟩

theorem selectOtp_none (table : List OtpRecord) (mobile purpose : String) :
    selectOtp table mobile purpose = none ↔
      ∀ x ∈ table, ¬ (x.mobile = mobile ∧ x.purpose = purpose ∧ x.verified = false) := by
  unfold selectOtp latestRecord
  constructor
  · intro h x hx hp
    have hmem : x ∈ table.filter
        (fun r => r.mobile == mobile && r.purpose == purpose && !r.verified) := by
      rw [List.mem_filter]
      exact ⟨hx, by simp [hp.1, hp.2.1, hp.2.2]⟩
    cases hl : table.filter
        (fun r => r.mobile == mobile && r.purpose == purpose && !r.verified) with
    | nil => rw [hl] at hmem; cases hmem
    | cons y ys =>
      rw [hl] at h
      simp only [List.foldl_cons] at h
      exact latestRecord_foldl_some ys y h
  · intro h
    have hnil : table.filter
        (fun r => r.mobile == mobile && r.purpose == purpose && !r.verified) = [] := by
      rw [List.filter_eq_nil_iff]
      intro x hx hp
      simp only [Bool.and_eq_true, beq_iff_eq, Bool.not_eq_true'] at hp
      exact h x hx ⟨hp.1.1, hp.1.2, hp.2⟩
    rw [hnil]
    rfl

/-- C26. `verifyOTP` succeeds exactly when the latest unverified record of the
number and purpose exists, has not expired, has fewer than `MAX_ATTEMPTS` (3)
attempts and stores the supplied code, and then marks that record verified; a
wrong code on a live record adds exactly 1 to its attempts and reports
`MAX_ATTEMPTS - attempts - 1 ≥ 0` remaining; every other failure leaves the
table unchanged; and after three wrong codes the correct code is rejected. -/
theorem verifyOTP_spec :
    OTP_SETTINGS.MAX_ATTEMPTS = 3 ∧
    (∀ (now : Nat) (table : List OtpRecord) (mobile otp purpose : String),
      ((∃ answer, (verifyOTP now table mobile otp purpose).1 = .ok answer) ↔
        ∃ r, selectOtp table (formatMobile mobile) purpose = some r ∧ ¬ r.expires_at < now ∧
          r.attempts < OTP_SETTINGS.MAX_ATTEMPTS ∧ r.otp = otp) ∧
      (selectOtp table (formatMobile mobile) purpose = none ↔
        ∀ x ∈ table,
          ¬ (x.mobile = formatMobile mobile ∧ x.purpose = purpose ∧ x.verified = false)) ∧
      (selectOtp table (formatMobile mobile) purpose = none →
        verifyOTP now table mobile otp purpose =
          (.error ⟨"No OTP found. Please request a new one.", 400⟩, table)) ∧
      ∀ r, selectOtp table (formatMobile mobile) purpose = some r →
        (r ∈ table ∧ r.mobile = formatMobile mobile ∧ r.purpose = purpose ∧ r.verified = false ∧
          ∀ x ∈ table, x.mobile = formatMobile mobile → x.purpose = purpose →
            x.verified = false → x.created_at ≤ r.created_at) ∧
        (¬ r.expires_at < now → r.attempts < OTP_SETTINGS.MAX_ATTEMPTS → r.otp = otp →
          verifyOTP now table mobile otp purpose =
            (.ok ⟨true, "OTP verified successfully"⟩, markVerified table r.id now)) ∧
        (¬ r.expires_at < now → r.attempts < OTP_SETTINGS.MAX_ATTEMPTS → r.otp ≠ otp →
          (0 : Int) ≤ (OTP_SETTINGS.MAX_ATTEMPTS : Int) - r.attempts - 1 ∧
          verifyOTP now table mobile otp purpose =
            (.error ⟨"Invalid OTP. " ++
                toString ((OTP_SETTINGS.MAX_ATTEMPTS : Int) - r.attempts - 1) ++
                " attempts remaining.", 400⟩,
              incrementAttempts table r.id) ∧
          selectOtp (incrementAttempts table r.id) (formatMobile mobile) purpose =
            some { r with attempts := r.attempts + 1 }) ∧
        (r.expires_at < now ∨ OTP_SETTINGS.MAX_ATTEMPTS ≤ r.attempts →
          ∃ e, verifyOTP now table mobile otp purpose = (.error e, table))) ∧
    (∀ (t1 t2 t3 t4 : Nat) (table : List OtpRecord) (mobile purpose w1 w2 w3 : String)
        (r : OtpRecord),
      selectOtp table (formatMobile mobile) purpose = some r →
      w1 ≠ r.otp → w2 ≠ r.otp → w3 ≠ r.otp → t1 ≤ t2 → t2 ≤ t3 → t3 ≤ t4 →
      ∃ e, (verifyOTP t4
          (verifyOTP t3
            (verifyOTP t2 (verifyOTP t1 table mobile w1 purpose).2 mobile w2 purpose).2
            mobile w3 purpose).2 mobile r.otp purpose).1 = .error e) := by
  refine ⟨rfl, ?_, ?_⟩
  · intro now table mobile otp purpose
    refine ⟨?_, selectOtp_none table _ purpose, ?_, ?_⟩
    · constructor
      · rintro ⟨msg, hmsg⟩
        cases hs : selectOtp table (formatMobile mobile) purpose with
        | none =>
          unfold verifyOTP at hmsg
          simp only [hs] at hmsg
          cases hmsg
        | some r =>
          rw [verifyOTP_of_select now table mobile otp purpose r hs] at hmsg
          by_cases he : r.expires_at < now
          · rw [if_pos he] at hmsg; cases hmsg
          · rw [if_neg he] at hmsg
            by_cases ha : r.attempts ≥ OTP_SETTINGS.MAX_ATTEMPTS
            · rw [if_pos ha] at hmsg; cases hmsg
            · rw [if_neg ha] at hmsg
              by_cases hw : r.otp ≠ otp
              · rw [if_pos hw] at hmsg; cases hmsg
              · exact ⟨r, rfl, he, Nat.lt_of_not_le ha, not_not.mp hw⟩
      · rintro ⟨r, hs, he, ha, ho⟩
        rw [verifyOTP_of_select now table mobile otp purpose r hs, if_neg he,
          if_neg (Nat.not_le_of_lt ha), if_neg (not_not.mpr ho)]
        exact ⟨_, rfl⟩
    · intro hs
      unfold verifyOTP
      simp only [hs]
    · intro r hs
      refine ⟨selectOtp_some table _ purpose r hs, ?_, ?_, ?_⟩
      · intro he ha ho
        rw [verifyOTP_of_select now table mobile otp purpose r hs, if_neg he,
          if_neg (Nat.not_le_of_lt ha), if_neg (not_not.mpr ho)]
      · intro he ha hw
        refine ⟨?_, ?_, selectOtp_incrementAttempts table _ purpose r hs⟩
        · have h3 : OTP_SETTINGS.MAX_ATTEMPTS = 3 := rfl
          rw [h3] at ha ⊢
          push_cast
          omega
        · rw [verifyOTP_of_select now table mobile otp purpose r hs, if_neg he,
            if_neg (Nat.not_le_of_lt ha), if_pos hw]
      · intro hr
        exact verifyOTP_rejects_spent now table mobile otp purpose r hs hr
  · intro t1 t2 t3 t4 table mobile purpose w1 w2 w3 r hs h1 h2 h3 h12 h23 h34
    exact verifyOTP_three_wrong t1 t2 t3 t4 table mobile purpose w1 w2 w3 r hs h1 h2 h3
      h12 h23 h34

/-- Witness of C26 on `otpLog`: three wrong codes for the fresh row, then the
stored code `123456`, all before the row expires. -/
theorem verifyOTP_spec_witness :
    selectOtp otpLog (formatMobile "+91 98765 43210") "login" = some freshOtp ∧
      ∃ e, (verifyOTP 204
          (verifyOTP 203
            (verifyOTP 202 (verifyOTP 201 otpLog "+91 98765 43210" "000000" "login").2
              "+91 98765 43210" "000001" "login").2
            "+91 98765 43210" "000002" "login").2 "+91 98765 43210" freshOtp.otp "login").1 =
        .error e :=
  ⟨by decide,
    verifyOTP_spec.2.2 201 202 203 204 otpLog "+91 98765 43210" "login" "000000" "000001"
      "000002" freshOtp (by decide) (by decide) (by decide) (by decide) (by decide) (by decide)
      (by decide)⟩

/-! ## Theorems: placeholders and bound values -/

theorem countPlaceholders_append (a b : String) :
    countPlaceholders (a ++ b) = countPlaceholders a + countPlaceholders b := by
  unfold countPlaceholders
  rw [String.toList, String.data_append, List.count_append]
  rfl

theorem countPlaceholders_foldl (fragments : List String) :
    ∀ conditions : String,
      countPlaceholders
          (fragments.foldl (fun conditions fragment => conditions ++ fragment) conditions) =
        countPlaceholders conditions + (fragments.map countPlaceholders).sum := by
  induction fragments with
  | nil => intro conditions; simp
  | cons fragment fragments ih =>
    intro conditions
    rw [List.foldl_cons, ih, countPlaceholders_append, List.map_cons, List.sum_cons, Nat.add_assoc]

theorem countPlaceholders_concatSql {α β : Type} (sql : α → String) (params : α → List β)
    (h : ∀ c, countPlaceholders (sql c) = (params c).length) (conditions : List α) :
    countPlaceholders (concatSql (conditions.map sql)) = (conditions.flatMap params).length := by
  unfold concatSql
  rw [countPlaceholders_foldl]
  have h0 : countPlaceholders "" = 0 := rfl
  rw [h0, Nat.zero_add]
  induction conditions with
  | nil => rfl
  | cons c conditions ih =>
    rw [List.map_cons, List.map_cons, List.sum_cons, List.flatMap_cons, List.length_append, ih, h]

theorem seekerCondition_placeholders (F : Type) (c : SeekerCondition) :
    countPlaceholders c.sql = (c.params : List (SqlParam F)).length := by
  cases c <;> rfl

theorem jobCondition_placeholders (F : Type) (c : JobCondition) :
    countPlaceholders c.sql = (c.params : List (SqlParam F)).length := by
  cases c <;> rfl

theorem searchWithinRadius_placeholders {F : Type} (table conditions : String)
    (latitude longitude radiusKm : F) (params : List (SqlParam F))
    (ht : countPlaceholders table = 0) (hc : countPlaceholders conditions = params.length) :
    countPlaceholders (searchWithinRadiusHead table) = 3 ∧
      countPlaceholders (searchWithinRadiusSql table conditions) =
        (searchWithinRadiusBound latitude longitude radiusKm params).length ∧
      (searchWithinRadiusBound latitude longitude radiusKm params)[
          countPlaceholders (searchWithinRadiusHead table ++ conditions ++ " ")]? =
        some (.number radiusKm) := by
  have hh : countPlaceholders (searchWithinRadiusHead table) = 3 := by
    unfold searchWithinRadiusHead
    rw [countPlaceholders_append, countPlaceholders_append, ht]
    rfl
  have hb : countPlaceholders " " = 0 := by decide
  have hv : countPlaceholders havingClause = 1 := by decide
  have ho : countPlaceholders orderClause = 0 := by decide
  refine ⟨hh, ?_, ?_⟩
  · unfold searchWithinRadiusSql searchWithinRadiusBound
    simp only [countPlaceholders_append, hh, hc, hb, hv, ho, List.length_append,
      List.length_cons, List.length_nil]
  · unfold searchWithinRadiusBound
    simp only [countPlaceholders_append, hh, hc, hb]
    rw [List.getElem?_append_right (by simp; omega)]
    have hi : 3 + params.length + 0 -
        ([SqlParam.number latitude, .number longitude, .number latitude] ++ params).length = 0 := by
      simp; omega
    rw [hi]
    rfl



/-- C25. For every filters value of `searchJobSeekersNearby` and of
`searchJobsNearby`, each fragment added to `conditions` has as many
placeholders as values pushed on `params`, so after any number of fragments,
and for the whole string, the placeholders and the values are equally many and
in the same order; the text of `searchWithinRadius` then has as many
placeholders as the bound array `[latitude, longitude, latitude, ...params,
radiusKm]` has values, the first three being those of the distance column, and
`radiusKm` is the value at the position of the placeholder of
`HAVING distance <= ?`, the last of the text. -/
theorem placeholders_match_params (F : Type) :
    (∀ c : SeekerCondition, countPlaceholders c.sql = (c.params : List (SqlParam F)).length) ∧
    (∀ c : JobCondition, countPlaceholders c.sql = (c.params : List (SqlParam F)).length) ∧
    (∀ (filters : SeekerFilters) (n : Nat),
      countPlaceholders (concatSql (((seekerConditions filters).take n).map SeekerCondition.sql)) =
        ((((seekerConditions filters).take n).flatMap SeekerCondition.params :
          List (SqlParam F))).length) ∧
    (∀ (filters : JobFilters) (n : Nat),
      countPlaceholders (concatSql (((jobConditions filters).take n).map JobCondition.sql)) =
        ((((jobConditions filters).take n).flatMap JobCondition.params :
          List (SqlParam F))).length) ∧
    (∀ filters : SeekerFilters,
      countPlaceholders (seekerSql filters) = (seekerParams F filters).length) ∧
    (∀ filters : JobFilters,
      countPlaceholders (jobSql filters) = (jobParams F filters).length) ∧
    (∀ (filters : SeekerFilters) (latitude longitude radiusKm : F),
      countPlaceholders (searchWithinRadiusSql "users" (seekerSql filters)) =
          (searchWithinRadiusBound latitude longitude radiusKm (seekerParams F filters)).length ∧
        (searchWithinRadiusBound latitude longitude radiusKm (seekerParams F filters))[
            countPlaceholders (searchWithinRadiusHead "users" ++ seekerSql filters ++ " ")]? =
          some (.number radiusKm)) ∧
    (∀ (filters : JobFilters) (latitude longitude radiusKm : F),
      countPlaceholders (searchWithinRadiusSql "jobs" (jobSql filters)) =
          (searchWithinRadiusBound latitude longitude radiusKm (jobParams F filters)).length ∧
        (searchWithinRadiusBound latitude longitude radiusKm (jobParams F filters))[
            countPlaceholders (searchWithinRadiusHead "jobs" ++ jobSql filters ++ " ")]? =
          some (.number radiusKm)) ∧
    (∀ (table conditions : String),
      searchWithinRadiusSql table conditions =
        (searchWithinRadiusHead table ++ conditions ++ " ") ++ havingClause ++ orderClause) ∧
    countPlaceholders havingClause = 1 ∧ countPlaceholders orderClause = 0 ∧
    countPlaceholders (searchWithinRadiusHead "users") = 3 ∧
    countPlaceholders (searchWithinRadiusHead "jobs") = 3 ∧
    ∀ (latitude longitude radiusKm : F) (params : List (SqlParam F)),
      (searchWithinRadiusBound latitude longitude radiusKm params).take 3 =
        [.number latitude, .number longitude, .number latitude] := by
  have hs := fun conditions : List SeekerCondition =>
    countPlaceholders_concatSql SeekerCondition.sql
      (SeekerCondition.params : SeekerCondition → List (SqlParam F))
      (seekerCondition_placeholders F) conditions
  have hj := fun conditions : List JobCondition =>
    countPlaceholders_concatSql JobCondition.sql
      (JobCondition.params : JobCondition → List (SqlParam F))
      (jobCondition_placeholders F) conditions
  refine ⟨seekerCondition_placeholders F, jobCondition_placeholders F, fun filters n => hs _,
    fun filters n => hj _, fun filters => hs _, fun filters => hj _, ?_, ?_, fun _ _ => rfl,
    by decide, by decide, by decide, by decide, fun _ _ _ _ => rfl⟩
  · intro filters latitude longitude radiusKm
    exact (searchWithinRadius_placeholders "users" (seekerSql filters) latitude longitude radiusKm
      (seekerParams F filters) (by decide) (hs _)).2
  · intro filters latitude longitude radiusKm
    exact (searchWithinRadius_placeholders "jobs" (jobSql filters) latitude longitude radiusKm
      (jobParams F filters) (by decide) (hj _)).2

/-! ## Theorems: the skill filter under the prepared statement -/

theorem skillsDb_alice (arrayValue : List Nat → Option Nat) :
    (seekerConditions skillsOneOrTwo).all
        (fun c => c.holds (skillsDb arrayValue).arrayValue (skillsDb arrayValue).user_skills
          alice) = decide (arrayValue [1, 2] = some 1) := by
  have hc : seekerConditions skillsOneOrTwo = [.fixed, .skillIn [1, 2]] := by decide
  have hf : SeekerCondition.fixed.holds arrayValue (skillsDb arrayValue).user_skills alice =
      true := rfl
  rw [hc]
  show (SeekerCondition.fixed.holds arrayValue (skillsDb arrayValue).user_skills alice &&
    ((SeekerCondition.skillIn [1, 2]).holds arrayValue (skillsDb arrayValue).user_skills alice &&
      true)) = _
  rw [hf]
  cases hv : arrayValue [1, 2] with
  | none => simp [SeekerCondition.holds, hv]
  | some s =>
    simp only [SeekerCondition.holds, hv, skillsDb, alice]
    by_cases h1 : s = 1
    · subst h1; decide
    · simp [h1, Ne.symm h1]

theorem skillsDb_bob (arrayValue : List Nat → Option Nat) :
    (seekerConditions skillsOneOrTwo).all
        (fun c => c.holds (skillsDb arrayValue).arrayValue (skillsDb arrayValue).user_skills
          bob) = decide (arrayValue [1, 2] = some 2) := by
  have hc : seekerConditions skillsOneOrTwo = [.fixed, .skillIn [1, 2]] := by decide
  have hf : SeekerCondition.fixed.holds arrayValue (skillsDb arrayValue).user_skills bob =
      true := rfl
  rw [hc]
  show (SeekerCondition.fixed.holds arrayValue (skillsDb arrayValue).user_skills bob &&
    ((SeekerCondition.skillIn [1, 2]).holds arrayValue (skillsDb arrayValue).user_skills bob &&
      true)) = _
  rw [hf]
  cases hv : arrayValue [1, 2] with
  | none => simp [SeekerCondition.holds, hv]
  | some s =>
    simp only [SeekerCondition.holds, hv, skillsDb, bob]
    by_cases h2 : s = 2
    · subst h2; decide
    · simp [h2, Ne.symm h2]

theorem skillsDb_no_filters (arrayValue : List Nat → Option Nat) :
    searchJobSeekersNearby realOps (skillsDb arrayValue) 0 0 10 {} [(alice, 0), (bob, 0)] := by
  have h1 : (seekerConditions {}).all
      (fun c => c.holds (skillsDb arrayValue).arrayValue (skillsDb arrayValue).user_skills
        alice) = true := by
    show (SeekerCondition.fixed.holds arrayValue (skillsDb arrayValue).user_skills alice &&
      true) = true
    rfl
  have h2 : (seekerConditions {}).all
      (fun c => c.holds (skillsDb arrayValue).arrayValue (skillsDb arrayValue).user_skills
        bob) = true := by
    show (SeekerCondition.fixed.holds arrayValue (skillsDb arrayValue).user_skills bob &&
      true) = true
    rfl
  unfold searchJobSeekersNearby searchWithinRadius
  refine ⟨?_, by simp [List.Sorted, distanceAscending]⟩
  rw [show (skillsDb arrayValue).users = [alice, bob] from rfl]
  simp only [List.filterMap_cons, List.filterMap_nil,
    selectRow_origin UserRow.latitude UserRow.longitude _ alice rfl rfl,
    selectRow_origin UserRow.latitude UserRow.longitude _ bob rfl rfl, h1, h2]
  simp

theorem skillsDb_skillsOneOrTwo (arrayValue : List Nat → Option Nat)
    (results : List (UserRow ℝ × ℝ)) :
    searchJobSeekersNearby realOps (skillsDb arrayValue) 0 0 10 skillsOneOrTwo results ↔
      results =
        if arrayValue [1, 2] = some 1 then [(alice, 0)]
        else if arrayValue [1, 2] = some 2 then [(bob, 0)]
        else [] := by
  unfold searchJobSeekersNearby searchWithinRadius
  rw [show (skillsDb arrayValue).users = [alice, bob] from rfl]
  simp only [List.filterMap_cons, List.filterMap_nil,
    selectRow_origin UserRow.latitude UserRow.longitude _ alice rfl rfl,
    selectRow_origin UserRow.latitude UserRow.longitude _ bob rfl rfl,
    skillsDb_alice arrayValue, skillsDb_bob arrayValue]
  by_cases h1 : arrayValue [1, 2] = some 1
  · have h2 : arrayValue [1, 2] ≠ some 2 := by rw [h1]; decide
    simp only [h1, h2, decide_True, decide_False, if_true, Bool.false_eq_true, if_false]
    constructor
    · rintro ⟨hp, -⟩
      exact List.perm_singleton.mp hp
    · rintro rfl
      exact ⟨List.Perm.refl _, List.sorted_singleton _⟩
  · by_cases h2 : arrayValue [1, 2] = some 2
    · simp only [h1, h2, decide_True, decide_False, if_true, Bool.false_eq_true, if_false]
      constructor
      · rintro ⟨hp, -⟩
        exact List.perm_singleton.mp hp
      · rintro rfl
        exact ⟨List.Perm.refl _, List.sorted_singleton _⟩
    · simp only [h1, h2, decide_False, Bool.false_eq_true, if_false]
      constructor
      · rintro ⟨hp, -⟩
        exact List.perm_nil.mp hp
      · rintro rfl
        exact ⟨List.Perm.refl _, List.sorted_nil⟩

/-- C14 at its failing input.  `alice` holds the skill 1 only and `bob` the
skill 2 only; without a skill filter the query around `(0, 0)` returns both.
With the skills 1 and 2 listed, the array `[1, 2]` is the one value bound to
the one placeholder of `skill_id IN (?)`: whatever skill id this value equals,
the query returns `alice` alone, `bob` alone or nobody, and never both,
although each of them holds a listed skill. -/
theorem skill_list_bound_as_one_value :
    seekerConditions skillsOneOrTwo = [.fixed, .skillIn [1, 2]] ∧
    countPlaceholders (SeekerCondition.skillIn [1, 2]).sql = 1 ∧
    ((SeekerCondition.skillIn [1, 2]).params : List (SqlParam ℝ)) = [.list [1, 2]] ∧
    (∀ arrayValue, UserSkill.mk alice.id 1 ∈ (skillsDb arrayValue).user_skills ∧
      UserSkill.mk bob.id 2 ∈ (skillsDb arrayValue).user_skills) ∧
    (∀ arrayValue,
      searchJobSeekersNearby realOps (skillsDb arrayValue) 0 0 10 {} [(alice, 0), (bob, 0)]) ∧
    (∀ arrayValue results,
      searchJobSeekersNearby realOps (skillsDb arrayValue) 0 0 10 skillsOneOrTwo results ↔
        results =
          if arrayValue [1, 2] = some 1 then [(alice, 0)]
          else if arrayValue [1, 2] = some 2 then [(bob, 0)]
          else []) ∧
    (∀ arrayValue results,
      ¬ (searchJobSeekersNearby realOps (skillsDb arrayValue) 0 0 10 skillsOneOrTwo results ∧
        (alice, (0 : ℝ)) ∈ results ∧ (bob, (0 : ℝ)) ∈ results)) := by
  refine ⟨by decide, by decide, rfl, fun _ => ⟨by simp [skillsDb, alice], by simp [skillsDb, bob]⟩, skillsDb_no_filters,
    skillsDb_skillsOneOrTwo, ?_⟩
  rintro arrayValue results ⟨h, ha, hb⟩
  rw [(skillsDb_skillsOneOrTwo arrayValue results).mp h] at ha hb
  split_ifs at ha hb
  · rw [List.mem_singleton] at hb
    exact alice_ne_bob (congrArg Prod.fst hb).symm
  · rw [List.mem_singleton] at ha
    exact alice_ne_bob (congrArg Prod.fst ha)
  · exact List.not_mem_nil _ ha

end JobPortal
